import Mathlib

/-! # Error classification and retry policy of Music_Playlist_App

A shallow embedding of `src/utils/vercelErrors.js` and `src/utils/errorHandler.js`.

JavaScript values are embedded as the inductive type `JSVal`.  The fragment covers
`undefined`, `null`, booleans, integer numbers, strings, ordinary objects with own
enumerable data properties (created by an object literal, or instances of `Error`),
objects that offer a `get(name)` lookup (the `Headers` of a fetch response), and the
built-in members that every ordinary object inherits from `Object.prototype`.
Property getters, symbols, arrays, proxies and non-integer numbers are outside of it.

A computation either returns a value, throws a `TypeError`, or leaves the fragment
(`Abort.unmodelled`): the decimal reading of a string in a numeric comparison, the
source text of a built-in function, etc.  No theorem below is stated about an input
on which the embedding leaves the fragment without saying so in a hypothesis.
-/

namespace MusicPlaylist

/-! ## JavaScript values -/

/-- Kind of an ordinary object: made by an object literal (prototype `Object.prototype`)
or an instance of `Error` (prototype `Error.prototype`). -/
inductive ObjKind
  | plain
  | error
  deriving DecidableEq, Repr

/-- JavaScript values of the embedded fragment.  The property list of an object holds
its own enumerable properties in creation order. -/
inductive JSVal
  | undefined
  | null
  | bool (b : Bool)
  | num (n : Int)
  | str (s : String)
  | obj (kind : ObjKind) (props : List (String × JSVal))
  | headers (table : List (String × String))
  | builtin (name : String)
  deriving Repr

mutual
/-- Decision procedure for equality of values. -/
def JSVal.decEq : (a b : JSVal) → Decidable (a = b)
  | .undefined, .undefined => isTrue rfl
  | .null, .null => isTrue rfl
  | .bool a, .bool b =>
    if h : a = b then isTrue (by rw [h]) else isFalse (by intro h2; cases h2; exact h rfl)
  | .num a, .num b =>
    if h : a = b then isTrue (by rw [h]) else isFalse (by intro h2; cases h2; exact h rfl)
  | .str a, .str b =>
    if h : a = b then isTrue (by rw [h]) else isFalse (by intro h2; cases h2; exact h rfl)
  | .headers a, .headers b =>
    if h : a = b then isTrue (by rw [h]) else isFalse (by intro h2; cases h2; exact h rfl)
  | .builtin a, .builtin b =>
    if h : a = b then isTrue (by rw [h]) else isFalse (by intro h2; cases h2; exact h rfl)
  | .obj k1 p1, .obj k2 p2 =>
    if hk : k1 = k2 then
      match JSVal.decEqProps p1 p2 with
      | isTrue hp => isTrue (by rw [hk, hp])
      | isFalse hp => isFalse (by intro h2; cases h2; exact hp rfl)
    else isFalse (by intro h2; cases h2; exact hk rfl)
  | .undefined, .null | .undefined, .bool _ | .undefined, .num _ | .undefined, .str _
  | .undefined, .obj _ _ | .undefined, .headers _ | .undefined, .builtin _ =>
    isFalse (by intro h; cases h)
  | .null, .undefined | .null, .bool _ | .null, .num _ | .null, .str _
  | .null, .obj _ _ | .null, .headers _ | .null, .builtin _ =>
    isFalse (by intro h; cases h)
  | .bool _, .undefined | .bool _, .null | .bool _, .num _ | .bool _, .str _
  | .bool _, .obj _ _ | .bool _, .headers _ | .bool _, .builtin _ =>
    isFalse (by intro h; cases h)
  | .num _, .undefined | .num _, .null | .num _, .bool _ | .num _, .str _
  | .num _, .obj _ _ | .num _, .headers _ | .num _, .builtin _ =>
    isFalse (by intro h; cases h)
  | .str _, .undefined | .str _, .null | .str _, .bool _ | .str _, .num _
  | .str _, .obj _ _ | .str _, .headers _ | .str _, .builtin _ =>
    isFalse (by intro h; cases h)
  | .obj _ _, .undefined | .obj _ _, .null | .obj _ _, .bool _ | .obj _ _, .num _
  | .obj _ _, .str _ | .obj _ _, .headers _ | .obj _ _, .builtin _ =>
    isFalse (by intro h; cases h)
  | .headers _, .undefined | .headers _, .null | .headers _, .bool _ | .headers _, .num _
  | .headers _, .str _ | .headers _, .obj _ _ | .headers _, .builtin _ =>
    isFalse (by intro h; cases h)
  | .builtin _, .undefined | .builtin _, .null | .builtin _, .bool _ | .builtin _, .num _
  | .builtin _, .str _ | .builtin _, .obj _ _ | .builtin _, .headers _ =>
    isFalse (by intro h; cases h)
/-- Decision procedure for equality of property lists. -/
def JSVal.decEqProps : (a b : List (String × JSVal)) → Decidable (a = b)
  | [], [] => isTrue rfl
  | [], _ :: _ => isFalse (by intro h; cases h)
  | _ :: _, [] => isFalse (by intro h; cases h)
  | (k1, v1) :: r1, (k2, v2) :: r2 =>
    if hk : k1 = k2 then
      match JSVal.decEq v1 v2 with
      | isTrue hv =>
        match JSVal.decEqProps r1 r2 with
        | isTrue hr => isTrue (by rw [hk, hv, hr])
        | isFalse hr => isFalse (by intro h2; cases h2; exact hr rfl)
      | isFalse hv => isFalse (by intro h2; cases h2; exact hv rfl)
    else isFalse (by intro h2; cases h2; exact hk rfl)
end

instance : DecidableEq JSVal := JSVal.decEq

/-- Abrupt outcomes of a computation. -/
inductive Abort
  | typeError
  | unmodelled
  deriving DecidableEq, Repr

deriving instance DecidableEq for Except

/-- First binding of a key in a property list. -/
def lookupProp : List (String × JSVal) → String → Option JSVal
  | [], _ => none
  | (k, v) :: rest, key => if k = key then some v else lookupProp rest key

/-- Definition of a data property on an object under construction (`CreateDataProperty`):
an existing key keeps its position and takes the new value, a new key goes last. -/
def setProp : List (String × JSVal) → String → JSVal → List (String × JSVal)
  | [], key, v => [(key, v)]
  | (k, w) :: rest, key, v => if k = key then (k, v) :: rest else (k, w) :: setProp rest key v

/-- Own enumerable properties copied by a spread `...v` (`CopyDataProperties`): those of
an ordinary object; `undefined`, `null`, booleans, numbers, a `Headers` object and the
built-in members have none.  A spread string (index properties) does not occur in the
source and is read as having none. -/
def ownProps : JSVal → List (String × JSVal)
  | .obj _ props => props
  | _ => []

/-- Object under construction extended by a spread of `src`. -/
def spreadInto (acc : List (String × JSVal)) (src : JSVal) : List (String × JSVal) :=
  (ownProps src).foldl (fun a e => setProp a e.1 e.2) acc

/-- Object literal `{ k1: v1, k2: v2, ... }`. -/
def objLit (entries : List (String × JSVal)) : JSVal :=
  .obj .plain (entries.foldl (fun a e => setProp a e.1 e.2) [])

/-- Truthiness (`ToBoolean`). -/
def truthy : JSVal → Bool
  | .undefined => false
  | .null => false
  | .bool b => b
  | .num n => n != 0
  | .str s => s != ""
  | .obj _ _ => true
  | .headers _ => true
  | .builtin _ => true

/-- Test `typeof v === 'object'`.  Of the inherited built-in members only
`__proto__` (which is `Object.prototype` itself) is an object; the others are functions. -/
def typeofObject : JSVal → Bool
  | .null => true
  | .obj _ _ => true
  | .headers _ => true
  | .builtin name => name == "__proto__"
  | _ => false

/-- Test `typeof v === 'string'`. -/
def typeofString : JSVal → Bool
  | .str _ => true
  | _ => false

/-- Test `v instanceof Error`. -/
def instanceofError : JSVal → Bool
  | .obj .error _ => true
  | _ => false

/-- Read `v.name` of a non-nullish `v`, for the property names the source reads through
a dot (`code`, `message`, `stack`, `response`, `status`, `statusText`, `headers`,
`statusCode`, `category`, `userMessage`, `description`, `actionable`, `contactSupport`,
`originalError`, `logError`, `showDetails`, `includeStack`, ...).  `Error.prototype`
supplies `message` and `name`; no other prototype defines one of these names. -/
def getField : JSVal → String → JSVal
  | .obj kind props, name =>
    match lookupProp props name with
    | some v => v
    | none =>
      if kind = .error ∧ name = "message" then .str ""
      else if kind = .error ∧ name = "name" then .str "Error"
      else .undefined
  | _, _ => .undefined

/-- Names of the members of `Object.prototype`, which every object made by an object
literal inherits. -/
def objectPrototypeMembers : List String :=
  ["constructor", "__defineGetter__", "__defineSetter__", "hasOwnProperty",
   "__lookupGetter__", "__lookupSetter__", "isPrototypeOf", "propertyIsEnumerable",
   "toString", "valueOf", "__proto__", "toLocaleString"]

/-- Read `o[key]` of an ordinary object made by an object literal, for an arbitrary key:
an own property, else a member inherited from `Object.prototype`, else `undefined`. -/
def getByKey (o : JSVal) (key : String) : JSVal :=
  match lookupProp (ownProps o) key with
  | some v => v
  | none => if key ∈ objectPrototypeMembers then .builtin key else .undefined

/-- Conversion `ToPrimitive` of an ordinary object with hint string, then `ToString`,
by `toString` and then `valueOf`; a data property that shadows one of the two is not
callable unless it holds a built-in function (whose result is not modelled). -/
def objectToString (kind : ObjKind) (props : List (String × JSVal)) : Except Abort String :=
  match lookupProp props "toString" with
  | some (.builtin _) => .error .unmodelled
  | some _ =>
    match lookupProp props "valueOf" with
    | some (.builtin _) => .error .unmodelled
    | _ => .error .typeError
  | none =>
    match kind with
    | .plain => .ok "[object Object]"
    | .error =>
      -- Error.prototype.toString
      match getField (.obj kind props) "name", getField (.obj kind props) "message" with
      | .str name, .str msg =>
        .ok (if name = "" then msg else if msg = "" then name else name ++ ": " ++ msg)
      | _, _ => .error .unmodelled

/-- Conversion `ToString`, as performed by a template literal and by `ToPropertyKey`.
Integers print in decimal up to 2^53 in magnitude (beyond that a number is printed from
its shortest round-trip digits, which is not modelled). -/
def toStringJS : JSVal → Except Abort String
  | .undefined => .ok "undefined"
  | .null => .ok "null"
  | .bool b => .ok (if b then "true" else "false")
  | .num n => if n.natAbs ≤ 2 ^ 53 then .ok (toString n) else .error .unmodelled
  | .str s => .ok s
  | .obj kind props => objectToString kind props
  | .headers _ => .error .unmodelled
  | .builtin name => if name = "__proto__" then .ok "[object Object]" else .error .unmodelled

/-- Conversion `ToNumber` of an operand of `>=` or `<` against a number; `none` is `NaN`.
The numeric reading of a string is not modelled. -/
def toNumberJS : JSVal → Except Abort (Option Int)
  | .undefined => .ok none
  | .null => .ok (some 0)
  | .bool b => .ok (some (if b then 1 else 0))
  | .num n => .ok (some n)
  | .str _ => .error .unmodelled
  | .obj kind props =>
    -- ToPrimitive with hint number: valueOf, then toString
    match lookupProp props "valueOf" with
    | some (.builtin _) => .error .unmodelled
    | _ =>
      match lookupProp props "toString" with
      | some (.builtin _) => .error .unmodelled
      | some _ => .error .typeError
      | none =>
        match kind with
        | .plain => .ok none
        | .error => .error .unmodelled
  | .headers _ => .error .unmodelled
  | .builtin _ => .ok none

/-- Comparison `v >= c` against a number. -/
def jsGe (v : JSVal) (c : Int) : Except Abort Bool :=
  match toNumberJS v with
  | .ok (some n) => .ok (decide (c ≤ n))
  | .ok none => .ok false
  | .error e => .error e

/-- Comparison `v < c` against a number. -/
def jsLt (v : JSVal) (c : Int) : Except Abort Bool :=
  match toNumberJS v with
  | .ok (some n) => .ok (decide (n < c))
  | .ok none => .ok false
  | .error e => .error e

/-- Call `statuses.includes(v)` on an array of numbers (`SameValueZero`). -/
def includesNum (statuses : List Int) : JSVal → Bool
  | .num n => statuses.contains n
  | _ => false

/-- Call `codes.includes(v)` on an array of strings (`SameValueZero`). -/
def includesStr (codes : List String) : JSVal → Bool
  | .str s => codes.contains s
  | _ => false

/-- Test `v === s` against a string. -/
def strictEqStr (v : JSVal) (s : String) : Bool :=
  match v with
  | .str t => t == s
  | _ => false

/-- Test `v === n` against a number. -/
def strictEqNum (v : JSVal) (n : Int) : Bool :=
  match v with
  | .num m => m == n
  | _ => false

/-! ## vercelErrors.js -/

/-- Object literal `APPLICATION_ERRORS` of vercelErrors.js: the application partition. -/
def APPLICATION_ERRORS : JSVal := objLit [
  ("BODY_NOT_A_STRING_FROM_FUNCTION", objLit [
    ("code", .str "BODY_NOT_A_STRING_FROM_FUNCTION"),
    ("category", .str "Function"),
    ("statusCode", .num 502),
    ("message", .str "Function returned a non-string value"),
    ("description", .str "A serverless function returned a value that is not a string. Functions must return strings or Response objects."),
    ("userMessage", .str "The server encountered an error processing your request. Please try again."),
    ("actionable", .bool true)]),
  ("EDGE_FUNCTION_INVOCATION_FAILED", objLit [
    ("code", .str "EDGE_FUNCTION_INVOCATION_FAILED"),
    ("category", .str "Function"),
    ("statusCode", .num 500),
    ("message", .str "Edge function invocation failed"),
    ("description", .str "An edge function failed to execute properly."),
    ("userMessage", .str "A server error occurred. Please try again later."),
    ("actionable", .bool true)]),
  ("EDGE_FUNCTION_INVOCATION_TIMEOUT", objLit [
    ("code", .str "EDGE_FUNCTION_INVOCATION_TIMEOUT"),
    ("category", .str "Function"),
    ("statusCode", .num 504),
    ("message", .str "Edge function execution timed out"),
    ("description", .str "An edge function took too long to execute and was terminated."),
    ("userMessage", .str "The request took too long to process. Please try again."),
    ("actionable", .bool true)]),
  ("FUNCTION_INVOCATION_FAILED", objLit [
    ("code", .str "FUNCTION_INVOCATION_FAILED"),
    ("category", .str "Function"),
    ("statusCode", .num 500),
    ("message", .str "Function invocation failed"),
    ("description", .str "A serverless function failed to execute properly."),
    ("userMessage", .str "A server error occurred. Please try again later."),
    ("actionable", .bool true)]),
  ("FUNCTION_INVOCATION_TIMEOUT", objLit [
    ("code", .str "FUNCTION_INVOCATION_TIMEOUT"),
    ("category", .str "Function"),
    ("statusCode", .num 504),
    ("message", .str "Function execution timed out"),
    ("description", .str "A serverless function took too long to execute and was terminated."),
    ("userMessage", .str "The request took too long to process. Please try again."),
    ("actionable", .bool true)]),
  ("FUNCTION_PAYLOAD_TOO_LARGE", objLit [
    ("code", .str "FUNCTION_PAYLOAD_TOO_LARGE"),
    ("category", .str "Function"),
    ("statusCode", .num 413),
    ("message", .str "Request payload too large"),
    ("description", .str "The request body exceeds the maximum allowed size for serverless functions."),
    ("userMessage", .str "The data you\x27re trying to send is too large. Please reduce the size and try again."),
    ("actionable", .bool true)]),
  ("FUNCTION_RESPONSE_PAYLOAD_TOO_LARGE", objLit [
    ("code", .str "FUNCTION_RESPONSE_PAYLOAD_TOO_LARGE"),
    ("category", .str "Function"),
    ("statusCode", .num 500),
    ("message", .str "Response payload too large"),
    ("description", .str "The function response exceeds the maximum allowed size."),
    ("userMessage", .str "The server response is too large. Please contact support if this persists."),
    ("actionable", .bool false)]),
  ("FUNCTION_THROTTLED", objLit [
    ("code", .str "FUNCTION_THROTTLED"),
    ("category", .str "Function"),
    ("statusCode", .num 503),
    ("message", .str "Function rate limit exceeded"),
    ("description", .str "Too many requests to the function. Rate limit exceeded."),
    ("userMessage", .str "Too many requests. Please wait a moment and try again."),
    ("actionable", .bool true)]),
  ("NO_RESPONSE_FROM_FUNCTION", objLit [
    ("code", .str "NO_RESPONSE_FROM_FUNCTION"),
    ("category", .str "Function"),
    ("statusCode", .num 502),
    ("message", .str "No response from function"),
    ("description", .str "The function did not return a response."),
    ("userMessage", .str "The server did not respond. Please try again."),
    ("actionable", .bool true)]),
  ("DEPLOYMENT_BLOCKED", objLit [
    ("code", .str "DEPLOYMENT_BLOCKED"),
    ("category", .str "Deployment"),
    ("statusCode", .num 403),
    ("message", .str "Deployment blocked"),
    ("description", .str "The deployment was blocked, possibly due to security or policy restrictions."),
    ("userMessage", .str "This deployment is currently unavailable. Please contact support."),
    ("actionable", .bool false)]),
  ("DEPLOYMENT_DELETED", objLit [
    ("code", .str "DEPLOYMENT_DELETED"),
    ("category", .str "Deployment"),
    ("statusCode", .num 410),
    ("message", .str "Deployment deleted"),
    ("description", .str "The requested deployment has been deleted."),
    ("userMessage", .str "This deployment no longer exists."),
    ("actionable", .bool false)]),
  ("DEPLOYMENT_DISABLED", objLit [
    ("code", .str "DEPLOYMENT_DISABLED"),
    ("category", .str "Deployment"),
    ("statusCode", .num 402),
    ("message", .str "Deployment disabled"),
    ("description", .str "The deployment has been disabled, possibly due to billing issues."),
    ("userMessage", .str "This deployment is currently disabled. Please check your account status."),
    ("actionable", .bool false)]),
  ("DEPLOYMENT_NOT_FOUND", objLit [
    ("code", .str "DEPLOYMENT_NOT_FOUND"),
    ("category", .str "Deployment"),
    ("statusCode", .num 404),
    ("message", .str "Deployment not found"),
    ("description", .str "The requested deployment could not be found."),
    ("userMessage", .str "The requested page or resource could not be found."),
    ("actionable", .bool true)]),
  ("DEPLOYMENT_NOT_READY_REDIRECTING", objLit [
    ("code", .str "DEPLOYMENT_NOT_READY_REDIRECTING"),
    ("category", .str "Deployment"),
    ("statusCode", .num 303),
    ("message", .str "Deployment not ready, redirecting"),
    ("description", .str "The deployment is not ready yet and is redirecting to a ready version."),
    ("userMessage", .str "Redirecting to the latest version..."),
    ("actionable", .bool false)]),
  ("DEPLOYMENT_PAUSED", objLit [
    ("code", .str "DEPLOYMENT_PAUSED"),
    ("category", .str "Deployment"),
    ("statusCode", .num 503),
    ("message", .str "Deployment paused"),
    ("description", .str "The deployment has been paused."),
    ("userMessage", .str "This deployment is currently paused. Please check your dashboard."),
    ("actionable", .bool false)]),
  ("DNS_HOSTNAME_EMPTY", objLit [
    ("code", .str "DNS_HOSTNAME_EMPTY"),
    ("category", .str "DNS"),
    ("statusCode", .num 502),
    ("message", .str "DNS hostname is empty"),
    ("description", .str "The DNS hostname configuration is empty or invalid."),
    ("userMessage", .str "DNS configuration error. Please contact support."),
    ("actionable", .bool false)]),
  ("DNS_HOSTNAME_NOT_FOUND", objLit [
    ("code", .str "DNS_HOSTNAME_NOT_FOUND"),
    ("category", .str "DNS"),
    ("statusCode", .num 502),
    ("message", .str "DNS hostname not found"),
    ("description", .str "The DNS hostname could not be resolved."),
    ("userMessage", .str "Domain configuration error. Please check your DNS settings."),
    ("actionable", .bool false)]),
  ("DNS_HOSTNAME_RESOLVE_FAILED", objLit [
    ("code", .str "DNS_HOSTNAME_RESOLVE_FAILED"),
    ("category", .str "DNS"),
    ("statusCode", .num 502),
    ("message", .str "DNS resolution failed"),
    ("description", .str "Failed to resolve the DNS hostname."),
    ("userMessage", .str "Unable to resolve domain. Please check your DNS configuration."),
    ("actionable", .bool false)]),
  ("DNS_HOSTNAME_RESOLVED_PRIVATE", objLit [
    ("code", .str "DNS_HOSTNAME_RESOLVED_PRIVATE"),
    ("category", .str "DNS"),
    ("statusCode", .num 404),
    ("message", .str "DNS resolved to private IP"),
    ("description", .str "The DNS hostname resolved to a private IP address, which is not allowed."),
    ("userMessage", .str "Invalid domain configuration. Private IP addresses are not allowed."),
    ("actionable", .bool false)]),
  ("DNS_HOSTNAME_SERVER_ERROR", objLit [
    ("code", .str "DNS_HOSTNAME_SERVER_ERROR"),
    ("category", .str "DNS"),
    ("statusCode", .num 502),
    ("message", .str "DNS server error"),
    ("description", .str "An error occurred with the DNS server."),
    ("userMessage", .str "DNS server error. Please try again later."),
    ("actionable", .bool true)]),
  ("FALLBACK_BODY_TOO_LARGE", objLit [
    ("code", .str "FALLBACK_BODY_TOO_LARGE"),
    ("category", .str "Cache"),
    ("statusCode", .num 502),
    ("message", .str "Fallback response too large"),
    ("description", .str "The fallback response exceeds the maximum allowed size."),
    ("userMessage", .str "The response is too large. Please try again."),
    ("actionable", .bool true)]),
  ("INFINITE_LOOP_DETECTED", objLit [
    ("code", .str "INFINITE_LOOP_DETECTED"),
    ("category", .str "Runtime"),
    ("statusCode", .num 508),
    ("message", .str "Infinite loop detected"),
    ("description", .str "An infinite loop was detected in the code execution."),
    ("userMessage", .str "A processing error occurred. Please refresh the page."),
    ("actionable", .bool true)]),
  ("INVALID_IMAGE_OPTIMIZE_REQUEST", objLit [
    ("code", .str "INVALID_IMAGE_OPTIMIZE_REQUEST"),
    ("category", .str "Image"),
    ("statusCode", .num 400),
    ("message", .str "Invalid image optimization request"),
    ("description", .str "The image optimization request is invalid."),
    ("userMessage", .str "Invalid image request. Please check the image URL."),
    ("actionable", .bool true)]),
  ("OPTIMIZED_EXTERNAL_IMAGE_REQUEST_FAILED", objLit [
    ("code", .str "OPTIMIZED_EXTERNAL_IMAGE_REQUEST_FAILED"),
    ("category", .str "Image"),
    ("statusCode", .num 502),
    ("message", .str "External image optimization failed"),
    ("description", .str "Failed to fetch or optimize an external image."),
    ("userMessage", .str "Unable to load the image. Please try again."),
    ("actionable", .bool true)]),
  ("OPTIMIZED_EXTERNAL_IMAGE_REQUEST_INVALID", objLit [
    ("code", .str "OPTIMIZED_EXTERNAL_IMAGE_REQUEST_INVALID"),
    ("category", .str "Image"),
    ("statusCode", .num 502),
    ("message", .str "Invalid external image request"),
    ("description", .str "The external image request is invalid."),
    ("userMessage", .str "Invalid image URL. Please check the image source."),
    ("actionable", .bool true)]),
  ("OPTIMIZED_EXTERNAL_IMAGE_REQUEST_UNAUTHORIZED", objLit [
    ("code", .str "OPTIMIZED_EXTERNAL_IMAGE_REQUEST_UNAUTHORIZED"),
    ("category", .str "Image"),
    ("statusCode", .num 502),
    ("message", .str "Unauthorized external image request"),
    ("description", .str "The external image request is not authorized."),
    ("userMessage", .str "Unable to access the image. Access may be restricted."),
    ("actionable", .bool false)]),
  ("OPTIMIZED_EXTERNAL_IMAGE_TOO_MANY_REDIRECTS", objLit [
    ("code", .str "OPTIMIZED_EXTERNAL_IMAGE_TOO_MANY_REDIRECTS"),
    ("category", .str "Image"),
    ("statusCode", .num 502),
    ("message", .str "Too many redirects for external image"),
    ("description", .str "The external image URL resulted in too many redirects."),
    ("userMessage", .str "Image URL has too many redirects. Please check the image source."),
    ("actionable", .bool true)]),
  ("INVALID_REQUEST_METHOD", objLit [
    ("code", .str "INVALID_REQUEST_METHOD"),
    ("category", .str "Request"),
    ("statusCode", .num 405),
    ("message", .str "Invalid request method"),
    ("description", .str "The HTTP method used is not allowed for this endpoint."),
    ("userMessage", .str "Invalid request method. Please try a different action."),
    ("actionable", .bool true)]),
  ("MALFORMED_REQUEST_HEADER", objLit [
    ("code", .str "MALFORMED_REQUEST_HEADER"),
    ("category", .str "Request"),
    ("statusCode", .num 400),
    ("message", .str "Malformed request header"),
    ("description", .str "One or more request headers are malformed."),
    ("userMessage", .str "Invalid request. Please refresh the page and try again."),
    ("actionable", .bool true)]),
  ("REQUEST_HEADER_TOO_LARGE", objLit [
    ("code", .str "REQUEST_HEADER_TOO_LARGE"),
    ("category", .str "Request"),
    ("statusCode", .num 431),
    ("message", .str "Request header too large"),
    ("description", .str "The request headers exceed the maximum allowed size."),
    ("userMessage", .str "Request is too large. Please clear your browser cache and try again."),
    ("actionable", .bool true)]),
  ("URL_TOO_LONG", objLit [
    ("code", .str "URL_TOO_LONG"),
    ("category", .str "Request"),
    ("statusCode", .num 414),
    ("message", .str "URL too long"),
    ("description", .str "The request URL exceeds the maximum allowed length."),
    ("userMessage", .str "The URL is too long. Please use a shorter URL or different method."),
    ("actionable", .bool true)]),
  ("RANGE_END_NOT_VALID", objLit [
    ("code", .str "RANGE_END_NOT_VALID"),
    ("category", .str "Request"),
    ("statusCode", .num 416),
    ("message", .str "Invalid range end value"),
    ("description", .str "The Range header end value is invalid."),
    ("userMessage", .str "Invalid request range. Please try again."),
    ("actionable", .bool true)]),
  ("RANGE_GROUP_NOT_VALID", objLit [
    ("code", .str "RANGE_GROUP_NOT_VALID"),
    ("category", .str "Request"),
    ("statusCode", .num 416),
    ("message", .str "Invalid range group"),
    ("description", .str "The Range header group is invalid."),
    ("userMessage", .str "Invalid request range. Please try again."),
    ("actionable", .bool true)]),
  ("RANGE_MISSING_UNIT", objLit [
    ("code", .str "RANGE_MISSING_UNIT"),
    ("category", .str "Request"),
    ("statusCode", .num 416),
    ("message", .str "Range header missing unit"),
    ("description", .str "The Range header is missing the unit specification."),
    ("userMessage", .str "Invalid request range. Please try again."),
    ("actionable", .bool true)]),
  ("RANGE_START_NOT_VALID", objLit [
    ("code", .str "RANGE_START_NOT_VALID"),
    ("category", .str "Request"),
    ("statusCode", .num 416),
    ("message", .str "Invalid range start value"),
    ("description", .str "The Range header start value is invalid."),
    ("userMessage", .str "Invalid request range. Please try again."),
    ("actionable", .bool true)]),
  ("RANGE_UNIT_NOT_SUPPORTED", objLit [
    ("code", .str "RANGE_UNIT_NOT_SUPPORTED"),
    ("category", .str "Request"),
    ("statusCode", .num 416),
    ("message", .str "Range unit not supported"),
    ("description", .str "The Range header unit is not supported."),
    ("userMessage", .str "Invalid request range. Please try again."),
    ("actionable", .bool true)]),
  ("TOO_MANY_RANGES", objLit [
    ("code", .str "TOO_MANY_RANGES"),
    ("category", .str "Request"),
    ("statusCode", .num 416),
    ("message", .str "Too many range requests"),
    ("description", .str "The request contains too many range specifications."),
    ("userMessage", .str "Too many range requests. Please simplify your request."),
    ("actionable", .bool true)]),
  ("MIDDLEWARE_INVOCATION_FAILED", objLit [
    ("code", .str "MIDDLEWARE_INVOCATION_FAILED"),
    ("category", .str "Function"),
    ("statusCode", .num 500),
    ("message", .str "Middleware invocation failed"),
    ("description", .str "The middleware function failed to execute."),
    ("userMessage", .str "A server error occurred. Please try again later."),
    ("actionable", .bool true)]),
  ("MIDDLEWARE_INVOCATION_TIMEOUT", objLit [
    ("code", .str "MIDDLEWARE_INVOCATION_TIMEOUT"),
    ("category", .str "Function"),
    ("statusCode", .num 504),
    ("message", .str "Middleware execution timed out"),
    ("description", .str "The middleware function took too long to execute."),
    ("userMessage", .str "The request took too long. Please try again."),
    ("actionable", .bool true)]),
  ("MIDDLEWARE_RUNTIME_DEPRECATED", objLit [
    ("code", .str "MIDDLEWARE_RUNTIME_DEPRECATED"),
    ("category", .str "Runtime"),
    ("statusCode", .num 503),
    ("message", .str "Middleware runtime deprecated"),
    ("description", .str "The middleware runtime version is deprecated."),
    ("userMessage", .str "Service temporarily unavailable. Please try again later."),
    ("actionable", .bool false)]),
  ("MICROFRONTENDS_MIDDLEWARE_ERROR", objLit [
    ("code", .str "MICROFRONTENDS_MIDDLEWARE_ERROR"),
    ("category", .str "Function"),
    ("statusCode", .num 500),
    ("message", .str "Microfrontends middleware error"),
    ("description", .str "An error occurred in the microfrontends middleware."),
    ("userMessage", .str "A server error occurred. Please try again later."),
    ("actionable", .bool true)]),
  ("MICROFRONTENDS_MISSING_FALLBACK_ERROR", objLit [
    ("code", .str "MICROFRONTENDS_MISSING_FALLBACK_ERROR"),
    ("category", .str "Function"),
    ("statusCode", .num 400),
    ("message", .str "Microfrontends missing fallback"),
    ("description", .str "The microfrontends configuration is missing a required fallback."),
    ("userMessage", .str "Configuration error. Please contact support."),
    ("actionable", .bool false)]),
  ("ROUTER_CANNOT_MATCH", objLit [
    ("code", .str "ROUTER_CANNOT_MATCH"),
    ("category", .str "Routing"),
    ("statusCode", .num 502),
    ("message", .str "Router cannot match route"),
    ("description", .str "The router could not match the requested route."),
    ("userMessage", .str "Unable to process the request. Please try again."),
    ("actionable", .bool true)]),
  ("ROUTER_EXTERNAL_TARGET_CONNECTION_ERROR", objLit [
    ("code", .str "ROUTER_EXTERNAL_TARGET_CONNECTION_ERROR"),
    ("category", .str "Routing"),
    ("statusCode", .num 502),
    ("message", .str "External target connection error"),
    ("description", .str "Failed to connect to the external routing target."),
    ("userMessage", .str "Connection error. Please try again later."),
    ("actionable", .bool true)]),
  ("ROUTER_EXTERNAL_TARGET_ERROR", objLit [
    ("code", .str "ROUTER_EXTERNAL_TARGET_ERROR"),
    ("category", .str "Routing"),
    ("statusCode", .num 502),
    ("message", .str "External target error"),
    ("description", .str "An error occurred with the external routing target."),
    ("userMessage", .str "External service error. Please try again later."),
    ("actionable", .bool true)]),
  ("ROUTER_EXTERNAL_TARGET_HANDSHAKE_ERROR", objLit [
    ("code", .str "ROUTER_EXTERNAL_TARGET_HANDSHAKE_ERROR"),
    ("category", .str "Routing"),
    ("statusCode", .num 502),
    ("message", .str "External target handshake error"),
    ("description", .str "Failed to establish connection with external routing target."),
    ("userMessage", .str "Connection error. Please try again later."),
    ("actionable", .bool true)]),
  ("ROUTER_TOO_MANY_HAS_SELECTIONS", objLit [
    ("code", .str "ROUTER_TOO_MANY_HAS_SELECTIONS"),
    ("category", .str "Routing"),
    ("statusCode", .num 502),
    ("message", .str "Too many route has selections"),
    ("description", .str "The route configuration has too many has selections."),
    ("userMessage", .str "Configuration error. Please contact support."),
    ("actionable", .bool false)]),
  ("TOO_MANY_FILESYSTEM_CHECKS", objLit [
    ("code", .str "TOO_MANY_FILESYSTEM_CHECKS"),
    ("category", .str "Routing"),
    ("statusCode", .num 502),
    ("message", .str "Too many filesystem checks"),
    ("description", .str "Too many filesystem checks were performed during routing."),
    ("userMessage", .str "Routing error. Please try again."),
    ("actionable", .bool true)]),
  ("TOO_MANY_FORKS", objLit [
    ("code", .str "TOO_MANY_FORKS"),
    ("category", .str "Routing"),
    ("statusCode", .num 502),
    ("message", .str "Too many route forks"),
    ("description", .str "The routing configuration has too many forks."),
    ("userMessage", .str "Configuration error. Please contact support."),
    ("actionable", .bool false)]),
  ("SANDBOX_NOT_FOUND", objLit [
    ("code", .str "SANDBOX_NOT_FOUND"),
    ("category", .str "Sandbox"),
    ("statusCode", .num 404),
    ("message", .str "Sandbox not found"),
    ("description", .str "The requested sandbox environment could not be found."),
    ("userMessage", .str "Development environment not found."),
    ("actionable", .bool false)]),
  ("SANDBOX_NOT_LISTENING", objLit [
    ("code", .str "SANDBOX_NOT_LISTENING"),
    ("category", .str "Sandbox"),
    ("statusCode", .num 502),
    ("message", .str "Sandbox not listening"),
    ("description", .str "The sandbox environment is not listening for requests."),
    ("userMessage", .str "Development environment is not available."),
    ("actionable", .bool false)]),
  ("SANDBOX_STOPPED", objLit [
    ("code", .str "SANDBOX_STOPPED"),
    ("category", .str "Sandbox"),
    ("statusCode", .num 410),
    ("message", .str "Sandbox stopped"),
    ("description", .str "The sandbox environment has been stopped."),
    ("userMessage", .str "Development environment has been stopped."),
    ("actionable", .bool false)]),
  ("NOT_FOUND", objLit [
    ("code", .str "NOT_FOUND"),
    ("category", .str "Deployment"),
    ("statusCode", .num 404),
    ("message", .str "Resource not found"),
    ("description", .str "The requested resource could not be found."),
    ("userMessage", .str "The page you\x27re looking for doesn\x27t exist."),
    ("actionable", .bool true)]),
  ("RESOURCE_NOT_FOUND", objLit [
    ("code", .str "RESOURCE_NOT_FOUND"),
    ("category", .str "Request"),
    ("statusCode", .num 404),
    ("message", .str "Resource not found"),
    ("description", .str "The requested resource could not be found."),
    ("userMessage", .str "The requested resource could not be found."),
    ("actionable", .bool true)])]

/-- Object literal `PLATFORM_ERRORS` of vercelErrors.js: the platform partition. -/
def PLATFORM_ERRORS : JSVal := objLit [
  ("FUNCTION_THROTTLED", objLit [
    ("code", .str "FUNCTION_THROTTLED"),
    ("category", .str "Internal"),
    ("statusCode", .num 500),
    ("message", .str "Function throttled (internal)"),
    ("description", .str "Internal function throttling error. Contact Vercel support."),
    ("userMessage", .str "Service temporarily unavailable. Please try again later or contact support."),
    ("actionable", .bool false),
    ("contactSupport", .bool true)]),
  ("INTERNAL_CACHE_ERROR", objLit [
    ("code", .str "INTERNAL_CACHE_ERROR"),
    ("category", .str "Internal"),
    ("statusCode", .num 500),
    ("message", .str "Internal cache error"),
    ("description", .str "An internal cache error occurred. Contact Vercel support."),
    ("userMessage", .str "A server error occurred. Please try again later or contact support."),
    ("actionable", .bool false),
    ("contactSupport", .bool true)]),
  ("INTERNAL_CACHE_KEY_TOO_LONG", objLit [
    ("code", .str "INTERNAL_CACHE_KEY_TOO_LONG"),
    ("category", .str "Internal"),
    ("statusCode", .num 500),
    ("message", .str "Internal cache key too long"),
    ("description", .str "The cache key exceeds the maximum length. Contact Vercel support."),
    ("userMessage", .str "A server error occurred. Please contact support."),
    ("actionable", .bool false),
    ("contactSupport", .bool true)]),
  ("INTERNAL_CACHE_LOCK_FULL", objLit [
    ("code", .str "INTERNAL_CACHE_LOCK_FULL"),
    ("category", .str "Internal"),
    ("statusCode", .num 500),
    ("message", .str "Internal cache lock full"),
    ("description", .str "The cache lock is full. Contact Vercel support."),
    ("userMessage", .str "Service temporarily unavailable. Please try again later or contact support."),
    ("actionable", .bool false),
    ("contactSupport", .bool true)]),
  ("INTERNAL_CACHE_LOCK_TIMEOUT", objLit [
    ("code", .str "INTERNAL_CACHE_LOCK_TIMEOUT"),
    ("category", .str "Internal"),
    ("statusCode", .num 500),
    ("message", .str "Internal cache lock timeout"),
    ("description", .str "The cache lock operation timed out. Contact Vercel support."),
    ("userMessage", .str "Service temporarily unavailable. Please try again later or contact support."),
    ("actionable", .bool false),
    ("contactSupport", .bool true)]),
  ("INTERNAL_DEPLOYMENT_FETCH_FAILED", objLit [
    ("code", .str "INTERNAL_DEPLOYMENT_FETCH_FAILED"),
    ("category", .str "Internal"),
    ("statusCode", .num 500),
    ("message", .str "Internal deployment fetch failed"),
    ("description", .str "Failed to fetch deployment internally. Contact Vercel support."),
    ("userMessage", .str "A server error occurred. Please contact support."),
    ("actionable", .bool false),
    ("contactSupport", .bool true)]),
  ("INTERNAL_EDGE_FUNCTION_INVOCATION_FAILED", objLit [
    ("code", .str "INTERNAL_EDGE_FUNCTION_INVOCATION_FAILED"),
    ("category", .str "Internal"),
    ("statusCode", .num 500),
    ("message", .str "Internal edge function invocation failed"),
    ("description", .str "Internal edge function error. Contact Vercel support."),
    ("userMessage", .str "A server error occurred. Please contact support."),
    ("actionable", .bool false),
    ("contactSupport", .bool true)]),
  ("INTERNAL_EDGE_FUNCTION_INVOCATION_TIMEOUT", objLit [
    ("code", .str "INTERNAL_EDGE_FUNCTION_INVOCATION_TIMEOUT"),
    ("category", .str "Internal"),
    ("statusCode", .num 500),
    ("message", .str "Internal edge function invocation timeout"),
    ("description", .str "Internal edge function timeout. Contact Vercel support."),
    ("userMessage", .str "A server error occurred. Please contact support."),
    ("actionable", .bool false),
    ("contactSupport", .bool true)]),
  ("INTERNAL_FUNCTION_INVOCATION_FAILED", objLit [
    ("code", .str "INTERNAL_FUNCTION_INVOCATION_FAILED"),
    ("category", .str "Internal"),
    ("statusCode", .num 500),
    ("message", .str "Internal function invocation failed"),
    ("description", .str "Internal function error. Contact Vercel support."),
    ("userMessage", .str "A server error occurred. Please contact support."),
    ("actionable", .bool false),
    ("contactSupport", .bool true)]),
  ("INTERNAL_FUNCTION_INVOCATION_TIMEOUT", objLit [
    ("code", .str "INTERNAL_FUNCTION_INVOCATION_TIMEOUT"),
    ("category", .str "Internal"),
    ("statusCode", .num 500),
    ("message", .str "Internal function invocation timeout"),
    ("description", .str "Internal function timeout. Contact Vercel support."),
    ("userMessage", .str "A server error occurred. Please contact support."),
    ("actionable", .bool false),
    ("contactSupport", .bool true)]),
  ("INTERNAL_FUNCTION_NOT_FOUND", objLit [
    ("code", .str "INTERNAL_FUNCTION_NOT_FOUND"),
    ("category", .str "Internal"),
    ("statusCode", .num 500),
    ("message", .str "Internal function not found"),
    ("description", .str "Internal function could not be found. Contact Vercel support."),
    ("userMessage", .str "A server error occurred. Please contact support."),
    ("actionable", .bool false),
    ("contactSupport", .bool true)]),
  ("INTERNAL_FUNCTION_NOT_READY", objLit [
    ("code", .str "INTERNAL_FUNCTION_NOT_READY"),
    ("category", .str "Internal"),
    ("statusCode", .num 500),
    ("message", .str "Internal function not ready"),
    ("description", .str "Internal function is not ready. Contact Vercel support."),
    ("userMessage", .str "Service temporarily unavailable. Please try again later or contact support."),
    ("actionable", .bool false),
    ("contactSupport", .bool true)]),
  ("INTERNAL_FUNCTION_SERVICE_UNAVAILABLE", objLit [
    ("code", .str "INTERNAL_FUNCTION_SERVICE_UNAVAILABLE"),
    ("category", .str "Internal"),
    ("statusCode", .num 500),
    ("message", .str "Internal function service unavailable"),
    ("description", .str "Internal function service is unavailable. Contact Vercel support."),
    ("userMessage", .str "Service temporarily unavailable. Please try again later or contact support."),
    ("actionable", .bool false),
    ("contactSupport", .bool true)]),
  ("INTERNAL_MICROFRONTENDS_BUILD_ERROR", objLit [
    ("code", .str "INTERNAL_MICROFRONTENDS_BUILD_ERROR"),
    ("category", .str "Internal"),
    ("statusCode", .num 500),
    ("message", .str "Internal microfrontends build error"),
    ("description", .str "Internal microfrontends build error. Contact Vercel support."),
    ("userMessage", .str "A server error occurred. Please contact support."),
    ("actionable", .bool false),
    ("contactSupport", .bool true)]),
  ("INTERNAL_MICROFRONTENDS_INVALID_CONFIGURATION_ERROR", objLit [
    ("code", .str "INTERNAL_MICROFRONTENDS_INVALID_CONFIGURATION_ERROR"),
    ("category", .str "Internal"),
    ("statusCode", .num 500),
    ("message", .str "Internal microfrontends configuration error"),
    ("description", .str "Internal microfrontends configuration error. Contact Vercel support."),
    ("userMessage", .str "A server error occurred. Please contact support."),
    ("actionable", .bool false),
    ("contactSupport", .bool true)]),
  ("INTERNAL_MICROFRONTENDS_UNEXPECTED_ERROR", objLit [
    ("code", .str "INTERNAL_MICROFRONTENDS_UNEXPECTED_ERROR"),
    ("category", .str "Internal"),
    ("statusCode", .num 500),
    ("message", .str "Internal microfrontends unexpected error"),
    ("description", .str "Unexpected internal microfrontends error. Contact Vercel support."),
    ("userMessage", .str "A server error occurred. Please contact support."),
    ("actionable", .bool false),
    ("contactSupport", .bool true)]),
  ("INTERNAL_MISSING_RESPONSE_FROM_CACHE", objLit [
    ("code", .str "INTERNAL_MISSING_RESPONSE_FROM_CACHE"),
    ("category", .str "Internal"),
    ("statusCode", .num 500),
    ("message", .str "Internal missing response from cache"),
    ("description", .str "Internal cache response missing. Contact Vercel support."),
    ("userMessage", .str "A server error occurred. Please contact support."),
    ("actionable", .bool false),
    ("contactSupport", .bool true)]),
  ("INTERNAL_OPTIMIZED_IMAGE_REQUEST_FAILED", objLit [
    ("code", .str "INTERNAL_OPTIMIZED_IMAGE_REQUEST_FAILED"),
    ("category", .str "Internal"),
    ("statusCode", .num 500),
    ("message", .str "Internal optimized image request failed"),
    ("description", .str "Internal image optimization error. Contact Vercel support."),
    ("userMessage", .str "A server error occurred. Please contact support."),
    ("actionable", .bool false),
    ("contactSupport", .bool true)]),
  ("INTERNAL_ROUTER_CANNOT_PARSE_PATH", objLit [
    ("code", .str "INTERNAL_ROUTER_CANNOT_PARSE_PATH"),
    ("category", .str "Internal"),
    ("statusCode", .num 500),
    ("message", .str "Internal router cannot parse path"),
    ("description", .str "Internal routing error. Contact Vercel support."),
    ("userMessage", .str "A server error occurred. Please contact support."),
    ("actionable", .bool false),
    ("contactSupport", .bool true)]),
  ("INTERNAL_STATIC_REQUEST_FAILED", objLit [
    ("code", .str "INTERNAL_STATIC_REQUEST_FAILED"),
    ("category", .str "Internal"),
    ("statusCode", .num 500),
    ("message", .str "Internal static request failed"),
    ("description", .str "Internal static file serving error. Contact Vercel support."),
    ("userMessage", .str "A server error occurred. Please contact support."),
    ("actionable", .bool false),
    ("contactSupport", .bool true)]),
  ("INTERNAL_UNARCHIVE_FAILED", objLit [
    ("code", .str "INTERNAL_UNARCHIVE_FAILED"),
    ("category", .str "Internal"),
    ("statusCode", .num 500),
    ("message", .str "Internal unarchive failed"),
    ("description", .str "Internal archive extraction error. Contact Vercel support."),
    ("userMessage", .str "A server error occurred. Please contact support."),
    ("actionable", .bool false),
    ("contactSupport", .bool true)]),
  ("INTERNAL_UNEXPECTED_ERROR", objLit [
    ("code", .str "INTERNAL_UNEXPECTED_ERROR"),
    ("category", .str "Internal"),
    ("statusCode", .num 500),
    ("message", .str "Internal unexpected error"),
    ("description", .str "An unexpected internal error occurred. Contact Vercel support."),
    ("userMessage", .str "An unexpected error occurred. Please contact support."),
    ("actionable", .bool false),
    ("contactSupport", .bool true)])]

/-- Merged registry `ALL_VERCEL_ERRORS = { ...APPLICATION_ERRORS, ...PLATFORM_ERRORS }`. -/
def ALL_VERCEL_ERRORS : JSVal :=
  .obj .plain (spreadInto (spreadInto [] APPLICATION_ERRORS) PLATFORM_ERRORS)

/-- Expression `a || b`. -/
def orElse (a b : JSVal) : JSVal :=
  if truthy a then a else b

/-- Function `getErrorByCode(errorCode)`: `ALL_VERCEL_ERRORS[errorCode] || null`.  The key
of the computed member access is `ToPropertyKey(errorCode)`. -/
def getErrorByCode (errorCode : JSVal) : Except Abort JSVal := do
  let key ← toStringJS errorCode
  pure (orElse (getByKey ALL_VERCEL_ERRORS key) .null)

/-- Function `getUserFriendlyMessage(errorCode, fallbackMessage)`; an `undefined` second
argument takes the default text. -/
def getUserFriendlyMessage (errorCode fallbackMessage : JSVal) : Except Abort JSVal := do
  let fallbackMessage :=
    if fallbackMessage = .undefined then .str "An error occurred. Please try again."
    else fallbackMessage
  let error ← getErrorByCode errorCode
  pure (if truthy error then getField error "userMessage" else fallbackMessage)

/-- Function `shouldContactSupport(errorCode)`. -/
def shouldContactSupport (errorCode : JSVal) : Except Abort Bool := do
  let error ← getErrorByCode errorCode
  pure (if truthy error then decide (getField error "contactSupport" = .bool true) else false)

/-- Function `isActionable(errorCode)`. -/
def isActionable (errorCode : JSVal) : Except Abort Bool := do
  let error ← getErrorByCode errorCode
  pure (if truthy error then decide (getField error "actionable" ≠ .bool false) else true)

/-- Function `getErrorCategory(errorCode)`. -/
def getErrorCategory (errorCode : JSVal) : Except Abort JSVal := do
  let error ← getErrorByCode errorCode
  pure (if truthy error then getField error "category" else .str "Unknown")

/-- Function `getErrorStatusCode(errorCode)`. -/
def getErrorStatusCode (errorCode : JSVal) : Except Abort JSVal := do
  let error ← getErrorByCode errorCode
  pure (if truthy error then getField error "statusCode" else .num 500)

/-! ## errorHandler.js -/

/-- Character class `[A-Z_]`. -/
def isCodeChar (c : Char) : Bool :=
  (decide ('A' ≤ c) && decide (c ≤ 'Z')) || c == '_'

/-- Capture group 1 of the leftmost match of `/([A-Z_]+)/` in a string: the first maximal
run of upper-case letters and underscores; `none` when the string has no such character. -/
def firstCodeRun (s : String) : Option String :=
  match (s.toList.dropWhile (fun c => !isCodeChar c)).takeWhile isCodeChar with
  | [] => none
  | c :: cs => some (String.mk (c :: cs))

/-- Call `message.match(/([A-Z_]+)/)` followed by `errorCodeMatch[1]` when the match is
truthy.  Only a string has a callable `match`. -/
def messageMatch (message : JSVal) : Except Abort (Option String) :=
  match message with
  | .str s => .ok (firstCodeRun s)
  | .obj _ props =>
    match lookupProp props "match" with
    | some (.builtin _) => .error .unmodelled
    | _ => .error .typeError
  | _ => .error .typeError

/-- Call `headers?.get(name)`: `undefined` for a nullish `headers`; the header text or
`null` for an object with a `get` lookup; a `TypeError` for any other value, whose `get`
is not a function. -/
def headersGet (headers : JSVal) (name : String) : Except Abort JSVal :=
  match headers with
  | .undefined => .ok .undefined
  | .null => .ok .undefined
  | .headers table =>
    match table.lookup name with
    | some s => .ok (.str s)
    | none => .ok .null
  | .obj _ props =>
    match lookupProp props "get" with
    | some (.builtin _) => .error .unmodelled
    | _ => .error .typeError
  | _ => .error .typeError

/-- Function `parseError(error)`. -/
def parseError (error : JSVal) : Except Abort JSVal :=
  -- If error is already parsed
  if truthy error && typeofObject error && truthy (getField error "code") then
    .ok error
  -- If error is a string (error code)
  else if typeofString error then do
    let errorInfo ← getErrorByCode error
    if truthy errorInfo then
      pure (.obj .plain (setProp (spreadInto [] errorInfo) "originalError" error))
    else
      pure (objLit [
        ("code", .str "UNKNOWN_ERROR"),
        ("category", .str "Unknown"),
        ("statusCode", .num 500),
        ("message", error),
        ("userMessage", error),
        ("description", .str "An unknown error occurred"),
        ("actionable", .bool true),
        ("originalError", error)])
  -- If error is an Error object
  else if instanceofError error then do
    let unknown := objLit [
        ("code", .str "UNKNOWN_ERROR"),
        ("category", .str "Unknown"),
        ("statusCode", .num 500),
        ("message", getField error "message"),
        ("userMessage", orElse (getField error "message") (.str "An unexpected error occurred")),
        ("description", getField error "message"),
        ("actionable", .bool true),
        ("originalError", error),
        ("stack", getField error "stack")]
    -- Try to extract error code from message
    let errorCodeMatch ← messageMatch (getField error "message")
    match errorCodeMatch with
    | some errorCode =>
      let errorInfo ← getErrorByCode (.str errorCode)
      if truthy errorInfo then
        pure (.obj .plain (setProp (setProp (spreadInto [] errorInfo)
          "originalError" error) "stack" (getField error "stack")))
      else
        pure unknown
    | none => pure unknown
  -- If error is from a fetch response
  else if truthy error && truthy (getField error "response") then do
    let response := getField error "response"
    let status := getField response "status"
    let errorText := orElse (getField response "statusText") (.str "")
    -- Try to extract error code from headers or body
    let fromError ← headersGet (getField response "headers") "x-vercel-error"
    let errorCode ←
      if truthy fromError then pure fromError
      else do
        let fromId ← headersGet (getField response "headers") "x-vercel-id"
        pure (orElse fromId .null)
    let errorInfo ← if truthy errorCode then getErrorByCode errorCode else pure .null
    if truthy errorInfo then
      pure (.obj .plain (setProp (setProp (spreadInto [] errorInfo)
        "originalError" error) "httpStatus" status))
    else do
      let statusText ← toStringJS status
      let userMessage ← getUserFriendlyMessage .null
        (.str ("Server returned an error (" ++ statusText ++ ")"))
      let atLeast400 ← jsGe status 400
      let actionable ← if atLeast400 then jsLt status 500 else pure false
      pure (objLit [
        ("code", .str ("HTTP_" ++ statusText)),
        ("category", .str "HTTP"),
        ("statusCode", status),
        ("message", orElse errorText (.str ("HTTP " ++ statusText ++ " Error"))),
        ("userMessage", userMessage),
        ("description", errorText),
        ("actionable", .bool actionable),
        ("originalError", error),
        ("httpStatus", status)])
  -- Default fallback
  else
    .ok (objLit [
      ("code", .str "UNKNOWN_ERROR"),
      ("category", .str "Unknown"),
      ("statusCode", .num 500),
      ("message", .str "An unknown error occurred"),
      ("userMessage", .str "An unexpected error occurred. Please try again."),
      ("description", .str "Unable to parse error information"),
      ("actionable", .bool true),
      ("originalError", error)])

/-- Array `retryableStatusCodes` of `isRetryable`. -/
def retryableStatusCodes : List Int := [408, 429, 500, 502, 503, 504]

/-- Array `retryableCodes` of `isRetryable`. -/
def retryableCodes : List String := [
  "FUNCTION_INVOCATION_TIMEOUT",
  "EDGE_FUNCTION_INVOCATION_TIMEOUT",
  "MIDDLEWARE_INVOCATION_TIMEOUT",
  "FUNCTION_THROTTLED",
  "DNS_HOSTNAME_SERVER_ERROR",
  "ROUTER_EXTERNAL_TARGET_CONNECTION_ERROR",
  "ROUTER_EXTERNAL_TARGET_HANDSHAKE_ERROR"]

/-- Function `isRetryable(error)`. -/
def isRetryable (error : JSVal) : Except Abort Bool := do
  let parsedError ← parseError error
  if includesNum retryableStatusCodes (getField parsedError "statusCode") then pure true
  else if includesStr retryableCodes (getField parsedError "code") then pure true
  else jsGe (getField parsedError "statusCode") 500

/-- Function `getRetryDelay(error, attemptNumber)` for a natural attempt number; the
delay is in milliseconds.  At `attemptNumber = 0` the source computes the fractional
power `Math.pow(2, -1)`, which is outside the integers. -/
def getRetryDelay (error : JSVal) (attemptNumber : Nat) : Except Abort Nat := do
  let parsedError ← parseError error
  if attemptNumber = 0 then throw .unmodelled
  -- Exponential backoff: 1s, 2s, 4s, 8s, max 30s
  let baseDelay := 1000
  let maxDelay := 30000
  let delay := min (baseDelay * 2 ^ (attemptNumber - 1)) maxDelay
  -- Special cases
  if strictEqStr (getField parsedError "code") "FUNCTION_THROTTLED" then
    pure (max delay 5000)
  else if strictEqNum (getField parsedError "statusCode") 429 then
    pure (max delay 3000)
  else
    pure delay

/-- Destructuring default `{ name = dflt } = options`: the default applies when the
property is `undefined`. -/
def optionOr (options : JSVal) (name : String) (dflt : JSVal) : JSVal :=
  if getField options name = .undefined then dflt else getField options name

/-- Outcome of `handleError`: the record handed to `console.error` (when one is
emitted) and the value returned. -/
structure Handled where
  logged : Option JSVal
  result : JSVal
  deriving DecidableEq, Repr

/-- Function `handleError(error, options)`.  An `undefined` options argument takes the
default `{}`; destructuring `null` throws.  `hasConsole` stands for the test
`typeof window !== 'undefined' && window.console`. -/
def handleError (hasConsole : Bool) (error options : JSVal) : Except Abort Handled := do
  let options := if options = .undefined then objLit [] else options
  if options = .null then throw .typeError
  let logError := optionOr options "logError" (.bool true)
  let showDetails := optionOr options "showDetails" (.bool false)
  let includeStack := optionOr options "includeStack" (.bool false)
  let parsedError ← parseError error
  let stackPart :=
    if truthy includeStack && truthy (getField parsedError "stack") then
      objLit [("stack", getField parsedError "stack")]
    else objLit []
  -- Log error if requested
  let logged :=
    if truthy logError && hasConsole then
      some (.obj .plain (spreadInto (ownProps (objLit [
        ("code", getField parsedError "code"),
        ("message", getField parsedError "message"),
        ("category", getField parsedError "category"),
        ("statusCode", getField parsedError "statusCode"),
        ("originalError", getField parsedError "originalError")])) stackPart))
    else none
  -- Return user-friendly error information
  let actionable ← isActionable (getField parsedError "code")
  let contactSupport ← shouldContactSupport (getField parsedError "code")
  let detailPart :=
    if truthy showDetails then
      objLit [
        ("description", getField parsedError "description"),
        ("technicalMessage", getField parsedError "message")]
    else objLit []
  pure ⟨logged, .obj .plain (spreadInto (spreadInto (ownProps (objLit [
    ("code", getField parsedError "code"),
    ("message", getField parsedError "userMessage"),
    ("category", getField parsedError "category"),
    ("statusCode", getField parsedError "statusCode"),
    ("actionable", .bool actionable),
    ("contactSupport", .bool contactSupport)])) detailPart) stackPart)⟩

/-- Function `formatErrorForDisplay(error, options)`. -/
def formatErrorForDisplay (error options : JSVal) : Except Abort JSVal := do
  let options := if options = .undefined then objLit [] else options
  if options = .null then throw .typeError
  let includeCode := optionOr options "includeCode" (.bool false)
  let includeCategory := optionOr options "includeCategory" (.bool false)
  let technical := optionOr options "technical" (.bool false)
  let parsedError ← parseError error
  let message :=
    if truthy technical then getField parsedError "message"
    else getField parsedError "userMessage"
  let message ←
    if truthy includeCode then do
      let m ← toStringJS message
      let c ← toStringJS (getField parsedError "code")
      pure (.str (m ++ " (" ++ c ++ ")"))
    else pure message
  let message ←
    if truthy includeCategory then do
      let m ← toStringJS message
      let c ← toStringJS (getField parsedError "category")
      pure (.str (m ++ " [" ++ c ++ "]"))
    else pure message
  pure message

/-- Function `createErrorResponse(error)`; `now` is the text of
`new Date().toISOString()` at the call. -/
def createErrorResponse (now : String) (error : JSVal) : Except Abort JSVal := do
  let parsedError ← parseError error
  pure (objLit [
    ("success", .bool false),
    ("error", objLit [
      ("code", getField parsedError "code"),
      ("message", getField parsedError "userMessage"),
      ("category", getField parsedError "category"),
      ("statusCode", getField parsedError "statusCode"),
      ("actionable", getField parsedError "actionable"),
      ("contactSupport", getField parsedError "contactSupport")]),
    ("timestamp", .str now)])

/-- Optional member access `v?.name`: `undefined` for a nullish `v`. -/
def optField (v : JSVal) (name : String) : JSVal :=
  match v with
  | .undefined => .undefined
  | .null => .undefined
  | _ => getField v name

/-- Function `extractErrorCode(error)`. -/
def extractErrorCode (error : JSVal) : Except Abort JSVal :=
  if !truthy error then .ok .null
  -- Direct code
  else if typeofString error then .ok error
  -- From error object
  else if truthy (getField error "code") then .ok (getField error "code")
  else do
    -- From error message
    let fromMessage ←
      if truthy (getField error "message") then messageMatch (getField error "message")
      else pure none
    match fromMessage with
    | some code => pure (.str code)
    | none =>
      -- From response headers
      let headers := optField (getField error "response") "headers"
      let vercelError ←
        if truthy headers then headersGet headers "x-vercel-error" else pure .undefined
      if truthy vercelError then pure vercelError
      else
        -- From response body
        let bodyCode :=
          optField (optField (optField (getField error "response") "data") "error") "code"
        if truthy bodyCode then pure bodyCode else pure .null

/-! ## useErrorHandler.js -/

/-- Settled outcome of one invocation `await fn()` of the wrapped operation: the value
it resolves to, or the value it rejects with (or throws). -/
inductive Settled
  | resolved (value : JSVal)
  | rejected (err : JSVal)
  deriving DecidableEq, Repr

/-- What a hook function raises to its caller: a value thrown by the wrapped operation,
an abrupt outcome of a function of errorHandler.js, or the `RangeError` of an exhausted
call stack. -/
inductive Thrown
  | value (v : JSVal)
  | abort (a : Abort)
  | rangeError
  deriving DecidableEq, Repr

/-- Observable steps of the hook: writes of the busy flag (`setIsLoading`), `clearError()`
(which writes `null` to the error state and to the error details), invocations of the
wrapped operation (numbered by attempt), backoff waits (`setTimeout` delay in
milliseconds), writes of the error state and calls of the `onError` callback. -/
inductive Event
  | setIsLoading (b : Bool)
  | clearError
  | invoke (attempt : Nat)
  | wait (delay : Nat)
  | setError (err : JSVal)
  | setErrorDetails (details : JSVal)
  | onError (details err : JSVal)
  deriving DecidableEq, Repr

/-- A run of a hook function: the steps it performed, in order, and how it ended. -/
structure Run where
  events : List Event
  outcome : Except Thrown JSVal
  deriving DecidableEq, Repr

/-- Argument of `useErrorHandler(options)`: the data properties of `options` (`autoLog`,
`showDetails`) and whether `options.onError` is a callback. -/
structure HookOptions where
  options : JSVal
  hasOnError : Bool
  deriving DecidableEq, Repr

/-- Callback `handleError` of the hook, `(err, customOptions = {}) => { ... }`, run with
`stack` call frames left; a call with no frame left ends in a `RangeError`.  The name
`handleError` in its body is bound to the constant `const handleError = useCallback(...)`
that is being declared in `useErrorHandler`, which shadows the import of the same name
from errorHandler.js: the callee is this callback. -/
def hookHandleError (cfg : HookOptions) : Nat → JSVal → JSVal → Run
  | 0, _, _ => ⟨[], .error .rangeError⟩
  | stack + 1, err, customOptions =>
    let customOptions := if customOptions = .undefined then objLit [] else customOptions
    let showDetails := optionOr (orElse cfg.options (objLit [])) "showDetails" (.bool false)
    let mergedOptions := JSVal.obj .plain (spreadInto (spreadInto [] cfg.options) customOptions)
    let inner := hookHandleError cfg stack err (objLit [
      ("logError", .bool (decide (getField mergedOptions "autoLog" ≠ .bool false))),
      ("showDetails", orElse (getField mergedOptions "showDetails") showDetails)])
    match inner.outcome with
    | .error t => ⟨inner.events, .error t⟩
    | .ok details =>
      ⟨inner.events ++ [.setError err, .setErrorDetails details] ++
        (if cfg.hasOnError then [.onError details err] else []), .ok details⟩

/-- Statements `setIsLoading(false); handleError(err); throw err;` of `retry`. -/
def giveUp (cfg : HookOptions) (stack : Nat) (err : JSVal) : Run :=
  let handled := hookHandleError cfg stack err .undefined
  match handled.outcome with
  | .error t => ⟨.setIsLoading false :: handled.events, .error t⟩
  | .ok _ => ⟨.setIsLoading false :: handled.events, .error (.value err)⟩

/-- Loop `for (let attempt = ...; attempt <= maxAttempts; attempt++)` of `retry`, entered
at `attempt` with `remaining = maxAttempts + 1 - attempt` iterations left (so that
`remaining = 0` is the exit `attempt > maxAttempts`), followed by the statements after the
loop.  `fn attempt` is how the invocation of the operation at that attempt settles. -/
def retryFrom (cfg : HookOptions) (stack : Nat) (fn : Nat → Settled) (maxAttempts : Nat) :
    Nat → Nat → JSVal → Run
  | 0, _, lastError => giveUp cfg stack lastError
  | remaining + 1, attempt, _ =>
    let start := [Event.setIsLoading true, Event.clearError, Event.invoke attempt]
    match fn attempt with
    | .resolved result => ⟨start ++ [.setIsLoading false], .ok result⟩
    | .rejected err =>
      match parseError err with
      | .error a => ⟨start, .error (.abort a)⟩
      | .ok parsedError =>
        -- Check if error is retryable
        match isRetryable parsedError with
        | .error a => ⟨start, .error (.abort a)⟩
        | .ok retryable =>
          if !retryable || attempt == maxAttempts then
            let rest := giveUp cfg stack err
            ⟨start ++ rest.events, rest.outcome⟩
          else
            -- Wait before retrying
            match getRetryDelay parsedError attempt with
            | .error a => ⟨start, .error (.abort a)⟩
            | .ok delay =>
              let rest := retryFrom cfg stack fn maxAttempts remaining (attempt + 1) err
              ⟨start ++ .wait delay :: rest.events, rest.outcome⟩

/-- Function `retry(fn, maxAttempts)` of the hook, for a natural `maxAttempts`. -/
def retry (cfg : HookOptions) (stack : Nat) (fn : Nat → Settled) (maxAttempts : Nat) : Run :=
  retryFrom cfg stack fn maxAttempts maxAttempts 1 .null

/-! ## Inputs used in the statements below -/

/-- Categories of the data model. -/
def categories : List String :=
  ["Function", "Deployment", "DNS", "Cache", "Runtime", "Image", "Request", "Routing",
   "Sandbox", "Internal", "Unknown", "HTTP"]

/-- Failure value `{ code: '', response: { status: 404 } }`. -/
def emptyCodeWithResponse : JSVal :=
  .obj .plain [("code", .str ""), ("response", .obj .plain [("status", .num 404)])]

/-- Failure value `{ code: 'NOT_FOUND', response: { status: 500 } }`. -/
def codeWithResponse : JSVal :=
  .obj .plain [("code", .str "NOT_FOUND"), ("response", .obj .plain [("status", .num 500)])]

/-- Failure value `{ response: { status: 500, headers: {} } }`: the headers are a
plain object, without a `get` function. -/
def plainHeadersResponse : JSVal :=
  .obj .plain [("response", .obj .plain [("status", .num 500), ("headers", .obj .plain [])])]

/-- Parsed error `{ statusCode: 404, code: 'RESOURCE_NOT_FOUND' }`. -/
def resourceNotFound : JSVal :=
  .obj .plain [("statusCode", .num 404), ("code", .str "RESOURCE_NOT_FOUND")]

/-- Test that a value is a positive integer number. -/
def isPositiveInteger : JSVal → Bool
  | .num n => decide (0 < n)
  | _ => false

/-- Test that a value is the name of one of the categories. -/
def isCategory : JSVal → Bool
  | .str s => categories.contains s
  | _ => false

/-- Retry delay in the words of the specification (section 4.4): the exponential base
clamped to 30000, then two independent floors, 5000 for the code `FUNCTION_THROTTLED`
and 3000 for the status code 429. -/
def retryDelayMsSpec (p : JSVal) (attempt : Nat) : Nat :=
  let d0 := min (1000 * 2 ^ (attempt - 1)) 30000
  let d1 := if getField p "code" = .str "FUNCTION_THROTTLED" then max d0 5000 else d0
  let d2 := if getField p "statusCode" = .num 429 then max d1 3000 else d1
  d2

/-- Candidate code of a response in the words of the specification: the header
`x-vercel-error` when it is present and non-empty, otherwise the header `x-vercel-id`. -/
def headerCandidate (table : List (String × String)) : Option String :=
  match table.lookup "x-vercel-error" with
  | some v => if v = "" then table.lookup "x-vercel-id" else some v
  | none => table.lookup "x-vercel-id"

/-- Pre-parsed object `{ code: 'FUNCTION_THROTTLED' }`. -/
def throttledObject : JSVal :=
  .obj .plain [("code", .str "FUNCTION_THROTTLED")]

/-- Exception `new Error('FUNCTION_THROTTLED')` with a stack text. -/
def throttledException : JSVal :=
  .obj .error [("message", .str "FUNCTION_THROTTLED"), ("stack", .str "Error: FUNCTION_THROTTLED")]

/-- Failure value `{ statusCode: 429 }`, without a `code`. -/
def statusOnly429 : JSVal :=
  .obj .plain [("statusCode", .num 429)]

/-- Parsed error `{ code: 'HTTP_429', statusCode: 429 }`. -/
def parsed429 : JSVal :=
  .obj .plain [("code", .str "HTTP_429"), ("statusCode", .num 429)]

/-- Response-like failure value `{ response: { status: 429 } }`. -/
def response429 : JSVal :=
  .obj .plain [("response", .obj .plain [("status", .num 429)])]

/-- Parsed error `{ code: 'FUNCTION_THROTTLED', statusCode: 429 }`. -/
def throttled429 : JSVal :=
  .obj .plain [("code", .str "FUNCTION_THROTTLED"), ("statusCode", .num 429)]

/-- Exception `new Error('')` with a stack text. -/
def emptyMessageException : JSVal :=
  .obj .error [("message", .str ""), ("stack", .str "Error")]

/-- Exception `new Error('NOT_FOUND for this page')` with a stack text. -/
def notFoundException : JSVal :=
  .obj .error [("message", .str "NOT_FOUND for this page"), ("stack", .str "Error: NOT_FOUND")]

/-- Response-like failure value with status 404 whose `x-vercel-error` header is the
text `toString`. -/
def toStringHeaderResponse : JSVal :=
  .obj .plain [("response", .obj .plain [
    ("status", .num 404),
    ("headers", .headers [("x-vercel-error", "toString")])])]

/-- Response-like failure value with status 502, `x-vercel-error: NOT_A_CODE` and
`x-vercel-id: NOT_FOUND`. -/
def unresolvedErrorHeaderResponse : JSVal :=
  .obj .plain [("response", .obj .plain [
    ("status", .num 502),
    ("headers", .headers [("x-vercel-error", "NOT_A_CODE"), ("x-vercel-id", "NOT_FOUND")])])]

/-- Response-like failure value with status 502 and `x-vercel-id: NOT_FOUND` only. -/
def idHeaderResponse : JSVal :=
  .obj .plain [("response", .obj .plain [
    ("status", .num 502),
    ("headers", .headers [("x-vercel-id", "NOT_FOUND")])])]

/-- Final `return` of the response branch of `parseError` (the object literal with code
`HTTP_<status>`), as a function of the failure value. -/
def httpFallback (error : JSVal) : Except Abort JSVal := do
  let response := getField error "response"
  let status := getField response "status"
  let errorText := orElse (getField response "statusText") (.str "")
  let statusText ← toStringJS status
  let userMessage ← getUserFriendlyMessage .null
    (.str ("Server returned an error (" ++ statusText ++ ")"))
  let atLeast400 ← jsGe status 400
  let actionable ← if atLeast400 then jsLt status 500 else pure false
  pure (objLit [
    ("code", .str ("HTTP_" ++ statusText)),
    ("category", .str "HTTP"),
    ("statusCode", status),
    ("message", orElse errorText (.str ("HTTP " ++ statusText ++ " Error"))),
    ("userMessage", userMessage),
    ("description", errorText),
    ("actionable", .bool actionable),
    ("originalError", error),
    ("httpStatus", status)])

/-- Descriptor that the response branch of `parseError` returns for the lookup result
`errorInfo` of the header code: the entry extended by `originalError` and `httpStatus`
when the lookup result is truthy, the `HTTP_<status>` object otherwise. -/
def responseResult (error errorInfo : JSVal) : Except Abort JSVal :=
  if truthy errorInfo then
    .ok (.obj .plain (setProp (setProp (spreadInto [] errorInfo)
      "originalError" error) "httpStatus" (getField (getField error "response") "status")))
  else httpFallback error

/-- Attempt numbers of the invocations of the operation in a sequence of steps. -/
def invocations : List Event → List Nat
  | [] => []
  | .invoke attempt :: rest => attempt :: invocations rest
  | _ :: rest => invocations rest

/-- Delays of the backoff waits in a sequence of steps. -/
def waits : List Event → List Nat
  | [] => []
  | .wait delay :: rest => delay :: waits rest
  | _ :: rest => waits rest

/-- Value of the busy flag after a sequence of steps, from the value `flag` before. -/
def flagAfter : Bool → List Event → Bool
  | flag, [] => flag
  | _, .setIsLoading b :: rest => flagAfter b rest
  | flag, _ :: rest => flagAfter flag rest

/-- Test that the busy flag is true at every backoff wait of a sequence of steps, from
the value `flag` before. -/
def busyDuringWaits : Bool → List Event → Bool
  | _, [] => true
  | flag, .wait _ :: rest => flag && busyDuringWaits flag rest
  | _, .setIsLoading b :: rest => busyDuringWaits b rest
  | flag, _ :: rest => busyDuringWaits flag rest

/-- Test that every invocation of the operation comes right after `setIsLoading(true)`
and `clearError()`; `prev2` and `prev1` are the two steps before the sequence. -/
def attemptsStartClean : Option Event → Option Event → List Event → Bool
  | _, _, [] => true
  | prev2, prev1, .invoke a :: rest =>
    (prev2 == some (.setIsLoading true) && prev1 == some .clearError) &&
      attemptsStartClean prev1 (some (.invoke a)) rest
  | _, prev1, e :: rest => attemptsStartClean prev1 (some e) rest

/-- Object that the default branch of `parseError` returns for `error`. -/
def defaultDescriptor (error : JSVal) : JSVal :=
  .obj .plain [
    ("code", .str "UNKNOWN_ERROR"),
    ("category", .str "Unknown"),
    ("statusCode", .num 500),
    ("message", .str "An unknown error occurred"),
    ("userMessage", .str "An unexpected error occurred. Please try again."),
    ("description", .str "Unable to parse error information"),
    ("actionable", .bool true),
    ("originalError", error)]

/-- Operation that rejects with `err` at its first `k` invocations and resolves to `v`
from then on. -/
def failsThenSucceeds (k : Nat) (err v : JSVal) : Nat → Settled :=
  fun attempt => if attempt ≤ k then .rejected err else .resolved v

/-- Operation that rejects with `err` at every invocation. -/
def alwaysFails (err : JSVal) : Nat → Settled :=
  fun _ => .rejected err

/-- Hook options `{}` without an `onError` callback. -/
def defaultHook : HookOptions :=
  ⟨objLit [], false⟩

/-- Parsed error `{ code: 'NO_RESPONSE_FROM_FUNCTION', statusCode: 502 }`, which is
retryable. -/
def badGateway : JSVal :=
  .obj .plain [("code", .str "NO_RESPONSE_FROM_FUNCTION"), ("statusCode", .num 502)]

/-- Plain object `{ message: 'NOT_FOUND' }`, without a `code`. -/
def messageOnlyObject : JSVal :=
  .obj .plain [("message", .str "NOT_FOUND")]

/-- Response-like value whose body carries `data.error.code = 'NOT_FOUND'`. -/
def bodyCodeResponse : JSVal :=
  .obj .plain [("response", .obj .plain [
    ("status", .num 502),
    ("data", .obj .plain [("error", .obj .plain [("code", .str "NOT_FOUND")])])])]

/-- Exception `new Error('request failed')` that also carries response headers with
`x-vercel-error: NOT_FOUND`. -/
def exceptionWithHeaders : JSVal :=
  .obj .error [
    ("message", .str "request failed"),
    ("response", .obj .plain [
      ("status", .num 502),
      ("headers", .headers [("x-vercel-error", "NOT_FOUND")])])]

/-- Exception `new Error('Error: NOT_FOUND')`; the first run of upper-case letters and
underscores of its message is `E`. -/
def prefixedException : JSVal :=
  .obj .error [("message", .str "Error: NOT_FOUND"), ("stack", .str "Error: NOT_FOUND")]

/-- Steps of an attempt that fails and is retried after a wait of `delay`. -/
def retriedAttempt (attempt delay : Nat) : List Event :=
  [.setIsLoading true, .clearError, .invoke attempt, .wait delay]

/-- Steps of the attempt after which `retry` returns or gives up. -/
def lastAttempt (attempt : Nat) : List Event :=
  [.setIsLoading true, .clearError, .invoke attempt, .setIsLoading false]

/-- Steps of `n` consecutive retried attempts from `attempt` on, the wait after attempt
`i` being `delay i`. -/
def retriedAttempts (delay : Nat → Nat) : Nat → Nat → List Event
  | _, 0 => []
  | attempt, n + 1 => retriedAttempt attempt (delay attempt) ++ retriedAttempts delay (attempt + 1) n

/-- Exponential backoff `min(1000 * 2^(attempt-1), 30000)`. -/
def baseDelay (attempt : Nat) : Nat :=
  min (1000 * 2 ^ (attempt - 1)) 30000

/-- Delay that `retry` computes after the failure of attempt `i`:
`getRetryDelay(parseError(err), i)` for the value `err` that the operation rejects with
(0 when the attempt does not fail, or the failure is not classified). -/
def delayAfter (fn : Nat → Settled) (i : Nat) : Nat :=
  match fn i with
  | .resolved _ => 0
  | .rejected err =>
    match parseError err with
    | .error _ => 0
    | .ok parsedError =>
      match getRetryDelay parsedError i with
      | .error _ => 0
      | .ok delay => delay

/-- Object that the exception branch of `parseError` returns for a message `m`, written
by cases on the first run of upper-case letters and underscores of `m`: the registry
entry of the run extended by `originalError` and `stack`, or the `UNKNOWN_ERROR`
object. -/
def exceptionDescriptor (m : String) (raw stack : JSVal) : JSVal :=
  let unknown := JSVal.obj .plain [
    ("code", .str "UNKNOWN_ERROR"),
    ("category", .str "Unknown"),
    ("statusCode", .num 500),
    ("message", .str m),
    ("userMessage", .str (if m = "" then "An unexpected error occurred" else m)),
    ("description", .str m),
    ("actionable", .bool true),
    ("originalError", raw),
    ("stack", stack)]
  match firstCodeRun m with
  | none => unknown
  | some c =>
    match lookupProp (ownProps ALL_VERCEL_ERRORS) c with
    | some d => .obj .plain (ownProps d ++ [("originalError", raw), ("stack", stack)])
    | none => unknown

/-- Response-like failure value `{ response: { status: 500 } }`. -/
def response500 : JSVal :=
  .obj .plain [("response", .obj .plain [("status", .num 500)])]

/-- Pre-parsed object whose code is not in the registry and that carries its own flags:
`{ code: 'CUSTOM_ERROR', statusCode: 400, actionable: false, contactSupport: true }`. -/
def customParsed : JSVal :=
  .obj .plain [("code", .str "CUSTOM_ERROR"), ("statusCode", .num 400),
    ("actionable", .bool false), ("contactSupport", .bool true)]

/-- Failure value `{ statusCode: 404 }`, without a `code`. -/
def statusOnly404 : JSVal :=
  .obj .plain [("statusCode", .num 404)]

/-- Failure value `{ statusCode: 503 }`, without a `code`. -/
def statusOnly503 : JSVal :=
  .obj .plain [("statusCode", .num 503)]

/-- Codes that both the application partition and the platform partition define, in the
order of the application partition. -/
def sharedCodes : List String :=
  ((ownProps APPLICATION_ERRORS).map Prod.fst).filter
    (fun c => (lookupProp (ownProps PLATFORM_ERRORS) c).isSome)

/-- Property `name` of the value that `handleError(raw)` returns. -/
def handledField (hasConsole : Bool) (raw : JSVal) (name : String) : Except Abort JSVal :=
  (handleError hasConsole raw .undefined).map (fun h => getField h.result name)

/-- Property `name` of the `error` object of `createErrorResponse(raw)`. -/
def responseField (now : String) (raw : JSVal) (name : String) : Except Abort JSVal :=
  (createErrorResponse now raw).map (fun r => getField (getField r "error") name)

/-! ## Lemmas on property lists -/

theorem lookupProp_mem {l : List (String × JSVal)} {k : String} {v : JSVal}
    (h : lookupProp l k = some v) : (k, v) ∈ l := by
  induction l with
  | nil => simp [lookupProp] at h
  | cons e rest ih =>
    obtain ⟨k0, v0⟩ := e
    unfold lookupProp at h
    by_cases hk : k0 = k
    · simp [hk] at h
      simp [hk, h]
    · simp [hk] at h
      exact List.mem_cons_of_mem _ (ih h)

theorem isPositiveInteger_spec {v : JSVal} (h : isPositiveInteger v = true) :
    ∃ n : Int, 0 < n ∧ v = .num n := by
  cases v <;> simp [isPositiveInteger] at h
  exact ⟨_, h, rfl⟩

theorem isCategory_spec {v : JSVal} (h : isCategory v = true) :
    ∃ cat, cat ∈ categories ∧ v = .str cat := by
  cases v <;> simp [isCategory] at h
  exact ⟨_, h, rfl⟩

/-! ## The registry -/

/-- Each entry of the application partition has its key as `code`, a positive integer
`statusCode` and a `category` of the enumeration. -/
theorem application_entries_ok :
    ∀ e ∈ ownProps APPLICATION_ERRORS,
      getField e.2 "code" = .str e.1 ∧ isPositiveInteger (getField e.2 "statusCode") = true ∧
        isCategory (getField e.2 "category") = true := by
  decide!

/-- Each entry of the platform partition has its key as `code`, a positive integer
`statusCode` and a `category` of the enumeration. -/
theorem platform_entries_ok :
    ∀ e ∈ ownProps PLATFORM_ERRORS,
      getField e.2 "code" = .str e.1 ∧ isPositiveInteger (getField e.2 "statusCode") = true ∧
        isCategory (getField e.2 "category") = true := by
  decide!

/-- Each entry of the merged registry has its key as `code`, a positive integer
`statusCode` and a `category` of the enumeration. -/
theorem merged_entries_ok :
    ∀ e ∈ ownProps ALL_VERCEL_ERRORS,
      getField e.2 "code" = .str e.1 ∧ isPositiveInteger (getField e.2 "statusCode") = true ∧
        isCategory (getField e.2 "category") = true := by
  decide!

/-- Every entry of the platform partition is the entry of the merged registry under
its key. -/
theorem merged_of_platform :
    ∀ e ∈ ownProps PLATFORM_ERRORS, lookupProp (ownProps ALL_VERCEL_ERRORS) e.1 = some e.2 := by
  decide!

/-- Every entry of the application partition whose key the platform partition does not
define is the entry of the merged registry under its key. -/
theorem merged_of_application_only :
    ∀ e ∈ ownProps APPLICATION_ERRORS, lookupProp (ownProps PLATFORM_ERRORS) e.1 = none →
      lookupProp (ownProps ALL_VERCEL_ERRORS) e.1 = some e.2 := by
  decide!

/-- Every entry of the merged registry is the first binding of its key. -/
theorem merged_lookup_entries :
    ∀ e ∈ ownProps ALL_VERCEL_ERRORS, lookupProp (ownProps ALL_VERCEL_ERRORS) e.1 = some e.2 := by
  decide!

/-- Every key of the merged registry, looked up as a string code, yields its entry. -/
theorem getErrorByCode_entries :
    ∀ e ∈ ownProps ALL_VERCEL_ERRORS, getErrorByCode (.str e.1) = .ok e.2 := by
  decide!

/-- Every key of the merged registry parses, as a string, to its entry extended by
`originalError`. -/
theorem parseError_entries :
    ∀ e ∈ ownProps ALL_VERCEL_ERRORS,
      parseError (.str e.1) =
        .ok (.obj .plain (setProp (spreadInto [] e.2) "originalError" (.str e.1))) := by
  decide!

/-- The extension by `originalError` keeps `statusCode` and `category` of an entry. -/
theorem parseError_entries_fields :
    ∀ e ∈ ownProps ALL_VERCEL_ERRORS,
      getField (.obj .plain (setProp (spreadInto [] e.2) "originalError" (.str e.1)))
          "statusCode" = getField e.2 "statusCode" ∧
        getField (.obj .plain (setProp (spreadInto [] e.2) "originalError" (.str e.1)))
          "category" = getField e.2 "category" ∧
        getField (.obj .plain (setProp (spreadInto [] e.2) "originalError" (.str e.1)))
          "originalError" = .str e.1 := by
  decide!

/-! ## Lemmas on the functions -/

theorem strictEqStr_iff (v : JSVal) (s : String) : strictEqStr v s = true ↔ v = .str s := by
  cases v <;> simp [strictEqStr]

theorem strictEqNum_iff (v : JSVal) (n : Int) : strictEqNum v n = true ↔ v = .num n := by
  cases v <;> simp [strictEqNum]

/-- An object whose `code` is truthy is returned by `parseError` as it is. -/
theorem parseError_of_truthy_code (kind : ObjKind) (props : List (String × JSVal))
    (h : truthy (getField (.obj kind props) "code") = true) :
    parseError (.obj kind props) = .ok (.obj kind props) := by
  have h1 : (truthy (.obj kind props) && typeofObject (.obj kind props) &&
      truthy (getField (.obj kind props) "code")) = true := by
    rw [h]; rfl
  unfold parseError
  rw [if_pos h1]

/-- A string that is neither a key of the merged registry nor the name of a member of
`Object.prototype` is not found by `getErrorByCode`. -/
theorem getErrorByCode_absent (s : String)
    (hreg : lookupProp (ownProps ALL_VERCEL_ERRORS) s = none)
    (hproto : s ∉ objectPrototypeMembers) :
    getErrorByCode (.str s) = .ok .null := by
  simp [getErrorByCode, toStringJS, getByKey, hreg, hproto, orElse, truthy, bind, Except.bind,
    pure, Except.pure]

/-- A string that is neither a key of the merged registry nor the name of a member of
`Object.prototype` parses to the synthesized `UNKNOWN_ERROR` descriptor. -/
theorem parseError_absent_string (s : String)
    (hreg : lookupProp (ownProps ALL_VERCEL_ERRORS) s = none)
    (hproto : s ∉ objectPrototypeMembers) :
    parseError (.str s) = .ok (.obj .plain [
      ("code", .str "UNKNOWN_ERROR"),
      ("category", .str "Unknown"),
      ("statusCode", .num 500),
      ("message", .str s),
      ("userMessage", .str s),
      ("description", .str "An unknown error occurred"),
      ("actionable", .bool true),
      ("originalError", .str s)]) := by
  simp [parseError, truthy, typeofObject, typeofString, getErrorByCode_absent s hreg hproto,
    bind, Except.bind, pure, Except.pure, objLit, setProp]

/-- Value of `getRetryDelay` in terms of the parsed error. -/
theorem getRetryDelay_of_parsed (error p : JSVal) (a : Nat)
    (hp : parseError error = .ok p) (ha : 1 ≤ a) :
    getRetryDelay error a = .ok (
      if getField p "code" = .str "FUNCTION_THROTTLED" then
        max (min (1000 * 2 ^ (a - 1)) 30000) 5000
      else if getField p "statusCode" = .num 429 then
        max (min (1000 * 2 ^ (a - 1)) 30000) 3000
      else min (1000 * 2 ^ (a - 1)) 30000) := by
  have h0 : a ≠ 0 := by omega
  have e1 : strictEqStr (getField p "code") "FUNCTION_THROTTLED" =
      decide (getField p "code" = .str "FUNCTION_THROTTLED") := by
    rw [Bool.eq_iff_iff, strictEqStr_iff]; simp
  have e2 : strictEqNum (getField p "statusCode") 429 =
      decide (getField p "statusCode" = .num 429) := by
    rw [Bool.eq_iff_iff, strictEqNum_iff]; simp
  unfold getRetryDelay
  rw [hp]
  simp only [bind, Except.bind, e1, e2, if_neg h0, pure, Except.pure, decide_eq_true_eq]
  split_ifs <;> rfl

theorem lookupProp_setProp (l : List (String × JSVal)) (k : String) (v : JSVal) (key : String) :
    lookupProp (setProp l k v) key = if k = key then some v else lookupProp l key := by
  induction l with
  | nil => simp [setProp, lookupProp]
  | cons e rest ih =>
    obtain ⟨k0, w⟩ := e
    by_cases h0 : k0 = k
    · subst h0
      by_cases h1 : k0 = key <;> simp [setProp, lookupProp, h1]
    · by_cases h1 : k0 = key
      · subst h1
        have h2 : ¬ k = k0 := fun h => h0 h.symm
        simp [setProp, lookupProp, h0, h2]
      · simp [setProp, lookupProp, h0, h1, ih]

theorem setProp_of_absent (l : List (String × JSVal)) (k : String) (v : JSVal)
    (h : lookupProp l k = none) : setProp l k v = l ++ [(k, v)] := by
  induction l with
  | nil => rfl
  | cons e rest ih =>
    obtain ⟨k0, w⟩ := e
    by_cases h0 : k0 = k
    · simp [lookupProp, h0] at h
    · simp [lookupProp, h0] at h
      simp [setProp, h0, ih h]

theorem lookupProp_append (l r : List (String × JSVal)) (key : String) :
    lookupProp (l ++ r) key = (lookupProp l key).orElse (fun _ => lookupProp r key) := by
  induction l with
  | nil => simp [lookupProp]
  | cons e rest ih =>
    obtain ⟨k0, w⟩ := e
    by_cases h0 : k0 = key <;> simp [lookupProp, h0, ih]

/-- Every character of the capture of `/([A-Z_]+)/` is an upper-case letter or an
underscore. -/
theorem firstCodeRun_chars {m c : String} (h : firstCodeRun m = some c) :
    ∀ ch ∈ c.data, isCodeChar ch = true := by
  unfold firstCodeRun at h
  split at h
  · exact absurd h (by simp)
  · rename_i x xs heq
    have hc : c.data = x :: xs := by
      have := Option.some.inj h
      rw [← this]
    intro ch hch
    rw [hc, ← heq] at hch
    exact (List.mem_takeWhile_imp hch)

/-- The capture of `/([A-Z_]+)/` is never the name of a member of `Object.prototype`. -/
theorem firstCodeRun_not_member {m c : String} (h : firstCodeRun m = some c) :
    c ∉ objectPrototypeMembers := by
  intro hmem
  have hall : c.data.all isCodeChar = true := by
    rw [List.all_eq_true]
    exact firstCodeRun_chars h
  simp only [objectPrototypeMembers, List.mem_cons, List.mem_singleton, List.not_mem_nil,
    or_false] at hmem
  rcases hmem with rfl | rfl | rfl | rfl | rfl | rfl | rfl | rfl | rfl | rfl | rfl | rfl <;>
    exact absurd hall (by decide)

/-- Every entry of the merged registry is an object (truthy), a spread of it copies its
property list as it is, and it has none of the keys that `parseError` adds. -/
theorem merged_entries_shape :
    ∀ e ∈ ownProps ALL_VERCEL_ERRORS,
      truthy e.2 = true ∧ spreadInto [] e.2 = ownProps e.2 ∧
        lookupProp (ownProps e.2) "originalError" = none ∧
        lookupProp (ownProps e.2) "stack" = none ∧
        lookupProp (ownProps e.2) "httpStatus" = none ∧
        e.2 = .obj .plain (ownProps e.2) ∧
        (lookupProp (ownProps e.2) "statusCode").isSome = true := by
  decide!

/-- A property that an object has is read alike after more properties are appended. -/
theorem getField_append (l r : List (String × JSVal)) (k : String)
    (h : (lookupProp l k).isSome = true) :
    getField (.obj .plain (l ++ r)) k = getField (.obj .plain l) k := by
  cases hl : lookupProp l k with
  | none => simp [hl] at h
  | some v => simp [getField, lookupProp_append, hl]

/-- Lookup of a string code: the own entry, else an inherited member, else `null`. -/
theorem getErrorByCode_str (c : String) :
    getErrorByCode (.str c) = .ok (orElse (getByKey ALL_VERCEL_ERRORS c) .null) := rfl

/-- A registry entry extended by `originalError` and a second property `k`. -/
theorem extend_entry (c : String) (d : JSVal)
    (h : lookupProp (ownProps ALL_VERCEL_ERRORS) c = some d) (raw : JSVal) (k : String)
    (w : JSVal) (hk : k ≠ "originalError") (hkd : lookupProp (ownProps d) k = none) :
    setProp (setProp (spreadInto [] d) "originalError" raw) k w =
      ownProps d ++ [("originalError", raw), (k, w)] := by
  have hs := merged_entries_shape (c, d) (lookupProp_mem h)
  rw [hs.2.1, setProp_of_absent _ _ _ hs.2.2.1, setProp_of_absent]
  · simp
  · rw [lookupProp_append, hkd]
    simp [lookupProp, Ne.symm hk]

/-- Value of `parseError` on an exception without a truthy `code` and with a string
message. -/
theorem parseError_exception (props : List (String × JSVal)) (m : String)
    (hcode : truthy (getField (.obj .error props) "code") = false)
    (hm : getField (.obj .error props) "message" = .str m) :
    parseError (.obj .error props) =
      match firstCodeRun m with
      | some c =>
        if truthy (orElse (getByKey ALL_VERCEL_ERRORS c) .null) then
          .ok (.obj .plain (setProp (setProp
            (spreadInto [] (orElse (getByKey ALL_VERCEL_ERRORS c) .null))
            "originalError" (.obj .error props)) "stack" (getField (.obj .error props) "stack")))
        else
          .ok (.obj .plain [
            ("code", .str "UNKNOWN_ERROR"),
            ("category", .str "Unknown"),
            ("statusCode", .num 500),
            ("message", .str m),
            ("userMessage", orElse (.str m) (.str "An unexpected error occurred")),
            ("description", .str m),
            ("actionable", .bool true),
            ("originalError", .obj .error props),
            ("stack", getField (.obj .error props) "stack")])
      | none =>
        .ok (.obj .plain [
          ("code", .str "UNKNOWN_ERROR"),
          ("category", .str "Unknown"),
          ("statusCode", .num 500),
          ("message", .str m),
          ("userMessage", orElse (.str m) (.str "An unexpected error occurred")),
          ("description", .str m),
          ("actionable", .bool true),
          ("originalError", .obj .error props),
          ("stack", getField (.obj .error props) "stack")]) := by
  have c1 : ¬ ((truthy (.obj .error props) && typeofObject (.obj .error props) &&
      truthy (getField (.obj .error props) "code")) = true) := by
    rw [hcode]; simp
  have c2 : ¬ (typeofString (.obj .error props) = true) := by simp [typeofString]
  have c3 : instanceofError (.obj .error props) = true := rfl
  unfold parseError
  rw [if_neg c1, if_neg c2, if_pos c3, hm]
  simp only [messageMatch, bind, Except.bind, getErrorByCode_str, pure, Except.pure]
  cases firstCodeRun m with
  | none => simp [objLit, setProp]
  | some c =>
    by_cases ht : truthy (orElse (getByKey ALL_VERCEL_ERRORS c) .null) = true
    · simp only [ht, if_true]
    · simp [ht, objLit, setProp]

/-- The response branch of `parseError`, for an ordinary object without a truthy `code`
and with a truthy `response`. -/
theorem parseError_response (props : List (String × JSVal))
    (hcode : truthy (getField (.obj .plain props) "code") = false)
    (hresp : truthy (getField (.obj .plain props) "response") = true) :
    parseError (.obj .plain props) =
      (headersGet (getField (getField (.obj .plain props) "response") "headers")
        "x-vercel-error").bind (fun fromError =>
      (if truthy fromError then .ok fromError
       else (headersGet (getField (getField (.obj .plain props) "response") "headers")
        "x-vercel-id").bind (fun fromId => .ok (orElse fromId .null))).bind (fun errorCode =>
      (if truthy errorCode then getErrorByCode errorCode else .ok .null).bind (fun errorInfo =>
      responseResult (.obj .plain props) errorInfo))) := by
  have c1 : ¬ ((truthy (.obj .plain props) && typeofObject (.obj .plain props) &&
      truthy (getField (.obj .plain props) "code")) = true) := by
    rw [hcode]; simp
  have c2 : ¬ (typeofString (.obj .plain props) = true) := by simp [typeofString]
  have c3 : ¬ (instanceofError (.obj .plain props) = true) := by simp [instanceofError]
  have c4 : (truthy (.obj .plain props) && truthy (getField (.obj .plain props) "response"))
      = true := by
    rw [hresp]; rfl
  unfold parseError
  rw [if_neg c1, if_neg c2, if_neg c3, if_pos c4]
  unfold responseResult httpFallback
  simp only [bind, Except.bind, pure, Except.pure]
  cases headersGet (getField (getField (.obj .plain props) "response") "headers")
      "x-vercel-error" with
  | error e => rfl
  | ok fromError =>
    by_cases h1 : truthy fromError = true
    · simp only [h1, ↓reduceIte]
    · simp only [h1, Bool.false_eq_true, ↓reduceIte]
      cases headersGet (getField (getField (.obj .plain props) "response") "headers")
          "x-vercel-id" with
      | error e => rfl
      | ok fromId =>
        by_cases h2 : truthy (orElse fromId .null) = true
        · simp only [h2, ↓reduceIte]
        · simp only [h2, Bool.false_eq_true, ↓reduceIte]

theorem getErrorByCode_null : getErrorByCode .null = .ok .null := by decide!

/-- The fallback text handed to `getUserFriendlyMessage(null, text)` is returned. -/
theorem getUserFriendlyMessage_null (text : String) :
    getUserFriendlyMessage .null (.str text) = .ok (.str text) := by
  simp [getUserFriendlyMessage, getErrorByCode_null, bind, Except.bind, pure, Except.pure,
    truthy]

/-- With the headers of a fetch response, the lookup result that decides the response
branch is that of the candidate header code. -/
theorem parseError_response_headers (props : List (String × JSVal))
    (table : List (String × String))
    (hcode : truthy (getField (.obj .plain props) "code") = false)
    (hresp : truthy (getField (.obj .plain props) "response") = true)
    (hh : getField (getField (.obj .plain props) "response") "headers" = .headers table) :
    parseError (.obj .plain props) = responseResult (.obj .plain props)
      (match headerCandidate table with
       | some c => if c = "" then .null else orElse (getByKey ALL_VERCEL_ERRORS c) .null
       | none => .null) := by
  rw [parseError_response props hcode hresp, hh]
  unfold headerCandidate
  cases h1 : table.lookup "x-vercel-error" with
  | none =>
    cases h2 : table.lookup "x-vercel-id" with
    | none => simp [headersGet, h1, h2, Except.bind, truthy, orElse]
    | some w =>
      by_cases hw : w = ""
      · simp [headersGet, h1, h2, Except.bind, truthy, orElse, hw]
      · simp [headersGet, h1, h2, Except.bind, truthy, orElse, hw, getErrorByCode_str]
  | some v =>
    by_cases hv : v = ""
    · cases h2 : table.lookup "x-vercel-id" with
      | none => simp [headersGet, h1, h2, Except.bind, truthy, orElse, hv]
      | some w =>
        by_cases hw : w = ""
        · simp [headersGet, h1, h2, Except.bind, truthy, orElse, hv, hw]
        · simp [headersGet, h1, h2, Except.bind, truthy, orElse, hv, hw, getErrorByCode_str]
    · simp [headersGet, h1, Except.bind, truthy, orElse, hv, getErrorByCode_str]

/-- Without headers (`undefined` or `null`) the response branch returns the
`HTTP_<status>` object. -/
theorem parseError_response_no_headers (props : List (String × JSVal))
    (hcode : truthy (getField (.obj .plain props) "code") = false)
    (hresp : truthy (getField (.obj .plain props) "response") = true)
    (hh : getField (getField (.obj .plain props) "response") "headers" = .undefined ∨
      getField (getField (.obj .plain props) "response") "headers" = .null) :
    parseError (.obj .plain props) = httpFallback (.obj .plain props) := by
  rw [parseError_response props hcode hresp]
  rcases hh with hh | hh <;>
    simp [hh, headersGet, Except.bind, truthy, orElse, responseResult]

/-- The `HTTP_<status>` object for an integer status within the safe range. -/
theorem httpFallback_num (raw : JSVal) (s : Int)
    (hs : getField (getField raw "response") "status" = .num s)
    (hb : s.natAbs ≤ 2 ^ 53) :
    httpFallback raw = .ok (.obj .plain [
      ("code", .str ("HTTP_" ++ toString s)),
      ("category", .str "HTTP"),
      ("statusCode", .num s),
      ("message", orElse (orElse (getField (getField raw "response") "statusText") (.str ""))
        (.str ("HTTP " ++ toString s ++ " Error"))),
      ("userMessage", .str ("Server returned an error (" ++ toString s ++ ")")),
      ("description", orElse (getField (getField raw "response") "statusText") (.str "")),
      ("actionable", .bool (decide (400 ≤ s) && decide (s < 500))),
      ("originalError", raw),
      ("httpStatus", .num s)]) := by
  have ht : toStringJS (.num s) = .ok (toString s) := by
    show (if s.natAbs ≤ 2 ^ 53 then Except.ok (toString s) else Except.error Abort.unmodelled)
      = Except.ok (toString s)
    rw [if_pos hb]
  unfold httpFallback
  by_cases h4 : 400 ≤ s
  · simp [hs, ht, getUserFriendlyMessage_null, jsGe, jsLt, toNumberJS, bind,
      Except.bind, pure, Except.pure, objLit, setProp, h4]
  · simp [hs, ht, getUserFriendlyMessage_null, jsGe, jsLt, toNumberJS, bind,
      Except.bind, pure, Except.pure, objLit, setProp, h4]

/-- The code of a returned `HTTP_<status>` object begins with `HTTP_`. -/
theorem httpFallback_code (raw p : JSVal) (h : httpFallback raw = .ok p) :
    ∃ st, getField p "code" = .str ("HTTP_" ++ st) := by
  unfold httpFallback at h
  simp only [bind, Except.bind, pure, Except.pure] at h
  split at h
  · exact absurd h (by simp)
  · rename_i st _
    split at h
    · exact absurd h (by simp)
    · split at h
      · exact absurd h (by simp)
      · split at h
        · split at h
          · exact absurd h (by simp)
          · have := Except.ok.inj h
            subst this
            exact ⟨st, by simp [objLit, setProp, getField, lookupProp]⟩
        · have := Except.ok.inj h
          subst this
          exact ⟨st, by simp [objLit, setProp, getField, lookupProp]⟩

/-- No key of the merged registry begins with `HTTP_`. -/
theorem merged_keys_not_http :
    ∀ e ∈ ownProps ALL_VERCEL_ERRORS, List.isPrefixOf "HTTP_".data e.1.data = false := by
  decide!

theorem lookup_http_none (st : String) :
    lookupProp (ownProps ALL_VERCEL_ERRORS) ("HTTP_" ++ st) = none := by
  cases h : lookupProp (ownProps ALL_VERCEL_ERRORS) ("HTTP_" ++ st) with
  | none => rfl
  | some d =>
    have h1 := merged_keys_not_http _ (lookupProp_mem h)
    simp [String.data_append] at h1

/-- A response-like value with an integer status whose headers are absent, or are the
headers of a fetch response with a candidate code that is empty or is neither a
registry code nor the name of a member of `Object.prototype`, parses to the
`HTTP_<status>` object. -/
theorem parseError_http_status (props : List (String × JSVal)) (s : Int)
    (hcode : truthy (getField (.obj .plain props) "code") = false)
    (hresp : truthy (getField (.obj .plain props) "response") = true)
    (hs : getField (getField (.obj .plain props) "response") "status" = .num s)
    (hb : s.natAbs ≤ 2 ^ 53)
    (hh : getField (getField (.obj .plain props) "response") "headers" = .undefined ∨
      getField (getField (.obj .plain props) "response") "headers" = .null ∨
      ∃ table, getField (getField (.obj .plain props) "response") "headers" = .headers table ∧
        ∀ c, headerCandidate table = some c → c ≠ "" →
          lookupProp (ownProps ALL_VERCEL_ERRORS) c = none ∧ c ∉ objectPrototypeMembers) :
    parseError (.obj .plain props) = .ok (.obj .plain [
      ("code", .str ("HTTP_" ++ toString s)),
      ("category", .str "HTTP"),
      ("statusCode", .num s),
      ("message", orElse (orElse (getField (getField (.obj .plain props) "response")
        "statusText") (.str "")) (.str ("HTTP " ++ toString s ++ " Error"))),
      ("userMessage", .str ("Server returned an error (" ++ toString s ++ ")")),
      ("description", orElse (getField (getField (.obj .plain props) "response")
        "statusText") (.str "")),
      ("actionable", .bool (decide (400 ≤ s) && decide (s < 500))),
      ("originalError", .obj .plain props),
      ("httpStatus", .num s)]) := by
  rw [← httpFallback_num (.obj .plain props) s hs hb]
  rcases hh with hh | hh | ⟨table, hh, hc⟩
  · exact parseError_response_no_headers props hcode hresp (Or.inl hh)
  · exact parseError_response_no_headers props hcode hresp (Or.inr hh)
  · rw [parseError_response_headers props table hcode hresp hh]
    cases hcand : headerCandidate table with
    | none => simp [responseResult, truthy]
    | some c =>
      by_cases hne : c = ""
      · simp [hne, responseResult, truthy]
      · obtain ⟨hreg, hmem⟩ := hc c hcand hne
        simp [hne, getByKey, hreg, hmem, orElse, responseResult, truthy]

/-- Classifier defaults for a code that `getErrorByCode` does not find. -/
theorem classifier_defaults (code : JSVal) (h : getErrorByCode code = .ok .null)
    (fallback : JSVal) :
    getErrorCategory code = .ok (.str "Unknown") ∧
      getErrorStatusCode code = .ok (.num 500) ∧
      isActionable code = .ok true ∧
      shouldContactSupport code = .ok false ∧
      getUserFriendlyMessage code fallback = .ok
        (if fallback = .undefined then .str "An error occurred. Please try again."
         else fallback) := by
  simp [getErrorCategory, getErrorStatusCode, isActionable, shouldContactSupport,
    getUserFriendlyMessage, h, bind, Except.bind, pure, Except.pure, truthy]

/-- The codes `null` and `undefined` are not found by `getErrorByCode`. -/
theorem getErrorByCode_undefined : getErrorByCode .undefined = .ok .null := by decide!

/-- An `undefined` options argument reads like the default `{}`. -/
theorem optionOr_default (options : JSVal) (name : String) (dflt : JSVal) :
    optionOr (if options = .undefined then objLit [] else options) name dflt =
      optionOr options name dflt := by
  by_cases h : options = .undefined
  · subst h
    rfl
  · rw [if_neg h]

/-! ## Lemmas on the hook -/

/-- The hook callback `handleError` calls itself until the call stack is exhausted: it
performs no step and ends in a `RangeError`, whatever the stack depth. -/
theorem hookHandleError_overflow (cfg : HookOptions) :
    ∀ (stack : Nat) (err customOptions : JSVal),
      hookHandleError cfg stack err customOptions = ⟨[], .error .rangeError⟩ := by
  intro stack
  induction stack with
  | zero => intro err customOptions; rfl
  | succ n ih =>
    intro err customOptions
    unfold hookHandleError
    simp only [ih]

theorem giveUp_eq (cfg : HookOptions) (stack : Nat) (err : JSVal) :
    giveUp cfg stack err = ⟨[.setIsLoading false], .error .rangeError⟩ := by
  unfold giveUp
  simp only [hookHandleError_overflow]

/-- An attempt at which the operation resolves. -/
theorem retryFrom_resolved (cfg : HookOptions) (stack : Nat) (fn : Nat → Settled)
    (maxAttempts remaining attempt : Nat) (lastError v : JSVal)
    (h : fn attempt = .resolved v) :
    retryFrom cfg stack fn maxAttempts (remaining + 1) attempt lastError =
      ⟨lastAttempt attempt, .ok v⟩ := by
  unfold retryFrom
  simp only [h]
  rfl

/-- An attempt whose failure is not retried. -/
theorem retryFrom_giveUp (cfg : HookOptions) (stack : Nat) (fn : Nat → Settled)
    (maxAttempts remaining attempt : Nat) (lastError err p : JSVal) (b : Bool)
    (h : fn attempt = .rejected err) (hp : parseError err = .ok p)
    (hr : isRetryable p = .ok b) (hc : b = false ∨ attempt = maxAttempts) :
    retryFrom cfg stack fn maxAttempts (remaining + 1) attempt lastError =
      ⟨lastAttempt attempt, .error .rangeError⟩ := by
  have hcond : (!b || attempt == maxAttempts) = true := by
    rcases hc with hc | hc <;> simp [hc]
  unfold retryFrom
  simp only [h, hp, hr, hcond, if_true, giveUp_eq]
  rfl

/-- An attempt whose failure is retried after a wait. -/
theorem retryFrom_wait (cfg : HookOptions) (stack : Nat) (fn : Nat → Settled)
    (maxAttempts remaining attempt : Nat) (lastError err p : JSVal) (delay : Nat)
    (h : fn attempt = .rejected err) (hp : parseError err = .ok p)
    (hr : isRetryable p = .ok true) (hne : attempt ≠ maxAttempts)
    (hd : getRetryDelay p attempt = .ok delay) :
    retryFrom cfg stack fn maxAttempts (remaining + 1) attempt lastError =
      ⟨retriedAttempt attempt delay ++
          (retryFrom cfg stack fn maxAttempts remaining (attempt + 1) err).events,
        (retryFrom cfg stack fn maxAttempts remaining (attempt + 1) err).outcome⟩ := by
  have hcond : ¬ ((!true || attempt == maxAttempts) = true) := by
    simp [hne]
  conv_lhs => unfold retryFrom
  simp only [h, hp, hr, hd, if_neg hcond]
  rfl

theorem invocations_append (l r : List Event) :
    invocations (l ++ r) = invocations l ++ invocations r := by
  induction l with
  | nil => rfl
  | cons e rest ih => cases e <;> simp [invocations, ih]

theorem waits_append (l r : List Event) : waits (l ++ r) = waits l ++ waits r := by
  induction l with
  | nil => rfl
  | cons e rest ih => cases e <;> simp [waits, ih]

theorem invocations_retriedAttempts (delay : Nat → Nat) (n : Nat) :
    ∀ attempt, invocations (retriedAttempts delay attempt n) = List.range' attempt n := by
  induction n with
  | zero => intro attempt; rfl
  | succ n ih =>
    intro attempt
    simp [retriedAttempts, retriedAttempt, invocations, ih, List.range'_succ]

theorem waits_retriedAttempts (delay : Nat → Nat) (n : Nat) :
    ∀ attempt, waits (retriedAttempts delay attempt n) = (List.range' attempt n).map delay := by
  induction n with
  | zero => intro attempt; rfl
  | succ n ih =>
    intro attempt
    simp [retriedAttempts, retriedAttempt, waits, ih, List.range'_succ]

/-! ## Parsing a parsed error again -/

/-- A value returned with a truthy `code` is returned by `parseError` as it is. -/
theorem parseError_of_truthy_code_val (p : JSVal)
    (h : truthy (getField p "code") = true) : parseError p = .ok p := by
  cases p with
  | obj kind props => exact parseError_of_truthy_code kind props h
  | _ => simp [getField, truthy] at h

/-- An ordinary object without a truthy `code` and without a truthy `response` goes to
the default branch of `parseError`. -/
theorem parseError_default (props : List (String × JSVal))
    (hcode : truthy (getField (.obj .plain props) "code") = false)
    (hresp : truthy (getField (.obj .plain props) "response") = false) :
    parseError (.obj .plain props) = .ok (defaultDescriptor (.obj .plain props)) := by
  have c1 : ¬ ((truthy (.obj .plain props) && typeofObject (.obj .plain props) &&
      truthy (getField (.obj .plain props) "code")) = true) := by
    rw [hcode]; simp
  have c2 : ¬ (typeofString (.obj .plain props) = true) := by simp [typeofString]
  have c3 : ¬ (instanceofError (.obj .plain props) = true) := by simp [instanceofError]
  have c4 : ¬ ((truthy (.obj .plain props) && truthy (getField (.obj .plain props) "response"))
      = true) := by
    rw [hresp]; simp
  unfold parseError
  rw [if_neg c1, if_neg c2, if_neg c3, if_neg c4]
  rfl

/-- Keys and codes of the merged registry: the `code` property of an entry is its key,
and no key is empty. -/
theorem merged_entries_code :
    ∀ e ∈ ownProps ALL_VERCEL_ERRORS,
      lookupProp (ownProps e.2) "code" = some (.str e.1) ∧ (e.1 != "") = true := by
  decide!

/-- The lookup result of a string code is an entry of the registry, a member inherited
from `Object.prototype`, or `null`. -/
theorem lookupResult_cases (s : String) :
    (∃ d, (s, d) ∈ ownProps ALL_VERCEL_ERRORS ∧
        orElse (getByKey ALL_VERCEL_ERRORS s) .null = d) ∨
      orElse (getByKey ALL_VERCEL_ERRORS s) .null = .builtin s ∨
      orElse (getByKey ALL_VERCEL_ERRORS s) .null = .null := by
  cases hl : lookupProp (ownProps ALL_VERCEL_ERRORS) s with
  | some d =>
    left
    have hmem := lookupProp_mem hl
    have ht := (merged_entries_shape (s, d) hmem).1
    simp only at ht
    exact ⟨d, hmem, by simp [getByKey, hl, orElse, ht]⟩
  | none =>
    by_cases hm : s ∈ objectPrototypeMembers
    · right; left
      simp [getByKey, hl, hm, orElse, truthy]
    · right; right
      simp [getByKey, hl, hm, orElse, truthy]

/-- A registry entry extended by two properties other than `code` has a truthy `code`. -/
theorem extended_entry_code (c : String) (d : JSVal) (hmem : (c, d) ∈ ownProps ALL_VERCEL_ERRORS)
    (k1 k2 : String) (v1 v2 : JSVal) (h1 : k1 ≠ "code") (h2 : k2 ≠ "code") :
    truthy (getField (.obj .plain (setProp (spreadInto [] d) k1 v1)) "code") = true ∧
      truthy (getField (.obj .plain (setProp (setProp (spreadInto [] d) k1 v1) k2 v2))
        "code") = true := by
  have hs := (merged_entries_shape (c, d) hmem).2.1
  have hc := merged_entries_code (c, d) hmem
  simp only at hs hc
  have hne : c ≠ "" := by simpa using hc.2
  constructor
  · simp [getField, lookupProp_setProp, h1, hs, hc.1, truthy, hne]
  · simp [getField, lookupProp_setProp, h1, h2, hs, hc.1, truthy, hne]

/-- Outcome of parsing the result of a lookup extended by `originalError` and possibly
one more property: a truthy `code`, or an object for the default branch. -/
theorem extended_lookup_reparse (s : String) (raw : JSVal) (k2 : String) (v2 : JSVal)
    (hk2 : k2 = "stack" ∨ k2 = "httpStatus")
    (ht : truthy (orElse (getByKey ALL_VERCEL_ERRORS s) .null) = true) :
    (truthy (getField (.obj .plain (setProp (spreadInto []
        (orElse (getByKey ALL_VERCEL_ERRORS s) .null)) "originalError" raw)) "code") = true ∨
      parseError (.obj .plain (setProp (spreadInto []
        (orElse (getByKey ALL_VERCEL_ERRORS s) .null)) "originalError" raw)) =
        .ok (defaultDescriptor (.obj .plain (setProp (spreadInto []
          (orElse (getByKey ALL_VERCEL_ERRORS s) .null)) "originalError" raw)))) ∧
    (truthy (getField (.obj .plain (setProp (setProp (spreadInto []
        (orElse (getByKey ALL_VERCEL_ERRORS s) .null)) "originalError" raw) k2 v2))
        "code") = true ∨
      parseError (.obj .plain (setProp (setProp (spreadInto []
        (orElse (getByKey ALL_VERCEL_ERRORS s) .null)) "originalError" raw) k2 v2)) =
        .ok (defaultDescriptor (.obj .plain (setProp (setProp (spreadInto []
          (orElse (getByKey ALL_VERCEL_ERRORS s) .null)) "originalError" raw) k2 v2)))) := by
  have hk2c : k2 ≠ "code" := by rcases hk2 with h | h <;> rw [h] <;> decide
  rcases lookupResult_cases s with ⟨d, hmem, hd⟩ | hb | hn
  · rw [hd]
    have := extended_entry_code s d hmem "originalError" k2 raw v2 (by decide) hk2c
    exact ⟨Or.inl this.1, Or.inl this.2⟩
  · rw [hb]
    constructor
    · right
      apply parseError_default <;>
        simp [spreadInto, ownProps, setProp, getField, lookupProp, truthy]
    · right
      rcases hk2 with h | h <;> subst h <;>
        apply parseError_default <;>
        simp [spreadInto, ownProps, setProp, getField, lookupProp, truthy]
  · rw [hn] at ht
    simp [truthy] at ht

/-- A header lookup returns `undefined`, `null` or a string. -/
theorem headersGet_cases (headers : JSVal) (name : String) (v : JSVal)
    (h : headersGet headers name = .ok v) :
    v = .undefined ∨ v = .null ∨ ∃ t, v = .str t := by
  cases headers with
  | undefined => simp [headersGet] at h; exact Or.inl h.symm
  | null => simp [headersGet] at h; exact Or.inl h.symm
  | headers table =>
    simp only [headersGet] at h
    split at h
    · exact Or.inr (Or.inr ⟨_, (Except.ok.inj h).symm⟩)
    · exact Or.inr (Or.inl (Except.ok.inj h).symm)
  | obj kind props =>
    simp only [headersGet] at h
    split at h <;> cases h
  | _ => simp [headersGet] at h

/-- Only a string has a callable `match`. -/
theorem messageMatch_nonstring (v : JSVal) (h : ∀ m, v ≠ .str m) :
    ∃ e, messageMatch v = .error e := by
  cases v with
  | str m => exact absurd rfl (h m)
  | obj kind props =>
    simp only [messageMatch]
    split <;> exact ⟨_, rfl⟩
  | _ => exact ⟨_, rfl⟩

/-- The result of `parseError` has a truthy `code`, or is an object that `parseError`
sends to its default branch. -/
theorem parseError_reparse (err p : JSVal) (h : parseError err = .ok p) :
    truthy (getField p "code") = true ∨ parseError p = .ok (defaultDescriptor p) := by
  have hdefault : parseError err = .ok (defaultDescriptor err) →
      truthy (getField p "code") = true ∨ parseError p = .ok (defaultDescriptor p) := by
    intro he
    rw [he] at h
    have hp := Except.ok.inj h
    subst hp
    left
    rfl
  cases err with
  | undefined => exact hdefault rfl
  | null => exact hdefault rfl
  | bool b => cases b <;> exact hdefault rfl
  | num n =>
    apply hdefault
    simp [parseError, truthy, typeofObject, typeofString, instanceofError, getField,
      defaultDescriptor, objLit, setProp]
  | headers table => exact hdefault rfl
  | builtin name =>
    apply hdefault
    simp [parseError, truthy, typeofObject, typeofString, instanceofError, getField,
      defaultDescriptor, objLit, setProp]
  | str s =>
    have hparse : parseError (.str s) =
        if truthy (orElse (getByKey ALL_VERCEL_ERRORS s) .null) then
          .ok (.obj .plain (setProp (spreadInto [] (orElse (getByKey ALL_VERCEL_ERRORS s) .null))
            "originalError" (.str s)))
        else .ok (objLit [
          ("code", .str "UNKNOWN_ERROR"),
          ("category", .str "Unknown"),
          ("statusCode", .num 500),
          ("message", .str s),
          ("userMessage", .str s),
          ("description", .str "An unknown error occurred"),
          ("actionable", .bool true),
          ("originalError", .str s)]) := by
      simp only [parseError, truthy, typeofObject, typeofString, getErrorByCode_str, bind,
        Except.bind, pure, Except.pure, Bool.false_and, Bool.and_false, Bool.false_eq_true,
        if_false, if_true]
    rw [hparse] at h
    by_cases ht : truthy (orElse (getByKey ALL_VERCEL_ERRORS s) .null) = true
    · rw [if_pos ht] at h
      have hp := Except.ok.inj h
      subst hp
      exact (extended_lookup_reparse s (.str s) "stack" .undefined (Or.inl rfl) ht).1
    · rw [if_neg ht] at h
      have hp := Except.ok.inj h
      subst hp
      left
      rfl
  | obj kind props =>
    by_cases hcode : truthy (getField (.obj kind props) "code") = true
    · rw [parseError_of_truthy_code kind props hcode] at h
      have hp := Except.ok.inj h
      subst hp
      exact Or.inl hcode
    · have hcode : truthy (getField (.obj kind props) "code") = false := by
        simpa using hcode
      cases kind with
      | error =>
        cases hm : getField (.obj .error props) "message" with
        | str m =>
          rw [parseError_exception props m hcode hm] at h
          cases hrun : firstCodeRun m with
          | none =>
            rw [hrun] at h
            have hp := Except.ok.inj h
            subst hp
            left
            rfl
          | some c =>
            rw [hrun] at h
            by_cases ht : truthy (orElse (getByKey ALL_VERCEL_ERRORS c) .null) = true
            · simp only [ht, if_true] at h
              have hp := Except.ok.inj h
              subst hp
              exact (extended_lookup_reparse c _ "stack" _ (Or.inl rfl) ht).2
            · simp only [ht, Bool.false_eq_true, if_false] at h
              have hp := Except.ok.inj h
              subst hp
              left
              rfl
        | _ =>
          exfalso
          have c1 : ¬ ((truthy (.obj .error props) && typeofObject (.obj .error props) &&
              truthy (getField (.obj .error props) "code")) = true) := by
            rw [hcode]; simp
          have c2 : ¬ (typeofString (.obj .error props) = true) := by simp [typeofString]
          have c3 : instanceofError (.obj .error props) = true := rfl
          obtain ⟨e, he⟩ := messageMatch_nonstring (getField (.obj .error props) "message")
            (by rw [hm]; intro m hmm; cases hmm)
          unfold parseError at h
          rw [if_neg c1, if_neg c2, if_pos c3] at h
          simp only [he, bind, Except.bind] at h
          cases h
      | plain =>
        by_cases hresp : truthy (getField (.obj .plain props) "response") = true
        · rw [parseError_response props hcode hresp] at h
          -- the header lookups return a string, `null` or `undefined`
          have hinfo : ∀ errorInfo : JSVal,
              (errorInfo = .null ∨ ∃ s, errorInfo = orElse (getByKey ALL_VERCEL_ERRORS s) .null) →
              responseResult (.obj .plain props) errorInfo = .ok p →
              truthy (getField p "code") = true ∨ parseError p = .ok (defaultDescriptor p) := by
            intro errorInfo hform hres
            unfold responseResult at hres
            by_cases ht : truthy errorInfo = true
            · rw [if_pos ht] at hres
              have hp := Except.ok.inj hres
              subst hp
              rcases hform with hnull | ⟨s, hs⟩
              · rw [hnull] at ht; simp [truthy] at ht
              · subst hs
                exact (extended_lookup_reparse s _ "httpStatus" _ (Or.inr rfl) ht).2
            · rw [if_neg ht] at hres
              obtain ⟨st, hst⟩ := httpFallback_code _ _ hres
              left
              rw [hst]
              have hne : "HTTP_" ++ st ≠ "" := by
                intro h0
                have := congrArg String.data h0
                simp [String.data_append] at this
              simp [truthy, hne]
          have hstr : ∀ (name : String) (v : JSVal),
              headersGet (getField (getField (.obj .plain props) "response") "headers") name
                = .ok v → truthy v = true → ∃ t, v = .str t := by
            intro name v hv htv
            rcases headersGet_cases _ _ _ hv with h1 | h1 | ⟨t, h1⟩
            · rw [h1] at htv; simp [truthy] at htv
            · rw [h1] at htv; simp [truthy] at htv
            · exact ⟨t, h1⟩
          cases hfe : headersGet (getField (getField (.obj .plain props) "response") "headers")
              "x-vercel-error" with
          | error e =>
            rw [hfe] at h
            cases h
          | ok fromError =>
            rw [hfe] at h
            simp only [Except.bind] at h
            by_cases ht1 : truthy fromError = true
            · obtain ⟨t, rfl⟩ := hstr _ _ hfe ht1
              simp only [ht1, if_true, getErrorByCode_str] at h
              exact hinfo _ (Or.inr ⟨t, rfl⟩) h
            · simp only [ht1, Bool.false_eq_true, if_false] at h
              cases hfi : headersGet (getField (getField (.obj .plain props) "response")
                  "headers") "x-vercel-id" with
              | error e =>
                rw [hfi] at h
                cases h
              | ok fromId =>
                rw [hfi] at h
                simp only [Except.bind] at h
                by_cases ht2 : truthy fromId = true
                · obtain ⟨t, rfl⟩ := hstr _ _ hfi ht2
                  have ho : orElse (.str t) .null = .str t := by simp [orElse, ht2]
                  simp only [ho, ht2, if_true, getErrorByCode_str] at h
                  exact hinfo _ (Or.inr ⟨t, rfl⟩) h
                · have ho : orElse fromId .null = .null := by simp [orElse, ht2]
                  have hn : truthy JSVal.null = false := rfl
                  simp only [ho, hn, Bool.false_eq_true, if_false] at h
                  exact hinfo _ (Or.inl rfl) h
        · have hresp : truthy (getField (.obj .plain props) "response") = false := by
            simpa using hresp
          exact hdefault (parseError_default props hcode hresp)

/-- A classified error is parsed again by `isRetryable` and `getRetryDelay`. -/
theorem isRetryable_parses (p : JSVal) (b : Bool) (h : isRetryable p = .ok b) :
    ∃ q, parseError p = .ok q := by
  cases hq : parseError p with
  | ok q => exact ⟨q, rfl⟩
  | error e =>
    unfold isRetryable at h
    simp only [hq, bind, Except.bind] at h
    cases h

/-- The delay for an error that `isRetryable` classified exists at every attempt from 1
on. -/
theorem getRetryDelay_defined (p : JSVal) (b : Bool) (h : isRetryable p = .ok b) (a : Nat)
    (ha : 1 ≤ a) : ∃ d, getRetryDelay p a = .ok d := by
  obtain ⟨q, hq⟩ := isRetryable_parses p b h
  exact ⟨_, getRetryDelay_of_parsed p q a hq ha⟩

/-- The delay computed from the parsed error of a failure, when neither floor applies. -/
theorem getRetryDelay_parsed_base (err p : JSVal) (a : Nat) (hp : parseError err = .ok p)
    (hcode : getField p "code" ≠ .str "FUNCTION_THROTTLED")
    (hstatus : getField p "statusCode" ≠ .num 429) (ha : 1 ≤ a) :
    getRetryDelay p a = .ok (baseDelay a) := by
  rcases parseError_reparse err p hp with ht | hd
  · rw [getRetryDelay_of_parsed p p a (parseError_of_truthy_code_val p ht) ha, if_neg hcode,
      if_neg hstatus]
    rfl
  · rw [getRetryDelay_of_parsed p _ a hd ha]
    rfl

/-- Run of the loop from `attempt` when the next `k` attempts fail with retryable
failures that take the exponential delay and the attempt after them succeeds. -/
theorem retryFrom_fails_then_succeeds (cfg : HookOptions) (stack : Nat) (fn : Nat → Settled)
    (maxAttempts : Nat) (v : JSVal) :
    ∀ (k attempt remaining : Nat) (lastError : JSVal),
      1 ≤ attempt → attempt + remaining = maxAttempts + 1 → attempt + k ≤ maxAttempts →
      (∀ i, attempt ≤ i → i < attempt + k → ∃ err p, fn i = .rejected err ∧
        parseError err = .ok p ∧ isRetryable p = .ok true ∧
        getField p "code" ≠ .str "FUNCTION_THROTTLED" ∧
        getField p "statusCode" ≠ .num 429) →
      fn (attempt + k) = .resolved v →
      retryFrom cfg stack fn maxAttempts remaining attempt lastError =
        ⟨retriedAttempts baseDelay attempt k ++ lastAttempt (attempt + k), .ok v⟩ := by
  intro k
  induction k with
  | zero =>
    intro attempt remaining lastError _ hsum hle _ hok
    obtain ⟨r, rfl⟩ : ∃ r, remaining = r + 1 := ⟨remaining - 1, by omega⟩
    rw [retryFrom_resolved cfg stack fn maxAttempts r attempt lastError v hok]
    rfl
  | succ k ih =>
    intro attempt remaining lastError ha hsum hle hfail hok
    obtain ⟨r, rfl⟩ : ∃ r, remaining = r + 1 := ⟨remaining - 1, by omega⟩
    obtain ⟨err, p, hfn, hp, hr, hcode, hstatus⟩ := hfail attempt (le_refl _) (by omega)
    have hne : attempt ≠ maxAttempts := by omega
    have hok2 : fn (attempt + 1 + k) = .resolved v := by
      have : attempt + 1 + k = attempt + (k + 1) := by omega
      rw [this]; exact hok
    have hrest := ih (attempt + 1) r err (by omega) (by omega) (by omega)
      (fun i h1 h2 => hfail i (by omega) (by omega)) hok2
    rw [retryFrom_wait cfg stack fn maxAttempts r attempt lastError err p (baseDelay attempt)
      hfn hp hr hne (getRetryDelay_parsed_base err p attempt hp hcode hstatus ha), hrest]
    have : attempt + 1 + k = attempt + (k + 1) := by omega
    simp only [retriedAttempts, List.append_assoc, this]

/-- Run of the loop from `attempt` when every attempt up to `maxAttempts` fails with a
retryable failure. -/
theorem retryFrom_all_fail (cfg : HookOptions) (stack : Nat) (fn : Nat → Settled)
    (maxAttempts : Nat)
    (hfail : ∀ i, 1 ≤ i → i ≤ maxAttempts → ∃ err p, fn i = .rejected err ∧
      parseError err = .ok p ∧ isRetryable p = .ok true) :
    ∀ (r attempt : Nat) (lastError : JSVal),
      1 ≤ attempt → attempt + r = maxAttempts →
      retryFrom cfg stack fn maxAttempts (r + 1) attempt lastError =
        ⟨retriedAttempts (delayAfter fn) attempt r ++ lastAttempt maxAttempts,
          .error .rangeError⟩ := by
  intro r
  induction r with
  | zero =>
    intro attempt lastError ha hsum
    have hm : attempt = maxAttempts := by omega
    obtain ⟨err, p, hfn, hp, hr⟩ := hfail attempt ha (by omega)
    rw [retryFrom_giveUp cfg stack fn maxAttempts 0 attempt lastError err p true hfn hp hr
      (Or.inr hm), hm]
    rfl
  | succ r ih =>
    intro attempt lastError ha hsum
    obtain ⟨err, p, hfn, hp, hr⟩ := hfail attempt ha (by omega)
    obtain ⟨d, hd⟩ := getRetryDelay_defined p true hr attempt ha
    have hdelay : delayAfter fn attempt = d := by
      simp [delayAfter, hfn, hp, hd]
    rw [retryFrom_wait cfg stack fn maxAttempts (r + 1) attempt lastError err p d hfn hp hr
      (by omega) hd, ih (attempt + 1) err (by omega) (by omega)]
    simp only [retriedAttempts, List.append_assoc, hdelay]

/-- The invocations of a run of the loop from `attempt` are the attempts `attempt`,
`attempt + 1`, ..., and there are no more of them than iterations left. -/
theorem retryFrom_invocations (cfg : HookOptions) (stack : Nat) (fn : Nat → Settled)
    (maxAttempts : Nat) :
    ∀ (r attempt : Nat) (lastError : JSVal),
      ∃ n, n ≤ r ∧
        invocations (retryFrom cfg stack fn maxAttempts r attempt lastError).events =
          List.range' attempt n := by
  intro r
  induction r with
  | zero =>
    intro attempt lastError
    refine ⟨0, le_refl _, ?_⟩
    simp [retryFrom, giveUp_eq, invocations]
  | succ r ih =>
    intro attempt lastError
    have one : ∀ rest : List Event, invocations rest = [] →
        ∃ n, n ≤ r + 1 ∧
          invocations ([Event.setIsLoading true, Event.clearError, Event.invoke attempt] ++ rest)
            = List.range' attempt n := by
      intro rest hrest
      exact ⟨1, by omega, by simp [invocations, hrest]⟩
    unfold retryFrom
    split
    · exact one [.setIsLoading false] rfl
    · split
      · exact one [] rfl
      · split
        · exact one [] rfl
        · split
          · simp only [giveUp_eq]
            exact one [.setIsLoading false] rfl
          · split
            · exact one [] rfl
            · rename_i err _ _ _ _ _ _ _ _ _ delay _
              obtain ⟨n, hn, hinv⟩ := ih (attempt + 1) err
              refine ⟨n + 1, by omega, ?_⟩
              simp [invocations, hinv, List.range'_succ]

/-- Busy-flag discipline of a run of the loop, from any earlier steps and flag value. -/
theorem retryFrom_flag (cfg : HookOptions) (stack : Nat) (fn : Nat → Settled)
    (maxAttempts : Nat) :
    ∀ (r attempt : Nat) (lastError : JSVal) (prev2 prev1 : Option Event) (flag : Bool),
      attemptsStartClean prev2 prev1
          (retryFrom cfg stack fn maxAttempts r attempt lastError).events = true ∧
        busyDuringWaits flag
          (retryFrom cfg stack fn maxAttempts r attempt lastError).events = true ∧
        ((∀ a, (retryFrom cfg stack fn maxAttempts r attempt lastError).outcome ≠
            .error (.abort a)) →
          flagAfter flag (retryFrom cfg stack fn maxAttempts r attempt lastError).events
            = false) := by
  intro r
  induction r with
  | zero =>
    intro attempt lastError prev2 prev1 flag
    simp [retryFrom, giveUp_eq, attemptsStartClean, busyDuringWaits, flagAfter]
  | succ r ih =>
    intro attempt lastError prev2 prev1 flag
    unfold retryFrom
    split
    · simp [attemptsStartClean, busyDuringWaits, flagAfter]
    · split
      · simp [attemptsStartClean, busyDuringWaits, flagAfter]
      · split
        · simp [attemptsStartClean, busyDuringWaits, flagAfter]
        · split
          · simp [giveUp_eq, attemptsStartClean, busyDuringWaits, flagAfter]
          · split
            · simp [attemptsStartClean, busyDuringWaits, flagAfter]
            · rename_i err _ _ _ _ _ _ _ _ _ delay _
              obtain ⟨h1, h2, h3⟩ := ih (attempt + 1) err (some (.invoke attempt))
                (some (.wait delay)) true
              simp only [List.cons_append, List.nil_append, attemptsStartClean,
                busyDuringWaits, flagAfter]
              refine ⟨?_, ?_, ?_⟩
              · simpa using h1
              · simpa using h2
              · exact h3

/-- The `code` of a registry entry extended by properties other than `code` is the key
of the entry. -/
theorem extended_entry_code_eq (c : String) (d : JSVal)
    (hmem : (c, d) ∈ ownProps ALL_VERCEL_ERRORS)
    (k1 k2 : String) (v1 v2 : JSVal) (h1 : k1 ≠ "code") (h2 : k2 ≠ "code") :
    getField (.obj .plain (setProp (spreadInto [] d) k1 v1)) "code" = .str c ∧
      getField (.obj .plain (setProp (setProp (spreadInto [] d) k1 v1) k2 v2)) "code"
        = .str c := by
  have hs := (merged_entries_shape (c, d) hmem).2.1
  have hc := merged_entries_code (c, d) hmem
  simp only at hs hc
  constructor
  · simp [getField, lookupProp_setProp, h1, hs, hc.1]
  · simp [getField, lookupProp_setProp, h1, h2, hs, hc.1]

/-- The exception branch of `parseError` in terms of `exceptionDescriptor`. -/
theorem parseError_exception_descriptor (props : List (String × JSVal)) (m : String)
    (hcode : truthy (getField (.obj .error props) "code") = false)
    (hm : getField (.obj .error props) "message" = .str m) :
    parseError (.obj .error props) =
      .ok (exceptionDescriptor m (.obj .error props) (getField (.obj .error props) "stack")) := by
  have hu : orElse (.str m) (.str "An unexpected error occurred") =
      .str (if m = "" then "An unexpected error occurred" else m) := by
    by_cases h : m = "" <;> simp [orElse, truthy, h]
  rw [parseError_exception props m hcode hm]
  unfold exceptionDescriptor
  cases hrun : firstCodeRun m with
  | none => simp only [hu]
  | some c =>
    dsimp only
    cases hreg : lookupProp (ownProps ALL_VERCEL_ERRORS) c with
    | some d =>
      have hd : orElse (getByKey ALL_VERCEL_ERRORS c) .null = d := by
        have h1 := getErrorByCode_entries (c, d) (lookupProp_mem hreg)
        rw [getErrorByCode_str] at h1
        exact Except.ok.inj h1
      have hs := merged_entries_shape (c, d) (lookupProp_mem hreg)
      simp only [hd, hs.1, if_true]
      rw [extend_entry c d hreg _ "stack" _ (by decide) hs.2.2.2.1]
    | none =>
      have hnull : orElse (getByKey ALL_VERCEL_ERRORS c) .null = .null := by
        have h1 := getErrorByCode_absent c hreg (firstCodeRun_not_member hrun)
        rw [getErrorByCode_str] at h1
        exact Except.ok.inj h1
      simp [hnull, truthy, hu]

/-- No entry of the merged registry has the category `HTTP`; each has a category. -/
theorem merged_entries_category :
    ∀ e ∈ ownProps ALL_VERCEL_ERRORS,
      (lookupProp (ownProps e.2) "category").isSome = true ∧
        lookupProp (ownProps e.2) "category" ≠ some (.str "HTTP") := by
  decide!

theorem lookup_unknown_none :
    lookupProp (ownProps ALL_VERCEL_ERRORS) "UNKNOWN_ERROR" = none := by decide!

/-- Properties of the object of the exception branch that do not depend on the failure
value: no `HTTP_<status>` code, not the category `HTTP`, no `httpStatus`. -/
theorem exceptionDescriptor_not_http (m : String) (raw stack : JSVal) :
    (∀ st, getField (exceptionDescriptor m raw stack) "code" ≠ .str ("HTTP_" ++ st)) ∧
      getField (exceptionDescriptor m raw stack) "category" ≠ .str "HTTP" ∧
      lookupProp (ownProps (exceptionDescriptor m raw stack)) "httpStatus" = none := by
  have hprefix : ∀ st : String, "UNKNOWN_ERROR" ≠ "HTTP_" ++ st := by
    intro st h0
    have := congrArg String.data h0
    simp [String.data_append] at this
  unfold exceptionDescriptor
  cases hrun : firstCodeRun m with
  | none =>
    refine ⟨?_, ?_, ?_⟩
    · intro st
      simp [getField, lookupProp, hprefix st]
    · simp [getField, lookupProp]
    · simp [ownProps, lookupProp]
  | some c =>
    dsimp only
    cases hreg : lookupProp (ownProps ALL_VERCEL_ERRORS) c with
    | some d =>
      have hmem := lookupProp_mem hreg
      have hs := merged_entries_shape (c, d) hmem
      have hc := merged_entries_code (c, d) hmem
      have hcat := merged_entries_category (c, d) hmem
      simp only at hs hc hcat
      refine ⟨?_, ?_, ?_⟩
      · intro st heq
        have h1 : getField (.obj .plain (ownProps d ++
            [("originalError", raw), ("stack", stack)])) "code" = .str c := by
          simp [getField, lookupProp_append, hc.1]
        simp only [h1] at heq
        have h2 : c = "HTTP_" ++ st := by cases heq; rfl
        rw [h2, lookup_http_none] at hreg
        cases hreg
      · cases hl : lookupProp (ownProps d) "category" with
        | none => simp [hl] at hcat
        | some v =>
          have hv : v ≠ .str "HTTP" := by
            intro h0
            rw [hl, h0] at hcat
            exact hcat.2 rfl
          simp [getField, lookupProp_append, hl, hv]
      · show lookupProp (ownProps d ++ [("originalError", raw), ("stack", stack)])
          "httpStatus" = none
        rw [lookupProp_append, hs.2.2.2.2.1]
        simp [lookupProp]
    | none =>
      refine ⟨?_, ?_, ?_⟩
      · intro st
        simp [getField, lookupProp, hprefix st]
      · simp [getField, lookupProp]
      · simp [ownProps, lookupProp]

/-- The object of the exception branch depends on the failure value only in its
properties `originalError` and `stack`. -/
theorem exceptionDescriptor_fields (m : String) (raw stack raw2 stack2 : JSVal) (k : String)
    (h1 : k ≠ "originalError") (h2 : k ≠ "stack") :
    getField (exceptionDescriptor m raw stack) k =
      getField (exceptionDescriptor m raw2 stack2) k := by
  have e1 : ¬ "originalError" = k := fun h => h1 h.symm
  have e2 : ¬ "stack" = k := fun h => h2 h.symm
  unfold exceptionDescriptor
  cases firstCodeRun m with
  | none => simp [getField, lookupProp, e1, e2]
  | some c =>
    dsimp only
    cases lookupProp (ownProps ALL_VERCEL_ERRORS) c with
    | some d => simp [getField, lookupProp_append, lookupProp, e1, e2]
    | none => simp [getField, lookupProp, e1, e2]

theorem optField_of_truthy (v : JSVal) (name : String) (h : truthy v = true) :
    optField v name = getField v name := by
  cases v with
  | undefined => simp [truthy] at h
  | null => simp [truthy] at h
  | _ => rfl

/-- On an object with a truthy `code`, `extractErrorCode` returns that `code`. -/
theorem extractErrorCode_of_truthy_code (kind : ObjKind) (props : List (String × JSVal))
    (h : truthy (getField (.obj kind props) "code") = true) :
    extractErrorCode (.obj kind props) = .ok (getField (.obj kind props) "code") := by
  have c1 : ¬ ((!truthy (.obj kind props)) = true) := by simp [truthy]
  have c2 : ¬ (typeofString (.obj kind props) = true) := by simp [typeofString]
  unfold extractErrorCode
  rw [if_neg c1, if_neg c2, if_pos h]

/-- On an object without a truthy `code`, `extractErrorCode` reads the message, then the
response headers, then the response body. -/
theorem extractErrorCode_of_no_code (kind : ObjKind) (props : List (String × JSVal))
    (h : truthy (getField (.obj kind props) "code") = false) :
    extractErrorCode (.obj kind props) =
      (if truthy (getField (.obj kind props) "message") then
          messageMatch (getField (.obj kind props) "message")
        else .ok none).bind (fun fromMessage =>
        match fromMessage with
        | some code => .ok (.str code)
        | none =>
          (if truthy (optField (getField (.obj kind props) "response") "headers") then
              headersGet (optField (getField (.obj kind props) "response") "headers")
                "x-vercel-error"
            else .ok .undefined).bind (fun vercelError =>
            if truthy vercelError then .ok vercelError
            else if truthy (optField (optField (optField (getField (.obj kind props) "response")
                "data") "error") "code") then
              .ok (optField (optField (optField (getField (.obj kind props) "response")
                "data") "error") "code")
            else .ok .null)) := by
  have c1 : ¬ ((!truthy (.obj kind props)) = true) := by simp [truthy]
  have c2 : ¬ (typeofString (.obj kind props) = true) := by simp [typeofString]
  have c3 : ¬ (truthy (getField (.obj kind props) "code") = true) := by rw [h]; simp
  unfold extractErrorCode
  rw [if_neg c1, if_neg c2, if_neg c3]
  simp only [bind, Except.bind, pure, Except.pure]
  by_cases hm : truthy (getField (.obj kind props) "message") = true
  · simp only [hm, ↓reduceIte]
    cases messageMatch (getField (.obj kind props) "message") with
    | error e => rfl
    | ok r =>
      cases r with
      | some code => rfl
      | none =>
        by_cases hh : truthy (optField (getField (.obj kind props) "response") "headers") = true
        · simp only [hh, ↓reduceIte]
        · simp only [hh, Bool.false_eq_true, ↓reduceIte]
  · simp only [hm, Bool.false_eq_true, ↓reduceIte]
    by_cases hh : truthy (optField (getField (.obj kind props) "response") "headers") = true
    · simp only [hh, ↓reduceIte]
    · simp only [hh, Bool.false_eq_true, ↓reduceIte]

/-- No entry of the merged registry has the code `UNKNOWN_ERROR`. -/
theorem merged_entries_not_unknown :
    ∀ e ∈ ownProps ALL_VERCEL_ERRORS,
      getField e.2 "code" ≠ .str "UNKNOWN_ERROR" := by
  decide!

/-- Busy-flag discipline of `retry` on the runs that do not end inside the classification
of a failure: every invocation of the operation comes right after `setIsLoading(true)`
and `clearError()`, the busy flag is true at every backoff wait, and the last write of
the flag is `false` when `retry` returns a value and when it gives up (on a
non-retryable failure, or at the last attempt). -/
theorem retry_busy_flag (cfg : HookOptions) (stack : Nat) (fn : Nat → Settled)
    (maxAttempts : Nat) (flag : Bool) :
    attemptsStartClean none none (retry cfg stack fn maxAttempts).events = true ∧
      busyDuringWaits flag (retry cfg stack fn maxAttempts).events = true ∧
      ((∀ a, (retry cfg stack fn maxAttempts).outcome ≠ .error (.abort a)) →
        flagAfter flag (retry cfg stack fn maxAttempts).events = false) ∧
      (∀ v, (retry cfg stack fn maxAttempts).outcome = .ok v →
        flagAfter flag (retry cfg stack fn maxAttempts).events = false) ∧
      ((retry cfg stack fn maxAttempts).outcome = .error .rangeError →
        flagAfter flag (retry cfg stack fn maxAttempts).events = false) := by
  have h := retryFrom_flag cfg stack fn maxAttempts maxAttempts 1 .null none none flag
  refine ⟨h.1, h.2.1, h.2.2, ?_, ?_⟩
  · intro v hv
    exact h.2.2 (fun a ha => by rw [show retry cfg stack fn maxAttempts =
      retryFrom cfg stack fn maxAttempts maxAttempts 1 .null from rfl] at hv; rw [hv] at ha; cases ha)
  · intro hv
    exact h.2.2 (fun a ha => by rw [show retry cfg stack fn maxAttempts =
      retryFrom cfg stack fn maxAttempts maxAttempts 1 .null from rfl] at hv; rw [hv] at ha; cases ha)

/-! ## The partitions and the flags of the registry -/

/-- A code of the application partition that the platform partition defines too is
`FUNCTION_THROTTLED`. -/
theorem application_shared_key :
    ∀ e ∈ ownProps APPLICATION_ERRORS,
      (lookupProp (ownProps PLATFORM_ERRORS) e.1).isSome = true → e.1 = "FUNCTION_THROTTLED" := by
  decide!

/-- For each entry of the merged registry: `isRetryable` of its key is the outcome of the
test `statusCode >= 500`, the `statusCode` is neither 408 nor 429, and a key of the
retryable-code set passes the test. -/
theorem merged_entries_retryable :
    ∀ e ∈ ownProps ALL_VERCEL_ERRORS,
      isRetryable (.str e.1) = jsGe (getField e.2 "statusCode") 500 ∧
        getField e.2 "statusCode" ≠ .num 408 ∧ getField e.2 "statusCode" ≠ .num 429 ∧
        (retryableCodes.contains e.1 = true → jsGe (getField e.2 "statusCode") 500 = .ok true) := by
  decide!

/-- Every code of the retryable-code set is a key of the merged registry. -/
theorem retryableCodes_registered :
    ∀ r ∈ retryableCodes, (lookupProp (ownProps ALL_VERCEL_ERRORS) r).isSome = true := by
  decide!

/-- For each entry of the merged registry: `shouldContactSupport` of its key tells
whether the platform partition defines the key. -/
theorem merged_entries_contact :
    ∀ e ∈ ownProps ALL_VERCEL_ERRORS,
      shouldContactSupport (.str e.1) =
        .ok (lookupProp (ownProps PLATFORM_ERRORS) e.1).isSome := by
  decide!

/-- Each key of the platform partition has the category `Internal`, the status code 500
and is not actionable. -/
theorem platform_entries_internal :
    ∀ e ∈ ownProps PLATFORM_ERRORS,
      getErrorCategory (.str e.1) = .ok (.str "Internal") ∧
        getErrorStatusCode (.str e.1) = .ok (.num 500) ∧
        isActionable (.str e.1) = .ok false := by
  decide!

/-- A key of the merged registry that the platform partition does not define is a key of
the application partition. -/
theorem merged_not_platform :
    ∀ e ∈ ownProps ALL_VERCEL_ERRORS, lookupProp (ownProps PLATFORM_ERRORS) e.1 = none →
      (lookupProp (ownProps APPLICATION_ERRORS) e.1).isSome = true := by
  decide!

/-- The flags of `createErrorResponse` are the properties of the parsed error. -/
theorem responseField_eq (now : String) (raw : JSVal) (name : String)
    (h : name = "actionable" ∨ name = "contactSupport") :
    responseField now raw name = (parseError raw).map (fun p => getField p name) := by
  unfold responseField createErrorResponse
  cases parseError raw with
  | error e => rfl
  | ok p =>
    rcases h with rfl | rfl <;>
      simp [bind, Except.bind, pure, Except.pure, Except.map, getField, objLit, setProp,
        lookupProp]

/-- The default descriptor is retryable: its status code is 500. -/
theorem isRetryable_defaultDescriptor (raw : JSVal) :
    isRetryable (defaultDescriptor raw) = .ok true := by
  have hp : parseError (defaultDescriptor raw) = .ok (defaultDescriptor raw) :=
    parseError_of_truthy_code_val _ (by simp [defaultDescriptor, getField, lookupProp, truthy])
  unfold isRetryable
  rw [hp]
  simp [bind, Except.bind, pure, Except.pure, defaultDescriptor, getField, lookupProp,
    includesNum, retryableStatusCodes]

/-- For a string that is a key of the merged registry the flags of `handleError` are
those of the parsed error: `actionable` as it stands, `contactSupport` with an absent
property read as `false`. -/
theorem facade_flags_registry :
    ∀ e ∈ ownProps ALL_VERCEL_ERRORS,
      handledField false (.str e.1) "actionable" =
          (parseError (.str e.1)).map (fun p => getField p "actionable") ∧
        handledField false (.str e.1) "contactSupport" =
          (parseError (.str e.1)).map
            (fun p => .bool (decide (getField p "contactSupport" = .bool true))) := by
  decide!

/-! ## Claims -/

/-- C1: for every code `c` defined in the merged registry, with entry `d`, `parseError`
applied to the string `c` returns a parsed error whose `statusCode` and `category` are
those of `d` and whose `originalError` is the string `c`. -/
theorem parseError_registry_code (c : String) (d : JSVal)
    (h : lookupProp (ownProps ALL_VERCEL_ERRORS) c = some d) :
    ∃ p, parseError (.str c) = .ok p ∧
      getField p "statusCode" = getField d "statusCode" ∧
      getField p "category" = getField d "category" ∧
      getField p "originalError" = .str c :=
  ⟨_, parseError_entries (c, d) (lookupProp_mem h), parseError_entries_fields (c, d) (lookupProp_mem h)⟩

/-- Witness of C1 at the code `NOT_FOUND`. -/
theorem parseError_registry_code_witness :
    lookupProp (ownProps ALL_VERCEL_ERRORS) "NOT_FOUND" =
        some (getByKey APPLICATION_ERRORS "NOT_FOUND") ∧
      ∃ p, parseError (.str "NOT_FOUND") = .ok p ∧
        getField p "statusCode" = getField (getByKey APPLICATION_ERRORS "NOT_FOUND") "statusCode" ∧
        getField p "category" = getField (getByKey APPLICATION_ERRORS "NOT_FOUND") "category" ∧
        getField p "originalError" = .str "NOT_FOUND" :=
  ⟨by decide!, parseError_registry_code "NOT_FOUND" _ (by decide!)⟩

/-- C2 (failing input): the string `constructor` is not a code of the registry, yet
`parseError` does not return the synthesized `UNKNOWN_ERROR` descriptor for it: the
lookup finds the inherited `Object.prototype.constructor`, and the result is the object
`{ originalError: 'constructor' }`, which has no `code`, `statusCode` or `message`. -/
theorem parseError_constructor_string :
    lookupProp (ownProps ALL_VERCEL_ERRORS) "constructor" = none ∧
      parseError (.str "constructor") =
        .ok (.obj .plain [("originalError", .str "constructor")]) ∧
      getField (.obj .plain [("originalError", .str "constructor")]) "code" = .undefined := by
  decide!

/-- C3 (failing input): parsing the string `toString` gives an object without `code`;
parsing that object again gives the generic `UNKNOWN_ERROR` descriptor, a different
value. -/
theorem parseError_not_idempotent_at_toString :
    ∃ p q, parseError (.str "toString") = .ok p ∧ parseError p = .ok q ∧ p ≠ q ∧
      getField p "code" = .undefined ∧ getField q "code" = .str "UNKNOWN_ERROR" ∧
      getField p "message" = .undefined ∧
      getField q "message" = .str "An unknown error occurred" :=
  ⟨.obj .plain [("originalError", .str "toString")],
   .obj .plain [
      ("code", .str "UNKNOWN_ERROR"),
      ("category", .str "Unknown"),
      ("statusCode", .num 500),
      ("message", .str "An unknown error occurred"),
      ("userMessage", .str "An unexpected error occurred. Please try again."),
      ("description", .str "Unable to parse error information"),
      ("actionable", .bool true),
      ("originalError", .obj .plain [("originalError", .str "toString")])],
   by decide!⟩

/-- C4 (counterexample): the object `{ code: '', response: { status: 404 } }` carries a
`code` field, yet `parseError` does not return it unchanged: it returns an `HTTP_404`
descriptor. -/
theorem parseError_empty_code_not_identity :
    lookupProp (ownProps emptyCodeWithResponse) "code" = some (.str "") ∧
      parseError emptyCodeWithResponse ≠ .ok emptyCodeWithResponse ∧
      ∃ p, parseError emptyCodeWithResponse = .ok p ∧ getField p "code" = .str "HTTP_404" ∧
        getField p "category" = .str "HTTP" :=
  ⟨by decide!, by decide!,
   .obj .plain [
      ("code", .str "HTTP_404"),
      ("category", .str "HTTP"),
      ("statusCode", .num 404),
      ("message", .str "HTTP 404 Error"),
      ("userMessage", .str "Server returned an error (404)"),
      ("description", .str ""),
      ("actionable", .bool true),
      ("originalError", emptyCodeWithResponse),
      ("httpStatus", .num 404)],
   by decide!⟩

/-- C4 (amended): every object whose `code` field is truthy is returned by `parseError`
itself, unchanged, whatever other fields it has. -/
theorem parseError_truthy_code_identity (kind : ObjKind) (props : List (String × JSVal))
    (h : truthy (getField (.obj kind props) "code") = true) :
    parseError (.obj kind props) = .ok (.obj kind props) :=
  parseError_of_truthy_code kind props h

/-- Witness of the amended C4: an object with both `code` and `response`. -/
theorem parseError_truthy_code_identity_witness :
    truthy (getField codeWithResponse "code") = true ∧
      parseError codeWithResponse = .ok codeWithResponse :=
  ⟨by decide, parseError_truthy_code_identity .plain _ (by decide)⟩

/-- C5 (failing input): on `{ response: { status: 500, headers: {} } }`, whose headers
are a plain object without a `get` function, each of the six functions throws a
`TypeError`. -/
theorem plain_headers_throw (hasConsole : Bool) (now : String) :
    parseError plainHeadersResponse = .error .typeError ∧
      handleError hasConsole plainHeadersResponse .undefined = .error .typeError ∧
      isRetryable plainHeadersResponse = .error .typeError ∧
      getRetryDelay plainHeadersResponse 1 = .error .typeError ∧
      formatErrorForDisplay plainHeadersResponse .undefined = .error .typeError ∧
      createErrorResponse now plainHeadersResponse = .error .typeError := by
  have h : parseError plainHeadersResponse = .error .typeError := by decide!
  refine ⟨h, ?_, ?_, ?_, ?_, ?_⟩
  · cases hasConsole <;> decide!
  · decide!
  · decide!
  · decide!
  · simp [createErrorResponse, h, bind, Except.bind]

/-- C6: the merged registry holds, for a code that both partitions define, the entry of
the platform partition in full: `getErrorByCode('FUNCTION_THROTTLED')` is the entry of
`PLATFORM_ERRORS` (category `Internal`, statusCode 500, actionable false, contactSupport
true), every code of the platform partition maps to the platform entry, and every code
that only the application partition defines maps to the application entry. -/
theorem merged_registry_policy :
    (∃ d, lookupProp (ownProps PLATFORM_ERRORS) "FUNCTION_THROTTLED" = some d ∧
      (∃ a, lookupProp (ownProps APPLICATION_ERRORS) "FUNCTION_THROTTLED" = some a ∧ a ≠ d) ∧
      getErrorByCode (.str "FUNCTION_THROTTLED") = .ok d ∧
      getField d "category" = .str "Internal" ∧ getField d "statusCode" = .num 500 ∧
      getField d "actionable" = .bool false ∧ getField d "contactSupport" = .bool true) ∧
    (∀ c d, lookupProp (ownProps PLATFORM_ERRORS) c = some d →
      lookupProp (ownProps ALL_VERCEL_ERRORS) c = some d ∧ getErrorByCode (.str c) = .ok d) ∧
    (∀ c d, lookupProp (ownProps APPLICATION_ERRORS) c = some d →
      lookupProp (ownProps PLATFORM_ERRORS) c = none →
      lookupProp (ownProps ALL_VERCEL_ERRORS) c = some d ∧ getErrorByCode (.str c) = .ok d) := by
  refine ⟨⟨getByKey PLATFORM_ERRORS "FUNCTION_THROTTLED", by decide!,
    ⟨getByKey APPLICATION_ERRORS "FUNCTION_THROTTLED", by decide!⟩, by decide!⟩, ?_, ?_⟩
  · intro c d h
    have hm := merged_of_platform (c, d) (lookupProp_mem h)
    exact ⟨hm, getErrorByCode_entries (c, d) (lookupProp_mem hm)⟩
  · intro c d h hp
    have hm := merged_of_application_only (c, d) (lookupProp_mem h) hp
    exact ⟨hm, getErrorByCode_entries (c, d) (lookupProp_mem hm)⟩

/-- Witness of C6 at `INTERNAL_CACHE_ERROR` (platform only) and `NOT_FOUND`
(application only). -/
theorem merged_registry_policy_witness :
    (lookupProp (ownProps PLATFORM_ERRORS) "INTERNAL_CACHE_ERROR" =
        some (getByKey PLATFORM_ERRORS "INTERNAL_CACHE_ERROR") ∧
      getErrorByCode (.str "INTERNAL_CACHE_ERROR") =
        .ok (getByKey PLATFORM_ERRORS "INTERNAL_CACHE_ERROR")) ∧
    (lookupProp (ownProps APPLICATION_ERRORS) "NOT_FOUND" =
        some (getByKey APPLICATION_ERRORS "NOT_FOUND") ∧
      lookupProp (ownProps PLATFORM_ERRORS) "NOT_FOUND" = none ∧
      getErrorByCode (.str "NOT_FOUND") = .ok (getByKey APPLICATION_ERRORS "NOT_FOUND")) :=
  ⟨⟨by decide!, (merged_registry_policy.2.1 "INTERNAL_CACHE_ERROR" _ (by decide!)).2⟩,
   ⟨by decide!, by decide!,
    (merged_registry_policy.2.2 "NOT_FOUND" _ (by decide!) (by decide!)).2⟩⟩

/-- C7: in the application partition, the platform partition and the merged registry,
every entry has its key as `code`, a positive integer as `statusCode`, and one of the
twelve categories of the enumeration as `category`. -/
theorem registry_invariant (reg : JSVal)
    (hreg : reg = APPLICATION_ERRORS ∨ reg = PLATFORM_ERRORS ∨ reg = ALL_VERCEL_ERRORS)
    (key : String) (entry : JSVal) (h : (key, entry) ∈ ownProps reg) :
    getField entry "code" = .str key ∧
      (∃ n : Int, 0 < n ∧ getField entry "statusCode" = .num n) ∧
      (∃ cat, cat ∈ categories ∧ getField entry "category" = .str cat) := by
  have key_fact : getField entry "code" = .str key ∧
      isPositiveInteger (getField entry "statusCode") = true ∧
      isCategory (getField entry "category") = true := by
    rcases hreg with rfl | rfl | rfl
    · exact application_entries_ok (key, entry) h
    · exact platform_entries_ok (key, entry) h
    · exact merged_entries_ok (key, entry) h
  exact ⟨key_fact.1, isPositiveInteger_spec key_fact.2.1, isCategory_spec key_fact.2.2⟩

/-- Witness of C7 at the merged entry of `FUNCTION_THROTTLED`. -/
theorem registry_invariant_witness :
    ("FUNCTION_THROTTLED", getByKey PLATFORM_ERRORS "FUNCTION_THROTTLED") ∈
        ownProps ALL_VERCEL_ERRORS ∧
      getField (getByKey PLATFORM_ERRORS "FUNCTION_THROTTLED") "code" =
        .str "FUNCTION_THROTTLED" ∧
      (∃ n : Int, 0 < n ∧
        getField (getByKey PLATFORM_ERRORS "FUNCTION_THROTTLED") "statusCode" = .num n) ∧
      (∃ cat, cat ∈ categories ∧
        getField (getByKey PLATFORM_ERRORS "FUNCTION_THROTTLED") "category" = .str cat) :=
  ⟨by decide!, registry_invariant ALL_VERCEL_ERRORS (Or.inr (Or.inr rfl)) _ _ (by decide!)⟩

/-- C8 (failing inputs): the strings `constructor`, `toString` and `__proto__` are not
codes of either partition, yet `getErrorByCode` returns for each the member that the
registry object inherits from `Object.prototype`, not `null`. -/
theorem getErrorByCode_inherited_members :
    lookupProp (ownProps APPLICATION_ERRORS) "constructor" = none ∧
      lookupProp (ownProps PLATFORM_ERRORS) "constructor" = none ∧
      getErrorByCode (.str "constructor") = .ok (.builtin "constructor") ∧
      getErrorByCode (.str "toString") = .ok (.builtin "toString") ∧
      getErrorByCode (.str "__proto__") = .ok (.builtin "__proto__") ∧
      getErrorByCode (.str "") = .ok .null := by
  decide!

/-- C9: for every parsed error `p` (an object with a non-empty string `code` `c` and an
integer `statusCode` `n`), `isRetryable(p)` returns a boolean, which is true exactly when
`n` is one of 408, 429, 500, 502, 503, 504, or `c` is one of the seven retryable codes,
or `n >= 500`; it is false for `{ statusCode: 404, code: 'RESOURCE_NOT_FOUND' }`. -/
theorem isRetryable_parsed (kind : ObjKind) (props : List (String × JSVal))
    (c : String) (n : Int)
    (hc : getField (.obj kind props) "code" = .str c) (hne : c ≠ "")
    (hs : getField (.obj kind props) "statusCode" = .num n) :
    (∃ b, isRetryable (.obj kind props) = .ok b ∧
      (b = true ↔
        (n ∈ [408, 429, 500, 502, 503, 504] ∨
          c ∈ ["FUNCTION_INVOCATION_TIMEOUT", "EDGE_FUNCTION_INVOCATION_TIMEOUT",
            "MIDDLEWARE_INVOCATION_TIMEOUT", "FUNCTION_THROTTLED", "DNS_HOSTNAME_SERVER_ERROR",
            "ROUTER_EXTERNAL_TARGET_CONNECTION_ERROR",
            "ROUTER_EXTERNAL_TARGET_HANDSHAKE_ERROR"] ∨
          500 ≤ n))) ∧
      isRetryable resourceNotFound = .ok false := by
  have hp : parseError (.obj kind props) = .ok (.obj kind props) := by
    apply parseError_of_truthy_code
    rw [hc]
    simpa [truthy] using hne
  refine ⟨?_, by decide⟩
  by_cases h1 : n ∈ retryableStatusCodes
  · refine ⟨true, ?_, ?_⟩
    · simp [isRetryable, hp, hs, bind, Except.bind, pure, Except.pure, includesNum, h1]
    · simp only [retryableStatusCodes] at h1
      simp [h1]
  · by_cases h2 : c ∈ retryableCodes
    · refine ⟨true, ?_, ?_⟩
      · simp [isRetryable, hp, hs, hc, bind, Except.bind, pure, Except.pure, includesNum,
          includesStr, h1, h2]
      · simp only [retryableCodes] at h2
        simp [h2]
    · refine ⟨decide (500 ≤ n), ?_, ?_⟩
      · simp [isRetryable, hp, hs, hc, bind, Except.bind, pure, Except.pure, includesNum,
          includesStr, h1, h2, jsGe, toNumberJS]
      · simp only [retryableStatusCodes] at h1
        simp only [retryableCodes] at h2
        simp [h1, h2]

/-- Witness of C9 at `{ statusCode: 404, code: 'RESOURCE_NOT_FOUND' }`. -/
theorem isRetryable_parsed_witness :
    getField resourceNotFound "code" = .str "RESOURCE_NOT_FOUND" ∧
      "RESOURCE_NOT_FOUND" ≠ "" ∧ getField resourceNotFound "statusCode" = .num 404 ∧
      isRetryable resourceNotFound = .ok false :=
  ⟨by decide, by decide, by decide,
   (isRetryable_parsed .plain [("statusCode", .num 404), ("code", .str "RESOURCE_NOT_FOUND")]
      "RESOURCE_NOT_FOUND" 404 (by decide) (by decide) (by decide)).2⟩

/-- C10: for every error that parses to `p` with `p.code` other than
`FUNCTION_THROTTLED` and `p.statusCode` other than 429, and every attempt number
`a >= 1`, `getRetryDelay(error, a)` returns `min(1000 * 2^(a-1), 30000)`: 1000 at
attempt 1, 2000 at attempt 2, 8000 at attempt 4, and 30000 from attempt 6 on. -/
theorem getRetryDelay_exponential (error p : JSVal) (a : Nat)
    (hp : parseError error = .ok p)
    (hcode : getField p "code" ≠ .str "FUNCTION_THROTTLED")
    (hstatus : getField p "statusCode" ≠ .num 429)
    (ha : 1 ≤ a) :
    getRetryDelay error a = .ok (min (1000 * 2 ^ (a - 1)) 30000) ∧
      (a = 1 → getRetryDelay error a = .ok 1000) ∧
      (a = 2 → getRetryDelay error a = .ok 2000) ∧
      (a = 4 → getRetryDelay error a = .ok 8000) ∧
      (6 ≤ a → getRetryDelay error a = .ok 30000) := by
  have h0 : a ≠ 0 := by omega
  have h1 : strictEqStr (getField p "code") "FUNCTION_THROTTLED" = false := by
    rw [Bool.eq_false_iff, Ne, strictEqStr_iff]; exact hcode
  have h2 : strictEqNum (getField p "statusCode") 429 = false := by
    rw [Bool.eq_false_iff, Ne, strictEqNum_iff]; exact hstatus
  have main : getRetryDelay error a = .ok (min (1000 * 2 ^ (a - 1)) 30000) := by
    simp [getRetryDelay, hp, h0, h1, h2, bind, Except.bind, pure, Except.pure]
  refine ⟨main, ?_, ?_, ?_, ?_⟩
  · intro h; rw [main, h]; rfl
  · intro h; rw [main, h]; rfl
  · intro h; rw [main, h]; rfl
  · intro h
    rw [main]
    have hpow : 2 ^ 5 ≤ 2 ^ (a - 1) := Nat.pow_le_pow_right (by norm_num) (by omega)
    have : 30000 ≤ 1000 * 2 ^ (a - 1) := by
      calc 30000 ≤ 1000 * 2 ^ 5 := by norm_num
        _ ≤ 1000 * 2 ^ (a - 1) := Nat.mul_le_mul_left _ hpow
    rw [Nat.min_eq_right this]

/-- Witness of C10 at the parsed error `{ statusCode: 404, code: 'RESOURCE_NOT_FOUND' }`,
attempt 4. -/
theorem getRetryDelay_exponential_witness :
    parseError resourceNotFound = .ok resourceNotFound ∧
      getField resourceNotFound "code" ≠ .str "FUNCTION_THROTTLED" ∧
      getField resourceNotFound "statusCode" ≠ .num 429 ∧ 1 ≤ 4 ∧
      getRetryDelay resourceNotFound 4 = .ok 8000 :=
  ⟨by decide, by decide, by decide, by decide,
   (getRetryDelay_exponential resourceNotFound resourceNotFound 4 (by decide) (by decide)
      (by decide) (by decide)).2.2.2.1 rfl⟩

/-- C11: for every error that parses to `p` with `p.code === 'FUNCTION_THROTTLED'` and
every attempt `a >= 1`, `getRetryDelay(error, a)` returns
`max(min(1000 * 2^(a-1), 30000), 5000)`, which is 5000 at attempts 1, 2 and 3; the
pre-parsed object `{ code: 'FUNCTION_THROTTLED' }`, the bare string and an exception
with that message are such errors. -/
theorem getRetryDelay_throttled (error p : JSVal) (a : Nat)
    (hp : parseError error = .ok p)
    (hcode : getField p "code" = .str "FUNCTION_THROTTLED")
    (ha : 1 ≤ a) :
    getRetryDelay error a = .ok (max (min (1000 * 2 ^ (a - 1)) 30000) 5000) ∧
      (a ≤ 3 → getRetryDelay error a = .ok 5000) ∧
      (∃ q, parseError throttledObject = .ok q ∧
        getField q "code" = .str "FUNCTION_THROTTLED") ∧
      (∃ q, parseError (.str "FUNCTION_THROTTLED") = .ok q ∧
        getField q "code" = .str "FUNCTION_THROTTLED") ∧
      (∃ q, parseError throttledException = .ok q ∧
        getField q "code" = .str "FUNCTION_THROTTLED") := by
  have main : getRetryDelay error a = .ok (max (min (1000 * 2 ^ (a - 1)) 30000) 5000) := by
    rw [getRetryDelay_of_parsed error p a hp ha, if_pos hcode]
  refine ⟨main, ?_, ⟨throttledObject, by decide, by decide⟩, ?_, ?_⟩
  · intro h3
    rw [main]
    have : a = 1 ∨ a = 2 ∨ a = 3 := by omega
    rcases this with rfl | rfl | rfl <;> rfl
  · exact ⟨.obj .plain (setProp (spreadInto [] (getByKey PLATFORM_ERRORS "FUNCTION_THROTTLED"))
      "originalError" (.str "FUNCTION_THROTTLED")), by decide!, by decide!⟩
  · exact ⟨.obj .plain (setProp (setProp (spreadInto []
      (getByKey PLATFORM_ERRORS "FUNCTION_THROTTLED")) "originalError" throttledException)
      "stack" (.str "Error: FUNCTION_THROTTLED")), by decide!, by decide!⟩

/-- Witness of C11 at the pre-parsed object `{ code: 'FUNCTION_THROTTLED' }`, attempt 2. -/
theorem getRetryDelay_throttled_witness :
    parseError throttledObject = .ok throttledObject ∧
      getField throttledObject "code" = .str "FUNCTION_THROTTLED" ∧ 1 ≤ 2 ∧
      getRetryDelay throttledObject 2 = .ok 5000 :=
  ⟨by decide, by decide, by decide,
   (getRetryDelay_throttled throttledObject throttledObject 2 (by decide) (by decide)
      (by decide)).2.1 (by decide)⟩

/-- C12 (counterexample): the object `{ statusCode: 429 }` has no `code`, so
`parseError` classifies it as `UNKNOWN_ERROR` with statusCode 500, and `getRetryDelay`
returns 1000 at attempt 1 and 2000 at attempt 2, not 3000. -/
theorem getRetryDelay_status_only_429 :
    (∃ p, parseError statusOnly429 = .ok p ∧ getField p "code" = .str "UNKNOWN_ERROR" ∧
      getField p "statusCode" = .num 500) ∧
      getRetryDelay statusOnly429 1 = .ok 1000 ∧
      getRetryDelay statusOnly429 2 = .ok 2000 ∧
      getRetryDelay statusOnly429 1 ≠ .ok 3000 ∧
      getRetryDelay statusOnly429 2 ≠ .ok 3000 :=
  ⟨⟨.obj .plain [
      ("code", .str "UNKNOWN_ERROR"),
      ("category", .str "Unknown"),
      ("statusCode", .num 500),
      ("message", .str "An unknown error occurred"),
      ("userMessage", .str "An unexpected error occurred. Please try again."),
      ("description", .str "Unable to parse error information"),
      ("actionable", .bool true),
      ("originalError", statusOnly429)], by decide, by decide, by decide⟩,
   by decide, by decide, by decide, by decide⟩

/-- C12 (amended): for every error that parses to `p` with `p.statusCode === 429` and
`p.code` other than `FUNCTION_THROTTLED`, and every attempt `a >= 1`,
`getRetryDelay(error, a)` returns `max(min(1000 * 2^(a-1), 30000), 3000)`, which is 3000
at attempts 1 and 2; the parsed error `{ code: 'HTTP_429', statusCode: 429 }` and the
response-like value `{ response: { status: 429 } }` are such errors. -/
theorem getRetryDelay_status_429 (error p : JSVal) (a : Nat)
    (hp : parseError error = .ok p)
    (hcode : getField p "code" ≠ .str "FUNCTION_THROTTLED")
    (hstatus : getField p "statusCode" = .num 429)
    (ha : 1 ≤ a) :
    getRetryDelay error a = .ok (max (min (1000 * 2 ^ (a - 1)) 30000) 3000) ∧
      (a ≤ 2 → getRetryDelay error a = .ok 3000) ∧
      getRetryDelay parsed429 1 = .ok 3000 ∧ getRetryDelay parsed429 2 = .ok 3000 ∧
      getRetryDelay response429 1 = .ok 3000 ∧ getRetryDelay response429 2 = .ok 3000 := by
  have main : getRetryDelay error a = .ok (max (min (1000 * 2 ^ (a - 1)) 30000) 3000) := by
    rw [getRetryDelay_of_parsed error p a hp ha, if_neg hcode, if_pos hstatus]
  refine ⟨main, ?_, by decide, by decide, by decide!, by decide!⟩
  intro h3
  rw [main]
  have : a = 1 ∨ a = 2 := by omega
  rcases this with rfl | rfl <;> rfl

/-- Witness of the amended C12 at `{ code: 'HTTP_429', statusCode: 429 }`, attempt 1. -/
theorem getRetryDelay_status_429_witness :
    parseError parsed429 = .ok parsed429 ∧
      getField parsed429 "code" ≠ .str "FUNCTION_THROTTLED" ∧
      getField parsed429 "statusCode" = .num 429 ∧ 1 ≤ 1 ∧
      getRetryDelay parsed429 1 = .ok 3000 :=
  ⟨by decide, by decide, by decide, by decide,
   (getRetryDelay_status_429 parsed429 parsed429 1 (by decide) (by decide) (by decide)
      (by decide)).2.1 (by decide)⟩

/-- C13: for every parsed error `p` with a (truthy) `code` and every attempt `a >= 1`,
the early-return implementation `getRetryDelay(p, a)` returns the delay of the
specification with its two independent floors, also when `p` has both the code
`FUNCTION_THROTTLED` and the status code 429. -/
theorem getRetryDelay_refines_spec (kind : ObjKind) (props : List (String × JSVal)) (a : Nat)
    (hcode : truthy (getField (.obj kind props) "code") = true) (ha : 1 ≤ a) :
    getRetryDelay (.obj kind props) a = .ok (retryDelayMsSpec (.obj kind props) a) ∧
      getRetryDelay throttled429 1 = .ok (retryDelayMsSpec throttled429 1) ∧
      retryDelayMsSpec throttled429 1 = 5000 := by
  have hp := parseError_of_truthy_code kind props hcode
  refine ⟨?_, by decide, by decide⟩
  rw [getRetryDelay_of_parsed _ _ a hp ha]
  simp only [retryDelayMsSpec]
  congr 1
  generalize min (1000 * 2 ^ (a - 1)) 30000 = d
  split_ifs <;> omega

/-- Witness of C13 at `{ code: 'FUNCTION_THROTTLED', statusCode: 429 }`, attempt 2. -/
theorem getRetryDelay_refines_spec_witness :
    truthy (getField throttled429 "code") = true ∧ 1 ≤ 2 ∧
      getRetryDelay throttled429 2 = .ok (retryDelayMsSpec throttled429 2) :=
  ⟨by decide, by decide,
   (getRetryDelay_refines_spec .plain
      [("code", .str "FUNCTION_THROTTLED"), ("statusCode", .num 429)] 2 (by decide)
      (by decide)).1⟩

/-- C14 (counterexample): for the exception `new Error('')`, whose message is empty,
`parseError` returns `UNKNOWN_ERROR` with `message` equal to the empty message but
`userMessage` equal to `An unexpected error occurred`, not to the message. -/
theorem parseError_empty_message_userMessage :
    getField emptyMessageException "message" = .str "" ∧
      ∃ p, parseError emptyMessageException = .ok p ∧
        getField p "code" = .str "UNKNOWN_ERROR" ∧ getField p "message" = .str "" ∧
        getField p "userMessage" = .str "An unexpected error occurred" ∧
        getField p "userMessage" ≠ getField emptyMessageException "message" :=
  ⟨by decide,
   .obj .plain [
      ("code", .str "UNKNOWN_ERROR"),
      ("category", .str "Unknown"),
      ("statusCode", .num 500),
      ("message", .str ""),
      ("userMessage", .str "An unexpected error occurred"),
      ("description", .str ""),
      ("actionable", .bool true),
      ("originalError", emptyMessageException),
      ("stack", .str "Error")],
   by decide, by decide, by decide, by decide, by decide⟩

/-- C14 (amended): for every native exception `e` without a (truthy) `code` and with
message text `m`: if the first maximal run of upper-case letters and underscores of `m`
is a registry code `c` with entry `d`, `parseError(e)` is `d` extended by
`originalError = e` and `stack = e.stack`; otherwise `parseError(e)` has code
`UNKNOWN_ERROR`, category `Unknown`, statusCode 500, actionable true, `stack = e.stack`,
`message = m`, and `userMessage = m` when `m` is non-empty,
`An unexpected error occurred` when `m` is empty. -/
theorem parseError_native_exception (props : List (String × JSVal)) (m : String)
    (hcode : truthy (getField (.obj .error props) "code") = false)
    (hm : getField (.obj .error props) "message" = .str m) :
    (∀ c d, firstCodeRun m = some c → lookupProp (ownProps ALL_VERCEL_ERRORS) c = some d →
      parseError (.obj .error props) = .ok (.obj .plain (ownProps d ++
        [("originalError", .obj .error props),
         ("stack", getField (.obj .error props) "stack")])) ∧
      getField d "code" = .str c) ∧
    ((firstCodeRun m = none ∨
        ∃ c, firstCodeRun m = some c ∧ lookupProp (ownProps ALL_VERCEL_ERRORS) c = none) →
      ∃ p, parseError (.obj .error props) = .ok p ∧
        getField p "code" = .str "UNKNOWN_ERROR" ∧
        getField p "category" = .str "Unknown" ∧
        getField p "statusCode" = .num 500 ∧
        getField p "actionable" = .bool true ∧
        getField p "stack" = getField (.obj .error props) "stack" ∧
        getField p "originalError" = .obj .error props ∧
        getField p "message" = .str m ∧
        getField p "userMessage" =
          .str (if m = "" then "An unexpected error occurred" else m)) := by
  have hu : orElse (.str m) (.str "An unexpected error occurred") =
      .str (if m = "" then "An unexpected error occurred" else m) := by
    by_cases h : m = "" <;> simp [orElse, truthy, h]
  constructor
  · intro c d hrun hreg
    have hd : orElse (getByKey ALL_VERCEL_ERRORS c) .null = d := by
      have h1 := getErrorByCode_entries (c, d) (lookupProp_mem hreg)
      rw [getErrorByCode_str] at h1
      exact Except.ok.inj h1
    have hs := merged_entries_shape (c, d) (lookupProp_mem hreg)
    refine ⟨?_, (merged_entries_ok (c, d) (lookupProp_mem hreg)).1⟩
    rw [parseError_exception props m hcode hm, hrun]
    simp only [hd, hs.1, if_true]
    rw [extend_entry c d hreg _ "stack" _ (by decide) hs.2.2.2.1]
  · intro h
    have key : parseError (.obj .error props) = .ok (.obj .plain [
        ("code", .str "UNKNOWN_ERROR"),
        ("category", .str "Unknown"),
        ("statusCode", .num 500),
        ("message", .str m),
        ("userMessage", orElse (.str m) (.str "An unexpected error occurred")),
        ("description", .str m),
        ("actionable", .bool true),
        ("originalError", .obj .error props),
        ("stack", getField (.obj .error props) "stack")]) := by
      rw [parseError_exception props m hcode hm]
      rcases h with h | ⟨c, hrun, hreg⟩
      · rw [h]
      · rw [hrun]
        have hnull : orElse (getByKey ALL_VERCEL_ERRORS c) .null = .null := by
          have h1 := getErrorByCode_absent c hreg (firstCodeRun_not_member hrun)
          rw [getErrorByCode_str] at h1
          exact Except.ok.inj h1
        simp [hnull, truthy]
    refine ⟨_, key, ?_⟩
    rw [hu]
    simp [getField, lookupProp]

/-- Witness of the amended C14 at `new Error('NOT_FOUND for this page')`. -/
theorem parseError_native_exception_witness :
    truthy (getField notFoundException "code") = false ∧
      getField notFoundException "message" = .str "NOT_FOUND for this page" ∧
      firstCodeRun "NOT_FOUND for this page" = some "NOT_FOUND" ∧
      parseError notFoundException = .ok (.obj .plain (
        ownProps (getByKey APPLICATION_ERRORS "NOT_FOUND") ++
        [("originalError", notFoundException),
         ("stack", getField notFoundException "stack")])) :=
  ⟨by decide, by decide, by decide,
   ((parseError_native_exception
      [("message", .str "NOT_FOUND for this page"), ("stack", .str "Error: NOT_FOUND")]
      "NOT_FOUND for this page" (by decide) (by decide)).1 "NOT_FOUND"
      (getByKey APPLICATION_ERRORS "NOT_FOUND") (by decide) (by decide!)).1⟩

/-- C15 (failing input): a response with status 404 whose `x-vercel-error` header is the
text `toString`, which is not a registry code.  The lookup finds the inherited
`Object.prototype.toString`, and `parseError` returns
`{ originalError, httpStatus: 404 }`, without `code`, `category` or `statusCode`,
instead of the `HTTP_404` descriptor. -/
theorem parseError_toString_header :
    lookupProp (ownProps ALL_VERCEL_ERRORS) "toString" = none ∧
      parseError toStringHeaderResponse = .ok (.obj .plain [
        ("originalError", toStringHeaderResponse), ("httpStatus", .num 404)]) ∧
      getField (.obj .plain [
        ("originalError", toStringHeaderResponse), ("httpStatus", .num 404)]) "code"
        = .undefined := by
  decide!

/-- C16: for every response-like value with the headers of a fetch response and status
`s`: when the candidate code (the `x-vercel-error` header if present and non-empty, else
the `x-vercel-id` header) is a registry code `c` with entry `d`, `parseError` returns `d`
extended by `originalError` and `httpStatus = s`, its `statusCode` being that of `d`; and
a present, non-empty `x-vercel-error` is the candidate whatever `x-vercel-id` holds, so
that when it does not resolve the result has no registry code: with
`x-vercel-error: NOT_A_CODE` and `x-vercel-id: NOT_FOUND` the result is `HTTP_502`. -/
theorem parseError_response_header_code (props : List (String × JSVal))
    (table : List (String × String))
    (hcode : truthy (getField (.obj .plain props) "code") = false)
    (hresp : truthy (getField (.obj .plain props) "response") = true)
    (hh : getField (getField (.obj .plain props) "response") "headers" = .headers table) :
    (∀ c d, headerCandidate table = some c →
      lookupProp (ownProps ALL_VERCEL_ERRORS) c = some d →
      parseError (.obj .plain props) = .ok (.obj .plain (ownProps d ++
        [("originalError", .obj .plain props),
         ("httpStatus", getField (getField (.obj .plain props) "response") "status")])) ∧
      getField d "code" = .str c ∧
      getField (.obj .plain (ownProps d ++
        [("originalError", .obj .plain props),
         ("httpStatus", getField (getField (.obj .plain props) "response") "status")]))
        "statusCode" = getField d "statusCode") ∧
    (∀ v, table.lookup "x-vercel-error" = some v → v ≠ "" →
      headerCandidate table = some v ∧
      (lookupProp (ownProps ALL_VERCEL_ERRORS) v = none →
        ∀ p, parseError (.obj .plain props) = .ok p →
          ∀ c d, lookupProp (ownProps ALL_VERCEL_ERRORS) c = some d →
            getField p "code" ≠ .str c)) ∧
    (∃ p, parseError unresolvedErrorHeaderResponse = .ok p ∧
      getField p "code" = .str "HTTP_502" ∧ getField p "httpStatus" = .num 502) := by
  have hparse := parseError_response_headers props table hcode hresp hh
  refine ⟨?_, ?_, ⟨.obj .plain [
      ("code", .str "HTTP_502"),
      ("category", .str "HTTP"),
      ("statusCode", .num 502),
      ("message", .str "HTTP 502 Error"),
      ("userMessage", .str "Server returned an error (502)"),
      ("description", .str ""),
      ("actionable", .bool false),
      ("originalError", unresolvedErrorHeaderResponse),
      ("httpStatus", .num 502)], by decide!, by decide, by decide⟩⟩
  · intro c d hcand hreg
    have hs := merged_entries_shape (c, d) (lookupProp_mem hreg)
    have hd : orElse (getByKey ALL_VERCEL_ERRORS c) .null = d := by
      have h1 := getErrorByCode_entries (c, d) (lookupProp_mem hreg)
      rw [getErrorByCode_str] at h1
      exact Except.ok.inj h1
    have hne : c ≠ "" := by
      intro h0
      have hempty : lookupProp (ownProps ALL_VERCEL_ERRORS) "" = none := by decide!
      rw [h0, hempty] at hreg
      exact absurd hreg (by simp)
    refine ⟨?_, (merged_entries_ok (c, d) (lookupProp_mem hreg)).1, ?_⟩
    · rw [hparse, hcand]
      simp only [hne, if_false, hd]
      unfold responseResult
      rw [if_pos hs.1, extend_entry c d hreg _ "httpStatus" _ (by decide) hs.2.2.2.2.1]
    · rw [getField_append _ _ _ hs.2.2.2.2.2.2, ← hs.2.2.2.2.2.1]
  · intro v hv hne
    have hcand : headerCandidate table = some v := by
      simp [headerCandidate, hv, hne]
    refine ⟨hcand, ?_⟩
    intro hreg p hp c d hcreg
    rw [hparse, hcand] at hp
    simp only [hne, if_false] at hp
    by_cases hmem : v ∈ objectPrototypeMembers
    · have hb : orElse (getByKey ALL_VERCEL_ERRORS v) .null = .builtin v := by
        simp [getByKey, hreg, hmem, orElse, truthy]
      rw [hb] at hp
      have hp2 : p = .obj .plain [("originalError", .obj .plain props),
          ("httpStatus", getField (getField (.obj .plain props) "response") "status")] := by
        have := Except.ok.inj hp
        rw [← this]
        rfl
      rw [hp2]
      simp [getField, lookupProp]
    · have hn : orElse (getByKey ALL_VERCEL_ERRORS v) .null = .null := by
        simp [getByKey, hreg, hmem, orElse, truthy]
      rw [hn] at hp
      have hp2 : httpFallback (.obj .plain props) = .ok p := hp
      obtain ⟨st, hst⟩ := httpFallback_code _ _ hp2
      rw [hst]
      intro heq
      have h3 : c = "HTTP_" ++ st := by
        cases heq; rfl
      rw [h3, lookup_http_none] at hcreg
      exact absurd hcreg (by simp)

/-- Witness of C16 at a response with status 502 and `x-vercel-id: NOT_FOUND` only. -/
theorem parseError_response_header_code_witness :
    truthy (getField idHeaderResponse "code") = false ∧
      truthy (getField idHeaderResponse "response") = true ∧
      headerCandidate [("x-vercel-id", "NOT_FOUND")] = some "NOT_FOUND" ∧
      parseError idHeaderResponse = .ok (.obj .plain (
        ownProps (getByKey APPLICATION_ERRORS "NOT_FOUND") ++
        [("originalError", idHeaderResponse), ("httpStatus", .num 502)])) :=
  ⟨by decide, by decide, by decide,
   ((parseError_response_header_code
      [("response", .obj .plain [
        ("status", .num 502),
        ("headers", .headers [("x-vercel-id", "NOT_FOUND")])])]
      [("x-vercel-id", "NOT_FOUND")] (by decide) (by decide) (by decide)).1 "NOT_FOUND"
      (getByKey APPLICATION_ERRORS "NOT_FOUND") (by decide) (by decide!)).1⟩

/-- C17 (failing input): `constructor` is not a code of the registry, yet for it
`getErrorCategory` and `getErrorStatusCode` return `undefined` (not `Unknown` and 500),
and `getUserFriendlyMessage` returns `undefined` (not the supplied fallback), because
`getErrorByCode` returns the inherited `Object.prototype.constructor`. -/
theorem classifiers_constructor :
    lookupProp (ownProps ALL_VERCEL_ERRORS) "constructor" = none ∧
      getErrorCategory (.str "constructor") = .ok .undefined ∧
      getErrorStatusCode (.str "constructor") = .ok .undefined ∧
      getUserFriendlyMessage (.str "constructor") (.str "fallback") = .ok .undefined ∧
      getUserFriendlyMessage (.str "constructor") .undefined = .ok .undefined ∧
      isActionable (.str "constructor") = .ok true ∧
      shouldContactSupport (.str "constructor") = .ok false := by
  decide!

/-- C18: for every code `c` of the merged registry with entry `d`, `getErrorCategory`,
`getErrorStatusCode` and `getUserFriendlyMessage` return the `category`, `statusCode` and
`userMessage` of `d`; `isActionable(c)` is false exactly when `d.actionable` is `false`;
`shouldContactSupport(c)` is true exactly when `d.contactSupport` is `true`. -/
theorem classifiers_registry_code (c : String) (d : JSVal)
    (h : lookupProp (ownProps ALL_VERCEL_ERRORS) c = some d) (fallback : JSVal) :
    getErrorCategory (.str c) = .ok (getField d "category") ∧
      getErrorStatusCode (.str c) = .ok (getField d "statusCode") ∧
      getUserFriendlyMessage (.str c) fallback = .ok (getField d "userMessage") ∧
      (∃ b, isActionable (.str c) = .ok b ∧
        (b = false ↔ getField d "actionable" = .bool false)) ∧
      (∃ b, shouldContactSupport (.str c) = .ok b ∧
        (b = true ↔ getField d "contactSupport" = .bool true)) := by
  have hg := getErrorByCode_entries (c, d) (lookupProp_mem h)
  have ht := (merged_entries_shape (c, d) (lookupProp_mem h)).1
  simp only at hg ht
  refine ⟨?_, ?_, ?_, ⟨decide (getField d "actionable" ≠ .bool false), ?_, ?_⟩,
    ⟨decide (getField d "contactSupport" = .bool true), ?_, ?_⟩⟩
  · simp [getErrorCategory, hg, ht, bind, Except.bind, pure, Except.pure]
  · simp [getErrorStatusCode, hg, ht, bind, Except.bind, pure, Except.pure]
  · simp [getUserFriendlyMessage, hg, ht, bind, Except.bind, pure, Except.pure]
  · simp [isActionable, hg, ht, bind, Except.bind, pure, Except.pure]
  · simp
  · simp [shouldContactSupport, hg, ht, bind, Except.bind, pure, Except.pure]
  · simp

/-- Witness of C18 at the code `FUNCTION_THROTTLED`. -/
theorem classifiers_registry_code_witness :
    lookupProp (ownProps ALL_VERCEL_ERRORS) "FUNCTION_THROTTLED" =
        some (getByKey PLATFORM_ERRORS "FUNCTION_THROTTLED") ∧
      getErrorCategory (.str "FUNCTION_THROTTLED") = .ok (.str "Internal") ∧
      getErrorStatusCode (.str "FUNCTION_THROTTLED") = .ok (.num 500) :=
  ⟨by decide!,
   (classifiers_registry_code "FUNCTION_THROTTLED"
      (getByKey PLATFORM_ERRORS "FUNCTION_THROTTLED") (by decide!) .undefined).1,
   (classifiers_registry_code "FUNCTION_THROTTLED"
      (getByKey PLATFORM_ERRORS "FUNCTION_THROTTLED") (by decide!) .undefined).2.1⟩

/-- C19: for every raw value that `parseError` accepts, with parsed error `p` whose code
converts to a property key, and every options value other than `null`,
`handleError(raw, options)` returns a result that contains `code`, `category` and
`statusCode` of `p`, `message = p.userMessage`, and the booleans `actionable` and
`contactSupport`; it contains `description = p.description` and
`technicalMessage = p.message` exactly when `showDetails` is truthy, and
`stack = p.stack` exactly when `includeStack` is truthy and `p.stack` is truthy. -/
theorem handleError_result (hasConsole : Bool) (raw options p : JSVal) (key : String)
    (hopt : options ≠ .null)
    (hp : parseError raw = .ok p)
    (hkey : toStringJS (getField p "code") = .ok key) :
    ∃ h actionable contactSupport,
      handleError hasConsole raw options = .ok h ∧
      isActionable (getField p "code") = .ok actionable ∧
      shouldContactSupport (getField p "code") = .ok contactSupport ∧
      lookupProp (ownProps h.result) "code" = some (getField p "code") ∧
      lookupProp (ownProps h.result) "message" = some (getField p "userMessage") ∧
      lookupProp (ownProps h.result) "category" = some (getField p "category") ∧
      lookupProp (ownProps h.result) "statusCode" = some (getField p "statusCode") ∧
      lookupProp (ownProps h.result) "actionable" = some (.bool actionable) ∧
      lookupProp (ownProps h.result) "contactSupport" = some (.bool contactSupport) ∧
      lookupProp (ownProps h.result) "description" =
        (if truthy (optionOr options "showDetails" (.bool false)) then
          some (getField p "description") else none) ∧
      lookupProp (ownProps h.result) "technicalMessage" =
        (if truthy (optionOr options "showDetails" (.bool false)) then
          some (getField p "message") else none) ∧
      lookupProp (ownProps h.result) "stack" =
        (if truthy (optionOr options "includeStack" (.bool false)) &&
            truthy (getField p "stack") then
          some (getField p "stack") else none) := by
  have hg : getErrorByCode (getField p "code") =
      .ok (orElse (getByKey ALL_VERCEL_ERRORS key) .null) := by
    simp [getErrorByCode, hkey, bind, Except.bind, pure, Except.pure]
  have ha : ∃ a, isActionable (getField p "code") = .ok a := by
    simp [isActionable, hg, bind, Except.bind, pure, Except.pure]
  have hc : ∃ c, shouldContactSupport (getField p "code") = .ok c := by
    simp [shouldContactSupport, hg, bind, Except.bind, pure, Except.pure]
  obtain ⟨a, ha⟩ := ha
  obtain ⟨c, hc⟩ := hc
  have hnull : ¬ ((if options = .undefined then objLit [] else options) = .null) := by
    by_cases h : options = .undefined
    · rw [if_pos h]; decide
    · rw [if_neg h]; exact hopt
  unfold handleError
  simp only [bind, Except.bind, pure, Except.pure, hp, ha, hc, if_neg hnull,
    optionOr_default]
  refine ⟨_, a, c, rfl, rfl, rfl, ?_⟩
  by_cases hs : truthy (optionOr options "showDetails" (.bool false)) = true <;>
    by_cases hi : (truthy (optionOr options "includeStack" (.bool false)) &&
      truthy (getField p "stack")) = true <;>
    simp [hs, hi, objLit, setProp, spreadInto, ownProps, lookupProp]

/-- Witness of C19 at the parsed error `{ statusCode: 404, code: 'RESOURCE_NOT_FOUND' }`
with the options `{ showDetails: true }`. -/
theorem handleError_result_witness :
    (.obj .plain [("showDetails", .bool true)] : JSVal) ≠ .null ∧
      parseError resourceNotFound = .ok resourceNotFound ∧
      toStringJS (getField resourceNotFound "code") = .ok "RESOURCE_NOT_FOUND" ∧
      ∃ h actionable contactSupport,
        handleError true resourceNotFound (.obj .plain [("showDetails", .bool true)]) = .ok h ∧
        isActionable (getField resourceNotFound "code") = .ok actionable ∧
        shouldContactSupport (getField resourceNotFound "code") = .ok contactSupport ∧
        lookupProp (ownProps h.result) "code" = some (getField resourceNotFound "code") :=
  ⟨by decide, by decide, by decide,
   by
    obtain ⟨h, a, c, h1, h2, h3, h4, _⟩ := handleError_result true resourceNotFound
      (.obj .plain [("showDetails", .bool true)]) resourceNotFound "RESOURCE_NOT_FOUND"
      (by decide) (by decide) (by decide)
    exact ⟨h, a, c, h1, h2, h3, h4⟩⟩

/-- C20: for every raw value that `parseError` accepts, with parsed error `p`,
`createErrorResponse(raw)` returns an object whose `success` is `false`, whose
`timestamp` is the text of the current instant, and whose `error` object has `code`,
`category` and `statusCode` of `p` and `message = p.userMessage`. -/
theorem createErrorResponse_result (now : String) (raw p : JSVal)
    (hp : parseError raw = .ok p) :
    ∃ r, createErrorResponse now raw = .ok r ∧
      getField r "success" = .bool false ∧
      getField r "timestamp" = .str now ∧
      getField (getField r "error") "code" = getField p "code" ∧
      getField (getField r "error") "message" = getField p "userMessage" ∧
      getField (getField r "error") "category" = getField p "category" ∧
      getField (getField r "error") "statusCode" = getField p "statusCode" ∧
      getField (getField r "error") "actionable" = getField p "actionable" ∧
      getField (getField r "error") "contactSupport" = getField p "contactSupport" := by
  unfold createErrorResponse
  simp only [bind, Except.bind, pure, Except.pure, hp]
  refine ⟨_, rfl, ?_⟩
  simp [objLit, setProp, getField, lookupProp]

/-- Witness of C20 at the parsed error `{ statusCode: 404, code: 'RESOURCE_NOT_FOUND' }`. -/
theorem createErrorResponse_result_witness :
    parseError resourceNotFound = .ok resourceNotFound ∧
      ∃ r, createErrorResponse "2026-01-01T00:00:00.000Z" resourceNotFound = .ok r ∧
        getField r "success" = .bool false ∧
        getField (getField r "error") "code" = .str "RESOURCE_NOT_FOUND" :=
  ⟨by decide,
   by
    obtain ⟨r, h1, h2, _, h4, _⟩ := createErrorResponse_result "2026-01-01T00:00:00.000Z"
      resourceNotFound resourceNotFound (by decide)
    exact ⟨r, h1, h2, h4⟩⟩

/-- C21: for every raw value that `parseError` accepts, with parsed error `p` whose
`code` and `category` are strings and whose base text (`p.message` if `technical` is
truthy, else `p.userMessage`) is a string, and every options value other than `null`,
`formatErrorForDisplay(raw, options)` is the base text, followed by ` (code)` when
`includeCode` is truthy, followed by ` [category]` when `includeCategory` is truthy; and
without options the result is `p.userMessage` itself. -/
theorem formatErrorForDisplay_result (raw options p : JSVal) (base code category : String)
    (hopt : options ≠ .null)
    (hp : parseError raw = .ok p)
    (hbase : (if truthy (optionOr options "technical" (.bool false)) then getField p "message"
      else getField p "userMessage") = .str base)
    (hcode : getField p "code" = .str code)
    (hcat : getField p "category" = .str category) :
    formatErrorForDisplay raw options = .ok (.str (base ++
        (if truthy (optionOr options "includeCode" (.bool false)) then " (" ++ code ++ ")"
          else "") ++
        (if truthy (optionOr options "includeCategory" (.bool false)) then
          " [" ++ category ++ "]" else ""))) ∧
      formatErrorForDisplay raw .undefined = .ok (getField p "userMessage") ∧
      formatErrorForDisplay raw (objLit []) = .ok (getField p "userMessage") := by
  have hnull : ¬ ((if options = .undefined then objLit [] else options) = .null) := by
    by_cases h : options = .undefined
    · rw [if_pos h]; decide
    · rw [if_neg h]; exact hopt
  refine ⟨?_, ?_, ?_⟩
  · unfold formatErrorForDisplay
    simp only [bind, Except.bind, pure, Except.pure, hp, if_neg hnull, optionOr_default, hbase,
      hcode, hcat]
    by_cases h1 : truthy (optionOr options "includeCode" (.bool false)) = true <;>
      by_cases h2 : truthy (optionOr options "includeCategory" (.bool false)) = true <;>
      simp only [h1, h2, toStringJS, ↓reduceIte, Bool.false_eq_true, String.append_assoc,
        String.append_empty]
  · simp [formatErrorForDisplay, hp, bind, Except.bind, pure, Except.pure, optionOr, getField,
      objLit, lookupProp, truthy]
  · simp [formatErrorForDisplay, hp, bind, Except.bind, pure, Except.pure, optionOr, getField,
      objLit, lookupProp, truthy]

/-- Witness of C21 at the string `NOT_FOUND` with the options
`{ includeCode: true, includeCategory: true }`. -/
theorem formatErrorForDisplay_result_witness :
    formatErrorForDisplay (.str "NOT_FOUND")
        (.obj .plain [("includeCode", .bool true), ("includeCategory", .bool true)]) =
      .ok (.str "The page you\x27re looking for doesn\x27t exist. (NOT_FOUND) [Deployment]") := by
  have h := (formatErrorForDisplay_result (.str "NOT_FOUND")
    (.obj .plain [("includeCode", .bool true), ("includeCategory", .bool true)])
    (.obj .plain (setProp (spreadInto [] (getByKey APPLICATION_ERRORS "NOT_FOUND"))
      "originalError" (.str "NOT_FOUND")))
    "The page you\x27re looking for doesn\x27t exist." "NOT_FOUND" "Deployment"
    (by decide) (by decide!) (by decide!) (by decide!) (by decide!)).1
  rw [h]
  decide

/-- C22 (counterexample): for the plain object `{ message: 'NOT_FOUND' }`,
`extractErrorCode` returns the registry code `NOT_FOUND`, while `parseError` classifies
the object as `UNKNOWN_ERROR`; for a response body with `data.error.code = 'NOT_FOUND'`
the parsed code is `HTTP_502`; for an exception with the message `request failed` and
the header `x-vercel-error: NOT_FOUND` the parsed code is `UNKNOWN_ERROR`. -/
theorem extractErrorCode_disagrees :
    (lookupProp (ownProps ALL_VERCEL_ERRORS) "NOT_FOUND").isSome = true ∧
      extractErrorCode messageOnlyObject = .ok (.str "NOT_FOUND") ∧
      (parseError messageOnlyObject).map (fun p => getField p "code") =
        .ok (.str "UNKNOWN_ERROR") ∧
      extractErrorCode bodyCodeResponse = .ok (.str "NOT_FOUND") ∧
      (parseError bodyCodeResponse).map (fun p => getField p "code") =
        .ok (.str "HTTP_502") ∧
      extractErrorCode exceptionWithHeaders = .ok (.str "NOT_FOUND") ∧
      (parseError exceptionWithHeaders).map (fun p => getField p "code") =
        .ok (.str "UNKNOWN_ERROR") := by
  decide!

/-- C22 (amended): `extractErrorCode` and `parseError` agree on the shapes that both read
alike.  For a string that is a registry code, for an object with a truthy `code`, for a
native exception without `code` whose message has a registry code as its first run of
upper-case letters and underscores, and for a plain object without truthy `code` and
`message` whose response headers carry a registry code in `x-vercel-error`:
`extractErrorCode(raw)` returns that code and `parseError(raw).code` is the same. -/
theorem extractErrorCode_agrees (c : String) (d : JSVal)
    (hreg : lookupProp (ownProps ALL_VERCEL_ERRORS) c = some d) :
    (extractErrorCode (.str c) = .ok (.str c) ∧
      ∃ p, parseError (.str c) = .ok p ∧ getField p "code" = .str c) ∧
    (∀ kind props, truthy (getField (.obj kind props) "code") = true →
      extractErrorCode (.obj kind props) = .ok (getField (.obj kind props) "code") ∧
      parseError (.obj kind props) = .ok (.obj kind props)) ∧
    (∀ props m, truthy (getField (.obj .error props) "code") = false →
      getField (.obj .error props) "message" = .str m → firstCodeRun m = some c →
      extractErrorCode (.obj .error props) = .ok (.str c) ∧
      ∃ p, parseError (.obj .error props) = .ok p ∧ getField p "code" = .str c) ∧
    (∀ props table, truthy (getField (.obj .plain props) "code") = false →
      truthy (getField (.obj .plain props) "message") = false →
      truthy (getField (.obj .plain props) "response") = true →
      getField (getField (.obj .plain props) "response") "headers" = .headers table →
      table.lookup "x-vercel-error" = some c →
      extractErrorCode (.obj .plain props) = .ok (.str c) ∧
      ∃ p, parseError (.obj .plain props) = .ok p ∧ getField p "code" = .str c) := by
  have hmem := lookupProp_mem hreg
  have hs := merged_entries_shape (c, d) hmem
  have hc := merged_entries_code (c, d) hmem
  simp only at hs hc
  have hne : c ≠ "" := by simpa using hc.2
  have hd : orElse (getByKey ALL_VERCEL_ERRORS c) .null = d := by
    have h1 := getErrorByCode_entries (c, d) hmem
    rw [getErrorByCode_str] at h1
    exact Except.ok.inj h1
  refine ⟨⟨?_, ?_⟩, ?_, ?_, ?_⟩
  · have t1 : truthy (.str c) = true := by simp [truthy, hne]
    have c1 : ¬ ((!truthy (.str c)) = true) := by rw [t1]; simp
    unfold extractErrorCode
    rw [if_neg c1, if_pos (show typeofString (.str c) = true from rfl)]
  · exact ⟨_, parseError_entries (c, d) hmem,
      (extended_entry_code_eq c d hmem "originalError" "stack" _ .undefined (by decide)
        (by decide)).1⟩
  · intro kind props ht
    exact ⟨extractErrorCode_of_truthy_code kind props ht,
      parseError_of_truthy_code kind props ht⟩
  · intro props m hcode hm hrun
    have hmne : m ≠ "" := by
      intro h0
      have hnone : firstCodeRun "" = none := by decide
      rw [h0, hnone] at hrun
      cases hrun
    have tm : truthy (.str m) = true := by simp [truthy, hmne]
    constructor
    · rw [extractErrorCode_of_no_code .error props hcode, hm, if_pos tm]
      simp only [messageMatch, hrun, Except.bind]
    · refine ⟨_, parseError_exception_descriptor props m hcode hm, ?_⟩
      unfold exceptionDescriptor
      simp only [hrun, hreg]
      simp [getField, lookupProp_append, hc.1]
  · intro props table hcode hmsg hresp hh hx
    have hcand : headerCandidate table = some c := by
      simp [headerCandidate, hx, hne]
    have t1 : truthy (.str c) = true := by simp [truthy, hne]
    constructor
    · have hf : ¬ (truthy (getField (.obj .plain props) "message") = true) := by
        rw [hmsg]; simp
      have hth : truthy (JSVal.headers table) = true := rfl
      have hget : headersGet (.headers table) "x-vercel-error" = .ok (.str c) := by
        simp [headersGet, hx]
      rw [extractErrorCode_of_no_code .plain props hcode, if_neg hf]
      simp only [Except.bind, optField_of_truthy _ _ hresp, hh, hth, if_true, hget, t1]
    · rw [parseError_response_headers props table hcode hresp hh, hcand]
      simp only [hne, if_false, hd]
      unfold responseResult
      rw [if_pos hs.1]
      exact ⟨_, rfl, (extended_entry_code_eq c d hmem "originalError" "httpStatus" _ _
        (by decide) (by decide)).2⟩

/-- Witness of the amended C22 at the code `NOT_FOUND`, on the bare string. -/
theorem extractErrorCode_agrees_witness :
    lookupProp (ownProps ALL_VERCEL_ERRORS) "NOT_FOUND" =
        some (getByKey APPLICATION_ERRORS "NOT_FOUND") ∧
      extractErrorCode (.str "NOT_FOUND") = .ok (.str "NOT_FOUND") ∧
      ∃ p, parseError (.str "NOT_FOUND") = .ok p ∧ getField p "code" = .str "NOT_FOUND" :=
  ⟨by decide!,
   (extractErrorCode_agrees "NOT_FOUND" (getByKey APPLICATION_ERRORS "NOT_FOUND")
      (by decide!)).1⟩

/-- C23: for every operation that fails `k < maxAttempts` times, each failure being
classified retryable with parsed code other than `FUNCTION_THROTTLED` and parsed status
code other than 429, and then succeeds with `v`: `retry(op, maxAttempts)` returns `v`,
invokes the operation exactly `k+1` times (attempts 1 to `k+1`), and performs exactly `k`
backoff waits, the `i`-th of `min(1000 * 2^(i-1), 30000)` ms, each between attempt `i`
and attempt `i+1`. -/
theorem retry_fails_then_succeeds (cfg : HookOptions) (stack : Nat) (fn : Nat → Settled)
    (maxAttempts k : Nat) (v : JSVal) (hk : k < maxAttempts)
    (hfail : ∀ i, 1 ≤ i → i ≤ k → ∃ err p, fn i = .rejected err ∧
      parseError err = .ok p ∧ isRetryable p = .ok true ∧
      getField p "code" ≠ .str "FUNCTION_THROTTLED" ∧
      getField p "statusCode" ≠ .num 429)
    (hok : fn (k + 1) = .resolved v) :
    (retry cfg stack fn maxAttempts).outcome = .ok v ∧
      (retry cfg stack fn maxAttempts).events =
        retriedAttempts (fun i => min (1000 * 2 ^ (i - 1)) 30000) 1 k ++ lastAttempt (k + 1) ∧
      invocations (retry cfg stack fn maxAttempts).events = List.range' 1 (k + 1) ∧
      waits (retry cfg stack fn maxAttempts).events =
        (List.range' 1 k).map (fun i => min (1000 * 2 ^ (i - 1)) 30000) := by
  have hok2 : fn (1 + k) = .resolved v := by rw [Nat.add_comm]; exact hok
  have hrun := retryFrom_fails_then_succeeds cfg stack fn maxAttempts v k 1 maxAttempts .null
    (le_refl _) (by omega) (by omega) (fun i h1 h2 => hfail i h1 (by omega)) hok2
  have hb : baseDelay = fun i => min (1000 * 2 ^ (i - 1)) 30000 := rfl
  have he : (retry cfg stack fn maxAttempts).events =
      retriedAttempts (fun i => min (1000 * 2 ^ (i - 1)) 30000) 1 k ++ lastAttempt (k + 1) := by
    unfold retry
    rw [hrun, hb, Nat.add_comm 1 k]
  refine ⟨?_, he, ?_, ?_⟩
  · unfold retry
    rw [hrun]
  · rw [he, invocations_append, invocations_retriedAttempts]
    simp [lastAttempt, invocations, List.range'_concat]
    omega
  · rw [he, waits_append, waits_retriedAttempts]
    simp [lastAttempt, waits]

/-- Witness of C23: an operation that fails twice with the retryable parsed error
`{ code: 'NO_RESPONSE_FROM_FUNCTION', statusCode: 502 }` and then succeeds, with
`maxAttempts = 3`: three invocations, waits of 1000 ms and then 2000 ms. -/
theorem retry_fails_then_succeeds_witness :
    (2 < 3) ∧
      (retry defaultHook 100 (failsThenSucceeds 2 badGateway (.str "done")) 3).outcome =
        .ok (.str "done") ∧
      invocations (retry defaultHook 100
        (failsThenSucceeds 2 badGateway (.str "done")) 3).events = [1, 2, 3] ∧
      waits (retry defaultHook 100
        (failsThenSucceeds 2 badGateway (.str "done")) 3).events = [1000, 2000] := by
  have h := retry_fails_then_succeeds defaultHook 100
    (failsThenSucceeds 2 badGateway (.str "done")) 3 2 (.str "done") (by decide)
    (fun i h1 h2 => ⟨badGateway, badGateway, by
      have : i = 1 ∨ i = 2 := by omega
      rcases this with rfl | rfl <;> rfl, by decide, by decide, by decide, by decide⟩)
    rfl
  exact ⟨by decide, h.1, h.2.2.1, h.2.2.2⟩

/-- C24: for every operation whose first failure is classified non-retryable and every
`maxAttempts >= 1`, `retry(op, maxAttempts)` invokes the operation exactly once, performs
no backoff wait, and raises; `{ code: 'RESOURCE_NOT_FOUND', statusCode: 404 }` and the
string `NOT_FOUND` are such failures. -/
theorem retry_non_retryable (cfg : HookOptions) (stack : Nat) (fn : Nat → Settled)
    (maxAttempts : Nat) (err p : JSVal) (hmax : 1 ≤ maxAttempts)
    (hfn : fn 1 = .rejected err) (hp : parseError err = .ok p)
    (hr : isRetryable p = .ok false) :
    invocations (retry cfg stack fn maxAttempts).events = [1] ∧
      waits (retry cfg stack fn maxAttempts).events = [] ∧
      (retry cfg stack fn maxAttempts).events = lastAttempt 1 ∧
      (∃ t, (retry cfg stack fn maxAttempts).outcome = .error t) ∧
      (∃ q, parseError resourceNotFound = .ok q ∧ isRetryable q = .ok false) ∧
      (∃ q, parseError (.str "NOT_FOUND") = .ok q ∧ isRetryable q = .ok false) := by
  obtain ⟨r, rfl⟩ : ∃ r, maxAttempts = r + 1 := ⟨maxAttempts - 1, by omega⟩
  have hrun : retry cfg stack fn (r + 1) = ⟨lastAttempt 1, .error .rangeError⟩ := by
    unfold retry
    exact retryFrom_giveUp cfg stack fn (r + 1) r 1 .null err p false hfn hp hr (Or.inl rfl)
  rw [hrun]
  refine ⟨rfl, rfl, rfl, ⟨_, rfl⟩, ⟨resourceNotFound, by decide, by decide⟩, ?_⟩
  exact ⟨.obj .plain (setProp (spreadInto [] (getByKey APPLICATION_ERRORS "NOT_FOUND"))
    "originalError" (.str "NOT_FOUND")), by decide!, by decide!⟩

/-- Witness of C24 at an operation that always fails with
`{ statusCode: 404, code: 'RESOURCE_NOT_FOUND' }`, `maxAttempts = 3`. -/
theorem retry_non_retryable_witness :
    1 ≤ 3 ∧ alwaysFails resourceNotFound 1 = .rejected resourceNotFound ∧
      parseError resourceNotFound = .ok resourceNotFound ∧
      isRetryable resourceNotFound = .ok false ∧
      invocations (retry defaultHook 100 (alwaysFails resourceNotFound) 3).events = [1] ∧
      waits (retry defaultHook 100 (alwaysFails resourceNotFound) 3).events = [] :=
  ⟨by decide, rfl, by decide, by decide,
   (retry_non_retryable defaultHook 100 (alwaysFails resourceNotFound) 3 resourceNotFound
      resourceNotFound (by decide) rfl (by decide) (by decide)).1,
   (retry_non_retryable defaultHook 100 (alwaysFails resourceNotFound) 3 resourceNotFound
      resourceNotFound (by decide) rfl (by decide) (by decide)).2.1⟩

/-- C25 (failing input): an operation that fails with the non-retryable value
`{ statusCode: 404, code: 'RESOURCE_NOT_FOUND' }`.  When `retry` gives up it calls the
hook callback `handleError(err)`, which never returns: what `retry` raises is the
`RangeError` of the exhausted call stack, not the failure value, for every stack depth,
every hook configuration and every `maxAttempts >= 1`. -/
theorem retry_raises_range_error (cfg : HookOptions) (stack r : Nat) :
    (retry cfg stack (alwaysFails resourceNotFound) (r + 1)).outcome = .error .rangeError ∧
      (retry cfg stack (alwaysFails resourceNotFound) (r + 1)).outcome ≠
        .error (.value resourceNotFound) ∧
      (retry cfg stack (alwaysFails badGateway) 1).outcome = .error .rangeError := by
  have h1 : retry cfg stack (alwaysFails resourceNotFound) (r + 1) =
      ⟨lastAttempt 1, .error .rangeError⟩ := by
    unfold retry
    exact retryFrom_giveUp cfg stack _ (r + 1) r 1 .null resourceNotFound resourceNotFound
      false rfl (by decide) (by decide) (Or.inl rfl)
  have h2 : retry cfg stack (alwaysFails badGateway) 1 =
      ⟨lastAttempt 1, .error .rangeError⟩ := by
    unfold retry
    exact retryFrom_giveUp cfg stack _ 1 0 1 .null badGateway badGateway
      true rfl (by decide) (by decide) (Or.inr rfl)
  rw [h1, h2]
  exact ⟨rfl, by decide, rfl⟩

/-- C26 (failing input): the hook callback `handleError(err)`, for every `err`, every
hook configuration and every stack depth, performs no step (it writes no error state and
calls no `onError`) and ends in a `RangeError`, while the function `handleError` of
errorHandler.js returns a result for the same failure. -/
theorem hook_handleError_never_returns (cfg : HookOptions) (stack : Nat)
    (err customOptions : JSVal) :
    (hookHandleError cfg stack err customOptions).outcome = .error .rangeError ∧
      (hookHandleError cfg stack err customOptions).events = [] ∧
      (∀ details, (hookHandleError cfg stack err customOptions).outcome ≠ .ok details) ∧
      (match handleError true (.str "NOT_FOUND")
          (objLit [("logError", .bool true), ("showDetails", .bool false)]) with
        | .ok h => getField h.result "code"
        | .error _ => .undefined) = .str "NOT_FOUND" := by
  rw [hookHandleError_overflow]
  refine ⟨?_, ?_, ?_, ?_⟩
  · rfl
  · rfl
  · intro details h
    cases h
  · decide!

/-- C27: for every `maxAttempts >= 1` and every operation, `retry` invokes the operation
at attempts 1, 2, ..., `n` for some `n <= maxAttempts`; when every attempt fails with a
retryable failure, it invokes the operation exactly `maxAttempts` times, waits after
each attempt `i < maxAttempts` for `getRetryDelay(parseError(failure_i), i)`, performs no
wait after the last attempt, and then raises. -/
theorem retry_bounded (cfg : HookOptions) (stack : Nat) (fn : Nat → Settled)
    (maxAttempts : Nat) (hmax : 1 ≤ maxAttempts) :
    (∃ n, n ≤ maxAttempts ∧
      invocations (retry cfg stack fn maxAttempts).events = List.range' 1 n) ∧
    ((∀ i, 1 ≤ i → i ≤ maxAttempts → ∃ err p, fn i = .rejected err ∧
        parseError err = .ok p ∧ isRetryable p = .ok true) →
      (retry cfg stack fn maxAttempts).events =
        retriedAttempts (delayAfter fn) 1 (maxAttempts - 1) ++ lastAttempt maxAttempts ∧
      invocations (retry cfg stack fn maxAttempts).events = List.range' 1 maxAttempts ∧
      waits (retry cfg stack fn maxAttempts).events =
        (List.range' 1 (maxAttempts - 1)).map (delayAfter fn) ∧
      (∀ i, 1 ≤ i → i < maxAttempts → ∃ err p, fn i = .rejected err ∧
        parseError err = .ok p ∧ getRetryDelay p i = .ok (delayAfter fn i)) ∧
      (∃ t, (retry cfg stack fn maxAttempts).outcome = .error t)) := by
  constructor
  · exact retryFrom_invocations cfg stack fn maxAttempts maxAttempts 1 .null
  · intro hfail
    obtain ⟨r, rfl⟩ : ∃ r, maxAttempts = r + 1 := ⟨maxAttempts - 1, by omega⟩
    have hrun : retry cfg stack fn (r + 1) =
        ⟨retriedAttempts (delayAfter fn) 1 r ++ lastAttempt (r + 1), .error .rangeError⟩ := by
      unfold retry
      exact retryFrom_all_fail cfg stack fn (r + 1) hfail r 1 .null (le_refl _) (by omega)
    rw [hrun, Nat.add_sub_cancel]
    refine ⟨rfl, ?_, ?_, ?_, ⟨_, rfl⟩⟩
    · rw [invocations_append, invocations_retriedAttempts]
      simp [lastAttempt, invocations, List.range'_concat]
      omega
    · rw [waits_append, waits_retriedAttempts]
      simp [lastAttempt, waits]
    · intro i h1 h2
      obtain ⟨err, p, hfn, hp, hr⟩ := hfail i h1 (by omega)
      obtain ⟨d, hd⟩ := getRetryDelay_defined p true hr i h1
      refine ⟨err, p, hfn, hp, ?_⟩
      rw [hd]
      simp [delayAfter, hfn, hp, hd]

/-- Witness of C27 at an operation that always fails with the retryable parsed error
`{ code: 'NO_RESPONSE_FROM_FUNCTION', statusCode: 502 }`, `maxAttempts = 3`. -/
theorem retry_bounded_witness :
    1 ≤ 3 ∧
      invocations (retry defaultHook 100 (alwaysFails badGateway) 3).events = [1, 2, 3] ∧
      waits (retry defaultHook 100 (alwaysFails badGateway) 3).events =
        [delayAfter (alwaysFails badGateway) 1, delayAfter (alwaysFails badGateway) 2] := by
  have h := (retry_bounded defaultHook 100 (alwaysFails badGateway) 3 (by decide)).2
    (fun i _ _ => ⟨badGateway, badGateway, rfl, by decide, by decide⟩)
  exact ⟨by decide, h.2.1, h.2.2.1⟩

/-- C28 (failing input): an operation that rejects with
`{ response: { status: 500, headers: {} } }`.  In the catch block of `retry` the call
`parseError(err)` throws before `setIsLoading(false)` is reached: for every
`maxAttempts >= 1`, every hook configuration and every stack depth, `retry` raises the
`TypeError` after the steps `setIsLoading(true)`, `clearError()` and one invocation, so
the last write of the busy flag before it raises is `true`, and the flag is `true`
afterwards whatever it was before. -/
theorem retry_leaves_busy_flag (cfg : HookOptions) (stack r : Nat) (flag : Bool) :
    parseError plainHeadersResponse = .error .typeError ∧
      (retry cfg stack (alwaysFails plainHeadersResponse) (r + 1)).outcome =
        .error (.abort .typeError) ∧
      (retry cfg stack (alwaysFails plainHeadersResponse) (r + 1)).events =
        [.setIsLoading true, .clearError, .invoke 1] ∧
      flagAfter flag (retry cfg stack (alwaysFails plainHeadersResponse) (r + 1)).events =
        true := by
  have h : parseError plainHeadersResponse = .error .typeError := by decide!
  have hrun : retry cfg stack (alwaysFails plainHeadersResponse) (r + 1) =
      ⟨[.setIsLoading true, .clearError, .invoke 1], .error (.abort .typeError)⟩ := by
    unfold retry retryFrom
    simp [alwaysFails, h]
  rw [hrun]
  exact ⟨h, rfl, rfl, rfl⟩

/-- C29: a native exception without a truthy `code` that also carries a `response` is
classified by the exception branch.  For a message that is a string, `parseError` returns
an object whose `code` is never `HTTP_<status>`, whose `category` is not `HTTP`, and that
has no `httpStatus`; every other exception with the same message, whatever else it
carries, gets the same value in every property other than `originalError` and `stack`
(the two properties that hold the failure value itself and its stack). -/
theorem parseError_exception_with_response (props : List (String × JSVal)) (m : String)
    (hcode : truthy (getField (.obj .error props) "code") = false)
    (_hresp : truthy (getField (.obj .error props) "response") = true)
    (hm : getField (.obj .error props) "message" = .str m) :
    ∃ p, parseError (.obj .error props) = .ok p ∧
      (∀ st, getField p "code" ≠ .str ("HTTP_" ++ st)) ∧
      getField p "category" ≠ .str "HTTP" ∧
      lookupProp (ownProps p) "httpStatus" = none ∧
      ∀ props2, truthy (getField (.obj .error props2) "code") = false →
        getField (.obj .error props2) "message" = .str m →
        ∃ q, parseError (.obj .error props2) = .ok q ∧
          ∀ k, k ≠ "originalError" → k ≠ "stack" → getField p k = getField q k := by
  have hn := exceptionDescriptor_not_http m (.obj .error props)
    (getField (.obj .error props) "stack")
  refine ⟨_, parseError_exception_descriptor props m hcode hm, hn.1, hn.2.1, hn.2.2, ?_⟩
  intro props2 hcode2 hm2
  refine ⟨_, parseError_exception_descriptor props2 m hcode2 hm2, ?_⟩
  intro k h1 h2
  exact exceptionDescriptor_fields m _ _ _ _ k h1 h2

/-- Witness of C29 at `new Error('request failed')` carrying a response with status 502
and the header `x-vercel-error: NOT_FOUND`. -/
theorem parseError_exception_with_response_witness :
    truthy (getField exceptionWithHeaders "code") = false ∧
      truthy (getField exceptionWithHeaders "response") = true ∧
      getField exceptionWithHeaders "message" = .str "request failed" ∧
      ∃ p, parseError exceptionWithHeaders = .ok p ∧
        (∀ st, getField p "code" ≠ .str ("HTTP_" ++ st)) ∧
        getField p "category" ≠ .str "HTTP" ∧
        lookupProp (ownProps p) "httpStatus" = none ∧
        ∀ props2, truthy (getField (.obj .error props2) "code") = false →
          getField (.obj .error props2) "message" = .str "request failed" →
          ∃ q, parseError (.obj .error props2) = .ok q ∧
            ∀ k, k ≠ "originalError" → k ≠ "stack" → getField p k = getField q k :=
  ⟨by decide, by decide, by decide,
   parseError_exception_with_response _ "request failed" (by decide) (by decide)
     (by decide)⟩

/-- C30: only the first run of upper-case letters and underscores of an exception
message is tried.  For a native exception without a truthy `code` whose message has a
first run `c` that is no key of the registry, `parseError` returns the synthesized
`UNKNOWN_ERROR` object (`statusCode` 500, `message` the exception message), whose `code`
is the code of no registry entry, whatever the rest of the message contains. -/
theorem parseError_first_run_only (props : List (String × JSVal)) (m c : String)
    (hcode : truthy (getField (.obj .error props) "code") = false)
    (hm : getField (.obj .error props) "message" = .str m)
    (hrun : firstCodeRun m = some c)
    (hreg : lookupProp (ownProps ALL_VERCEL_ERRORS) c = none) :
    ∃ p, parseError (.obj .error props) = .ok p ∧
      getField p "code" = .str "UNKNOWN_ERROR" ∧
      getField p "statusCode" = .num 500 ∧
      getField p "message" = .str m ∧
      ∀ e ∈ ownProps ALL_VERCEL_ERRORS, getField p "code" ≠ getField e.2 "code" := by
  have hcodeU : getField (exceptionDescriptor m (.obj .error props)
      (getField (.obj .error props) "stack")) "code" = .str "UNKNOWN_ERROR" := by
    unfold exceptionDescriptor
    simp only [hrun, hreg]
    simp [getField, lookupProp]
  refine ⟨_, parseError_exception_descriptor props m hcode hm, hcodeU, ?_, ?_, ?_⟩
  · unfold exceptionDescriptor
    simp only [hrun, hreg]
    simp [getField, lookupProp]
  · unfold exceptionDescriptor
    simp only [hrun, hreg]
    simp [getField, lookupProp]
  · intro e he
    rw [hcodeU]
    exact fun h => merged_entries_not_unknown e he h.symm

/-- Witness of C30 at `new Error('Error: NOT_FOUND')`: the message contains the registry
code `NOT_FOUND`, its first run is `E`. -/
theorem parseError_first_run_only_witness :
    truthy (getField prefixedException "code") = false ∧
      getField prefixedException "message" = .str "Error: NOT_FOUND" ∧
      firstCodeRun "Error: NOT_FOUND" = some "E" ∧
      lookupProp (ownProps ALL_VERCEL_ERRORS) "E" = none ∧
      (lookupProp (ownProps ALL_VERCEL_ERRORS) "NOT_FOUND").isSome = true ∧
      ∃ p, parseError prefixedException = .ok p ∧
        getField p "code" = .str "UNKNOWN_ERROR" ∧
        getField p "statusCode" = .num 500 ∧
        getField p "message" = .str "Error: NOT_FOUND" ∧
        ∀ e ∈ ownProps ALL_VERCEL_ERRORS, getField p "code" ≠ getField e.2 "code" :=
  ⟨by decide, by decide, by decide, by decide!, by decide!,
   parseError_first_run_only _ "Error: NOT_FOUND" "E" (by decide) (by decide) (by decide)
     (by decide!)⟩

/-- C31 (counterexample): `FUNCTION_THROTTLED` is the only code that both partitions
define.  The partitions hold 54 and 22 entries and the merged registry 75: one entry
fewer than the two partitions together, not two or more. -/
theorem partitions_share_one_code :
    sharedCodes = ["FUNCTION_THROTTLED"] ∧
      (ownProps APPLICATION_ERRORS).length = 54 ∧
      (ownProps PLATFORM_ERRORS).length = 22 ∧
      (ownProps ALL_VERCEL_ERRORS).length = 75 ∧
      ¬ ((ownProps ALL_VERCEL_ERRORS).length + 2 ≤
        (ownProps APPLICATION_ERRORS).length + (ownProps PLATFORM_ERRORS).length) := by
  decide!

/-- C31 (amended): a code that both the application partition and the platform partition
define is `FUNCTION_THROTTLED`; its two entries differ in `category`, `statusCode`,
`actionable` and `contactSupport`, the merged registry holds the platform entry, and the
merged registry has exactly one entry fewer than the two partitions together. -/
theorem partitions_overlap (c : String) (a d : JSVal)
    (ha : lookupProp (ownProps APPLICATION_ERRORS) c = some a)
    (hd : lookupProp (ownProps PLATFORM_ERRORS) c = some d) :
    c = "FUNCTION_THROTTLED" ∧
      getField a "category" ≠ getField d "category" ∧
      getField a "statusCode" ≠ getField d "statusCode" ∧
      getField a "actionable" ≠ getField d "actionable" ∧
      getField a "contactSupport" ≠ getField d "contactSupport" ∧
      lookupProp (ownProps ALL_VERCEL_ERRORS) c = some d ∧
      (ownProps ALL_VERCEL_ERRORS).length + 1 =
        (ownProps APPLICATION_ERRORS).length + (ownProps PLATFORM_ERRORS).length := by
  have hc : c = "FUNCTION_THROTTLED" :=
    application_shared_key (c, a) (lookupProp_mem ha) (by rw [hd]; rfl)
  subst hc
  have ha2 : lookupProp (ownProps APPLICATION_ERRORS) "FUNCTION_THROTTLED" =
      some (getByKey APPLICATION_ERRORS "FUNCTION_THROTTLED") := by decide!
  have hd2 : lookupProp (ownProps PLATFORM_ERRORS) "FUNCTION_THROTTLED" =
      some (getByKey PLATFORM_ERRORS "FUNCTION_THROTTLED") := by decide!
  rw [ha2] at ha
  rw [hd2] at hd
  cases ha
  cases hd
  exact ⟨rfl, by decide!, by decide!, by decide!, by decide!, by decide!, by decide!⟩

/-- Witness of the amended C31 at `FUNCTION_THROTTLED`. -/
theorem partitions_overlap_witness :
    lookupProp (ownProps APPLICATION_ERRORS) "FUNCTION_THROTTLED" =
        some (getByKey APPLICATION_ERRORS "FUNCTION_THROTTLED") ∧
      lookupProp (ownProps PLATFORM_ERRORS) "FUNCTION_THROTTLED" =
        some (getByKey PLATFORM_ERRORS "FUNCTION_THROTTLED") ∧
      getField (getByKey APPLICATION_ERRORS "FUNCTION_THROTTLED") "statusCode" ≠
        getField (getByKey PLATFORM_ERRORS "FUNCTION_THROTTLED") "statusCode" ∧
      (ownProps ALL_VERCEL_ERRORS).length + 1 =
        (ownProps APPLICATION_ERRORS).length + (ownProps PLATFORM_ERRORS).length :=
  ⟨by decide!, by decide!,
   (partitions_overlap "FUNCTION_THROTTLED" _ _ (by decide!) (by decide!)).2.2.1,
   (partitions_overlap "FUNCTION_THROTTLED" (getByKey APPLICATION_ERRORS "FUNCTION_THROTTLED")
      (getByKey PLATFORM_ERRORS "FUNCTION_THROTTLED") (by decide!) (by decide!)).2.2.2.2.2.2⟩

/-- C32: for every raw value that `parseError` accepts and all attempt numbers
`1 <= a <= b`, `getRetryDelay` returns at both attempts, with
`1000 <= getRetryDelay(raw, a) <= getRetryDelay(raw, b) <= 30000`. -/
theorem getRetryDelay_bounds (raw p : JSVal) (a b : Nat) (hp : parseError raw = .ok p)
    (ha : 1 ≤ a) (hab : a ≤ b) :
    ∃ da db, getRetryDelay raw a = .ok da ∧ getRetryDelay raw b = .ok db ∧
      1000 ≤ da ∧ da ≤ db ∧ db ≤ 30000 := by
  have hpow : 2 ^ (a - 1) ≤ 2 ^ (b - 1) := Nat.pow_le_pow_right (by decide) (by omega)
  have hone : 1 ≤ 2 ^ (a - 1) := Nat.one_le_two_pow
  refine ⟨_, _, getRetryDelay_of_parsed raw p a hp ha,
    getRetryDelay_of_parsed raw p b hp (by omega), ?_⟩
  generalize 2 ^ (a - 1) = x at hpow hone
  generalize 2 ^ (b - 1) = y at hpow
  by_cases h1 : getField p "code" = .str "FUNCTION_THROTTLED"
  · simp only [if_pos h1]
    omega
  · by_cases h2 : getField p "statusCode" = .num 429
    · simp only [if_neg h1, if_pos h2]
      omega
    · simp only [if_neg h1, if_neg h2]
      omega

/-- Witness of C32 at the pre-parsed object `{ code: 'FUNCTION_THROTTLED' }` and the
attempts 1 and 4: the delays are 5000 and 8000. -/
theorem getRetryDelay_bounds_witness :
    parseError throttledObject = .ok throttledObject ∧ 1 ≤ 1 ∧ 1 ≤ 4 ∧
      getRetryDelay throttledObject 1 = .ok 5000 ∧
      getRetryDelay throttledObject 4 = .ok 8000 ∧
      ∃ da db, getRetryDelay throttledObject 1 = .ok da ∧
        getRetryDelay throttledObject 4 = .ok db ∧ 1000 ≤ da ∧ da ≤ db ∧ db ≤ 30000 :=
  ⟨by decide, by decide, by decide, by decide, by decide,
   getRetryDelay_bounds throttledObject throttledObject 1 4 (by decide) (by decide)
     (by decide)⟩

/-- C33 (failing input): for `{ response: { status: 500 } }`, which `parseError`
classifies as `HTTP_500` with `actionable: false` and without `contactSupport`,
`handleError` reports `actionable: true` while `createErrorResponse` reports
`actionable: false`, and `contactSupport` is `false` in the first and `undefined` in the
second.  For the pre-parsed object `{ code: 'CUSTOM_ERROR', statusCode: 400,
actionable: false, contactSupport: true }` `handleError` reports `actionable: true` and
`contactSupport: false`, `createErrorResponse` the flags of the object. -/
theorem facade_flags_disagree (hasConsole : Bool) (now : String) :
    (parseError response500).map (fun p => getField p "code") = .ok (.str "HTTP_500") ∧
      handledField hasConsole response500 "actionable" = .ok (.bool true) ∧
      responseField now response500 "actionable" = .ok (.bool false) ∧
      handledField hasConsole response500 "contactSupport" = .ok (.bool false) ∧
      responseField now response500 "contactSupport" = .ok .undefined ∧
      parseError customParsed = .ok customParsed ∧
      handledField hasConsole customParsed "actionable" = .ok (.bool true) ∧
      responseField now customParsed "actionable" = .ok (.bool false) ∧
      handledField hasConsole customParsed "contactSupport" = .ok (.bool false) ∧
      responseField now customParsed "contactSupport" = .ok (.bool true) := by
  rw [responseField_eq now response500 "actionable" (Or.inl rfl),
    responseField_eq now response500 "contactSupport" (Or.inr rfl),
    responseField_eq now customParsed "actionable" (Or.inl rfl),
    responseField_eq now customParsed "contactSupport" (Or.inr rfl)]
  cases hasConsole <;> decide!

/-- C34: a plain object without a truthy `code` and without a truthy `response` (such as
an object that carries only a `statusCode`) is classified by the default branch:
`parseError` yields `UNKNOWN_ERROR` with `statusCode` 500, `isRetryable` is true for the
object and for its parsed error, and `retry` invokes an operation that always fails with
the object at the attempts 1 to `maxAttempts`, with `maxAttempts - 1` waits. -/
theorem status_only_object_retried (props : List (String × JSVal)) (cfg : HookOptions)
    (stack maxAttempts : Nat)
    (hcode : truthy (getField (.obj .plain props) "code") = false)
    (hresp : truthy (getField (.obj .plain props) "response") = false)
    (hmax : 1 ≤ maxAttempts) :
    (∃ p, parseError (.obj .plain props) = .ok p ∧
      getField p "code" = .str "UNKNOWN_ERROR" ∧ getField p "statusCode" = .num 500 ∧
      isRetryable p = .ok true) ∧
    isRetryable (.obj .plain props) = .ok true ∧
    invocations (retry cfg stack (alwaysFails (.obj .plain props)) maxAttempts).events =
      List.range' 1 maxAttempts ∧
    (waits (retry cfg stack (alwaysFails (.obj .plain props)) maxAttempts).events).length =
      maxAttempts - 1 := by
  have hp := parseError_default props hcode hresp
  have hr := isRetryable_defaultDescriptor (.obj .plain props)
  have hraw : isRetryable (.obj .plain props) = .ok true := by
    unfold isRetryable
    rw [hp]
    simp [bind, Except.bind, pure, Except.pure, defaultDescriptor, getField, lookupProp,
      includesNum, retryableStatusCodes]
  refine ⟨⟨_, hp, ?_, ?_, hr⟩, hraw, ?_⟩
  · simp [defaultDescriptor, getField, lookupProp]
  · simp [defaultDescriptor, getField, lookupProp]
  · obtain ⟨r, rfl⟩ : ∃ r, maxAttempts = r + 1 := ⟨maxAttempts - 1, by omega⟩
    have hrun : retry cfg stack (alwaysFails (.obj .plain props)) (r + 1) =
        ⟨retriedAttempts (delayAfter (alwaysFails (.obj .plain props))) 1 r ++
          lastAttempt (r + 1), .error .rangeError⟩ := by
      unfold retry
      exact retryFrom_all_fail cfg stack _ (r + 1)
        (fun i _ _ => ⟨_, _, rfl, hp, hr⟩) r 1 .null (le_refl _) (by omega)
    rw [hrun, Nat.add_sub_cancel]
    constructor
    · rw [invocations_append, invocations_retriedAttempts]
      simp [lastAttempt, invocations, List.range'_concat]
      omega
    · rw [waits_append, waits_retriedAttempts]
      simp [lastAttempt, waits]

/-- Witness of C34 at `{ statusCode: 404 }` with `maxAttempts = 3`, and at
`{ statusCode: 503 }`. -/
theorem status_only_object_retried_witness :
    truthy (getField statusOnly404 "code") = false ∧
      truthy (getField statusOnly404 "response") = false ∧
      isRetryable statusOnly404 = .ok true ∧
      invocations (retry defaultHook 100 (alwaysFails statusOnly404) 3).events = [1, 2, 3] ∧
      isRetryable statusOnly503 = .ok true :=
  ⟨by decide, by decide,
   (status_only_object_retried _ defaultHook 100 3 (by decide) (by decide) (by decide)).2.1,
   (status_only_object_retried [("statusCode", .num 404)] defaultHook 100 3 (by decide)
      (by decide) (by decide)).2.2.1,
   (status_only_object_retried [("statusCode", .num 503)] defaultHook 100 1 (by decide)
      (by decide) (by decide)).2.1⟩

/-- C35: for every code `c` of the merged registry, with entry `d`: the `statusCode` of
`d` is an integer `n` other than 408 and 429, `isRetryable(c)` is true exactly when
`n >= 500`, and `n >= 500` when `c` is in the retryable-code set or `n` in the
retryable-status list; every code of the retryable-code set is a code of the merged
registry. -/
theorem isRetryable_registry_code (c : String) (d : JSVal)
    (hreg : lookupProp (ownProps ALL_VERCEL_ERRORS) c = some d) :
    (∃ n : Int, getField d "statusCode" = .num n ∧
      isRetryable (.str c) = .ok (decide (500 ≤ n)) ∧
      n ≠ 408 ∧ n ≠ 429 ∧
      (c ∈ retryableCodes → 500 ≤ n) ∧
      (n ∈ retryableStatusCodes → 500 ≤ n)) ∧
    ∀ r ∈ retryableCodes, (lookupProp (ownProps ALL_VERCEL_ERRORS) r).isSome = true := by
  have hmem := lookupProp_mem hreg
  have h := merged_entries_retryable (c, d) hmem
  have hok := merged_entries_ok (c, d) hmem
  simp only at h hok
  obtain ⟨n, _, hn⟩ := isPositiveInteger_spec hok.2.1
  rw [hn] at h
  have hge : jsGe (.num n) 500 = .ok (decide (500 ≤ n)) := rfl
  refine ⟨⟨n, hn, ?_, ?_, ?_, ?_, ?_⟩, retryableCodes_registered⟩
  · rw [h.1, hge]
  · intro h0
    exact h.2.1 (by rw [h0])
  · intro h0
    exact h.2.2.1 (by rw [h0])
  · intro hc
    have h1 := h.2.2.2 (by simpa using hc)
    rw [hge] at h1
    simpa using h1
  · intro hs
    simp [retryableStatusCodes] at hs
    rcases hs with h0 | h0 | h0 | h0 | h0 | h0
    · exact absurd (by rw [h0]) h.2.1
    · exact absurd (by rw [h0]) h.2.2.1
    all_goals omega

/-- Witness of C35 at `FUNCTION_THROTTLED` (merged status code 500, retryable) and at
`NOT_FOUND` (status code 404, not retryable). -/
theorem isRetryable_registry_code_witness :
    lookupProp (ownProps ALL_VERCEL_ERRORS) "FUNCTION_THROTTLED" =
        some (getByKey PLATFORM_ERRORS "FUNCTION_THROTTLED") ∧
      isRetryable (.str "FUNCTION_THROTTLED") = .ok true ∧
      isRetryable (.str "NOT_FOUND") = .ok false ∧
      ∃ n : Int, getField (getByKey PLATFORM_ERRORS "FUNCTION_THROTTLED") "statusCode" = .num n ∧
        isRetryable (.str "FUNCTION_THROTTLED") = .ok (decide (500 ≤ n)) ∧
        n ≠ 408 ∧ n ≠ 429 ∧
        ("FUNCTION_THROTTLED" ∈ retryableCodes → 500 ≤ n) ∧
        (n ∈ retryableStatusCodes → 500 ≤ n) :=
  ⟨by decide!, by decide!, by decide!,
   (isRetryable_registry_code "FUNCTION_THROTTLED" _ (by decide!)).1⟩

/-- C36: for every code `c` of the merged registry, `shouldContactSupport(c)` is true
exactly when the platform partition defines `c`; every code of the platform partition
has the category `Internal`, the status code 500 and `isActionable` false; every code
that only the application partition defines has `shouldContactSupport` false. -/
theorem shouldContactSupport_platform (c : String) (d : JSVal)
    (hreg : lookupProp (ownProps ALL_VERCEL_ERRORS) c = some d) :
    shouldContactSupport (.str c) = .ok (lookupProp (ownProps PLATFORM_ERRORS) c).isSome ∧
    ((lookupProp (ownProps PLATFORM_ERRORS) c).isSome = true ∨
      (lookupProp (ownProps APPLICATION_ERRORS) c).isSome = true) ∧
    (∀ c2 d2, lookupProp (ownProps PLATFORM_ERRORS) c2 = some d2 →
      getErrorCategory (.str c2) = .ok (.str "Internal") ∧
      getErrorStatusCode (.str c2) = .ok (.num 500) ∧
      isActionable (.str c2) = .ok false ∧
      shouldContactSupport (.str c2) = .ok true) ∧
    (∀ c2 a2, lookupProp (ownProps APPLICATION_ERRORS) c2 = some a2 →
      lookupProp (ownProps PLATFORM_ERRORS) c2 = none →
      shouldContactSupport (.str c2) = .ok false) := by
  have hmem := lookupProp_mem hreg
  refine ⟨merged_entries_contact (c, d) hmem, ?_, ?_, ?_⟩
  · cases hp : lookupProp (ownProps PLATFORM_ERRORS) c with
    | some v => exact Or.inl rfl
    | none => exact Or.inr (merged_not_platform (c, d) hmem hp)
  · intro c2 d2 h2
    have hm := lookupProp_mem h2
    have hi := platform_entries_internal (c2, d2) hm
    have hc := merged_entries_contact (c2, d2) (lookupProp_mem (merged_of_platform (c2, d2) hm))
    simp only at hi hc
    rw [h2] at hc
    exact ⟨hi.1, hi.2.1, hi.2.2, hc⟩
  · intro c2 a2 h2 hp
    have hm := merged_of_application_only (c2, a2) (lookupProp_mem h2) hp
    have hc := merged_entries_contact (c2, a2) (lookupProp_mem hm)
    simp only at hc
    rw [hp] at hc
    exact hc

/-- Witness of C36 at `INTERNAL_CACHE_ERROR` (platform partition) and `NOT_FOUND`
(application partition only). -/
theorem shouldContactSupport_platform_witness :
    lookupProp (ownProps ALL_VERCEL_ERRORS) "INTERNAL_CACHE_ERROR" =
        some (getByKey PLATFORM_ERRORS "INTERNAL_CACHE_ERROR") ∧
      shouldContactSupport (.str "INTERNAL_CACHE_ERROR") = .ok true ∧
      isActionable (.str "INTERNAL_CACHE_ERROR") = .ok false ∧
      shouldContactSupport (.str "NOT_FOUND") = .ok false := by
  have h := shouldContactSupport_platform "INTERNAL_CACHE_ERROR"
    (getByKey PLATFORM_ERRORS "INTERNAL_CACHE_ERROR") (by decide!)
  have hp := h.2.2.1 "INTERNAL_CACHE_ERROR" (getByKey PLATFORM_ERRORS "INTERNAL_CACHE_ERROR")
    (by decide!)
  exact ⟨by decide!, hp.2.2.2, hp.2.2.1,
    h.2.2.2 "NOT_FOUND" (getByKey APPLICATION_ERRORS "NOT_FOUND") (by decide!) (by decide!)⟩

end MusicPlaylist
